import Mathlib

/-!
# Account lifecycle engine of the user service

A shallow embedding of `backend/userservice`: the domain model
(`internal/domain/user_domain.go`, `internal/domain/errors.go`) and the account
service (`internal/server/user_server.go`), followed by theorems about them.

Conventions of the embedding

* Go's string-typed enums (`UserStatus`, `UserRole`, `SubscriptionStatus`,
  `SubscriptionLevel`, `ActivityType`) are strings here as well, so that the
  comparisons the code performs on them are the comparisons on their raw values.
  Go orders strings bytewise; on valid UTF-8 that is the lexicographic order of
  the code points (`stringLess`).
* `time.Time` is an integer number of nanoseconds, `time.Duration` likewise;
  `t.After(u)` is `u < t` and `t.Add(d)` is `t + d`.
* A pointer that may be nil is an `Option`; a method with a pointer receiver that
  assigns to its receiver returns the updated value next to its result.
* A Go result `(value, error)` is a pair of options, so that "no value and an
  error" is a statement about the result and not a property of its type.
* The two stores, the token manager, the hash primitive, the clock and the UUID
  source are the interfaces and libraries the service is built on; they are
  parameters (`Env`), and every store call is recorded in a trace.
-/

namespace UserService

/-! ## Domain model (`internal/domain/user_domain.go`) -/

abbrev Time := Int
abbrev Duration := Int

abbrev UserStatus := String
abbrev UserRole := String
abbrev SubscriptionStatus := String
abbrev SubscriptionLevel := String
abbrev ActivityType := String

def UserStatusUnspecified : UserStatus := "UNSPECIFIED"
def UserStatusActive : UserStatus := "ACTIVE"
def UserStatusInactive : UserStatus := "INACTIVE"
def UserStatusSuspended : UserStatus := "SUSPENDED"
def UserStatusPending : UserStatus := "PENDING"
def UserStatusDeleted : UserStatus := "DELETED"
def UserStatusBannedPermanently : UserStatus := "BANNED_PERMANENTLY"
def UserStatusBannedTemporarily : UserStatus := "BANNED_TEMPORARILY"

def UserRoleUnspecified : UserRole := "UNSPECIFIED"
def UserRoleUser : UserRole := "USER"
def UserRoleModerator : UserRole := "MODERATOR"
def UserRoleAdmin : UserRole := "ADMIN"
def UserRoleSuperAdmin : UserRole := "SUPER_ADMIN"
def UserRoleBannedUser : UserRole := "BANNED_USER"

def SubscriptionStatusUnspecified : SubscriptionStatus := "UNSPECIFIED"
def SubscriptionStatusInactive : SubscriptionStatus := "INACTIVE"
def SubscriptionStatusTrial : SubscriptionStatus := "TRIAL"
def SubscriptionStatusActive : SubscriptionStatus := "ACTIVE"
def SubscriptionStatusPastDue : SubscriptionStatus := "PAST_DUE"
def SubscriptionStatusCanceled : SubscriptionStatus := "CANCELED"
def SubscriptionStatusExpired : SubscriptionStatus := "EXPIRED"
def SubscriptionStatusPaused : SubscriptionStatus := "PAUSED"
def SubscriptionStatusPending : SubscriptionStatus := "PENDING"
def SubscriptionStatusGracePeriod : SubscriptionStatus := "GRACE_PERIOD"
def SubscriptionStatusUpgrading : SubscriptionStatus := "UPGRADING"
def SubscriptionStatusDowngrading : SubscriptionStatus := "DOWNGRADING"

def SubscriptionLevelUnspecified : SubscriptionLevel := "UNSPECIFIED"
def SubscriptionLevelFree : SubscriptionLevel := "FREE"
def SubscriptionLevelBasic : SubscriptionLevel := "BASIC"
def SubscriptionLevelStandard : SubscriptionLevel := "STANDARD"
def SubscriptionLevelPro : SubscriptionLevel := "PRO"
def SubscriptionLevelPremium : SubscriptionLevel := "PREMIUM"
def SubscriptionLevelEnterprise : SubscriptionLevel := "ENTERPRISE"
def SubscriptionLevelLifetime : SubscriptionLevel := "LIFETIME"
def SubscriptionLevelStarter : SubscriptionLevel := "STARTER"
def SubscriptionLevelBusiness : SubscriptionLevel := "BUSINESS"
def SubscriptionLevelUltimate : SubscriptionLevel := "ULTIMATE"

def ActivityTypeLogin : ActivityType := "LOGIN"
def ActivityTypePasswordChange : ActivityType := "PASSWORD_CHANGE"
def ActivityTypeProfileUpdate : ActivityType := "PROFILE_UPDATE"
def ActivityTypeSubscriptionStart : ActivityType := "SUBSCRIPTION_START"
def ActivityTypeSubscriptionEnd : ActivityType := "SUBSCRIPTION_END"
def ActivityTypeBan : ActivityType := "BAN"
def ActivityTypeUnban : ActivityType := "UNBAN"

/-- The struct `BanInfo`; `BannedUntil` is nil for a permanent ban. -/
structure BanInfo where
  IsBanned : Bool
  BannedAt : Time
  BannedUntil : Option Time
  Reason : String
  BannedBy : String
  deriving DecidableEq, Repr

/-- The struct `SubscriptionInfo`. `Amount` is a `float64` that the service only
carries around; it is an integer number of minor units here. -/
structure SubscriptionInfo where
  Status : SubscriptionStatus
  Level : SubscriptionLevel
  SubscriptionStart : Time
  SubscriptionEnd : Option Time
  TrialEnd : Option Time
  SubscriptionID : String
  PaymentMethod : String
  AutoRenew : Bool
  NextBillingDate : Option Time
  Amount : Int
  Currency : String
  CanceledAt : Option Time
  CancelReason : String
  GracePeriodEnd : Option Time
  Features : List String
  deriving DecidableEq, Repr

/-- The struct `User`; `Metadata` (a `map[string]string`) is a list of pairs, of
which the service only takes the length. -/
structure User where
  ID : String
  ServiceEmail : String
  Name : String
  Password : String
  Email : String
  Phone : String
  Status : UserStatus
  Role : UserRole
  CreatedAt : Time
  UpdatedAt : Time
  LastLoginAt : Option Time
  BanInfo : Option BanInfo
  Subscription : Option SubscriptionInfo
  Metadata : List (String × String)
  deriving DecidableEq, Repr

/-- A value stored in a `map[string]interface{}` by the service. -/
inductive Detail where
  | str (s : String)
  | bool (b : Bool)
  | duration (d : Option Duration)
  deriving DecidableEq, Repr

/-- The struct `UserActivity`. -/
structure UserActivity where
  ID : String
  UserID : String
  ActivityType : ActivityType
  IPAddress : String
  UserAgent : String
  DeviceID : String
  Details : List (String × Detail)
  CreatedAt : Time
  deriving DecidableEq, Repr

/-- The struct `SubscriptionHistoryEntry`. -/
structure SubscriptionHistoryEntry where
  ID : String
  UserID : String
  OldLevel : SubscriptionLevel
  NewLevel : SubscriptionLevel
  OldStatus : SubscriptionStatus
  NewStatus : SubscriptionStatus
  Reason : String
  ChangedBy : String
  ChangedAt : Time
  Metadata : List (String × Detail)
  deriving DecidableEq, Repr

/-- The struct `UserFilter`. -/
structure UserFilter where
  Page : Int
  PageSize : Int
  Search : String
  Status : UserStatus
  Role : UserRole
  IsBanned : Option Bool
  SubStatus : Option SubscriptionStatus
  SubLevel : Option SubscriptionLevel
  deriving DecidableEq, Repr

/-- Go's `<` on two strings: the lexicographic order of their bytes, which for
UTF-8 is the lexicographic order of their characters. -/
def stringLess (a b : String) : Bool := decide (a.data < b.data)

/-- The method `(*User).IsBanned`, with `now` the reading of `time.Now()`. It
returns its result and the receiver, whose `BanInfo.IsBanned` it clears when a
temporary ban has run out. -/
def User.IsBanned (u : User) (now : Time) : Bool × User :=
  match u.BanInfo with
  | none => (false, u)
  | some b =>
    if !b.IsBanned then (false, u)
    else
      match b.BannedUntil with
      | some untl =>
        if untl < now then (false, { u with BanInfo := some { b with IsBanned := false } })
        else (true, u)
      | none => (true, u)

/-- The statuses `HasValidSubscription` loops over, in its order. -/
def activeStatuses : List SubscriptionStatus :=
  [SubscriptionStatusActive, SubscriptionStatusTrial, SubscriptionStatusGracePeriod]

/-- The loop of `HasValidSubscription`: at the first status equal to the
subscription's, the end date decides. -/
def hasValidLoop (s : SubscriptionInfo) (now : Time) : List SubscriptionStatus → Bool
  | [] => false
  | status :: rest =>
    if s.Status = status then
      match s.SubscriptionEnd with
      | some e => if e < now then false else true
      | none => true
    else hasValidLoop s now rest

/-- The method `(*User).HasValidSubscription`, with `now` the reading of `time.Now()`. -/
def User.HasValidSubscription (u : User) (now : Time) : Bool :=
  match u.Subscription with
  | none => false
  | some s => hasValidLoop s now activeStatuses

/-- The method `(*User).CanAccessFeature`. -/
def User.CanAccessFeature (u : User) (now : Time) (feature : String) : Bool :=
  if !u.HasValidSubscription now then false
  else
    match u.Subscription with
    | none => false
    | some s => s.Features.any (fun f => f = feature)

/-- The method `(*User).IsAdmin`. -/
def User.IsAdmin (u : User) : Bool :=
  u.Role = UserRoleAdmin || u.Role = UserRoleSuperAdmin || u.Role = UserRoleModerator

/-- The method `(*BanInfo).Unban`. -/
def BanInfo.Unban (b : BanInfo) : BanInfo :=
  { b with IsBanned := false, BannedUntil := none }

/-- The method `(*SubscriptionInfo).Cancel`, with `now` the reading of `time.Now()`. -/
def SubscriptionInfo.Cancel (s : SubscriptionInfo) (now : Time) (reason : String)
    (immediate : Bool) : SubscriptionInfo :=
  { s with
    Status := SubscriptionStatusCanceled
    CancelReason := reason
    CanceledAt := some now
    SubscriptionEnd := if immediate then some now else s.SubscriptionEnd
    AutoRenew := false }

/-- The method `(*UserActivity).AddDetail`: an assignment to a map key. -/
def UserActivity.AddDetail (a : UserActivity) (key : String) (value : Detail) : UserActivity :=
  { a with Details := a.Details.filter (fun kv => kv.1 ≠ key) ++ [(key, value)] }

/-! ## Errors (`internal/domain/errors.go`) -/

/-- A Go `error` value as the service and its callers tell them apart.
`sentinel` is the value of a package-level `errors.New` variable, which callers
compare by identity; `domain` is a `*DomainError` with its `Code` and `Message`
(no error here has a `Cause`); `other` is any error made on the spot
(`errors.New` inside a function, `fmt.Errorf`, a driver's error). -/
inductive Error where
  | sentinel (message : String)
  | domain (Code : String) (Message : String)
  | other (message : String)
  deriving DecidableEq, Repr

def ErrCodeUserNotFound : String := "USER_NOT_FOUND"
def ErrCodeUserAlreadyExists : String := "USER_ALREADY_EXISTS"
def ErrCodeInvalidCredentials : String := "INVALID_CREDENTIALS"
def ErrCodeUserBanned : String := "USER_BANNED"
def ErrCodeSubscriptionRequired : String := "SUBSCRIPTION_REQUIRED"
def ErrCodeInvalidToken : String := "INVALID_TOKEN"

def NewDomainError (code message : String) : Error := .domain code message

def ErrUserNotFound : Error := .sentinel "user not found"
def ErrUserAlreadyExists : Error := .sentinel "user already exists"
def ErrInvalidCredentials : Error := .sentinel "invalid credentials"
def ErrUserBanned : Error := .sentinel "user is banned"
def ErrSubscriptionRequired : Error :=
  NewDomainError ErrCodeSubscriptionRequired "Требуется подписка"
def ErrInvalidToken : Error := NewDomainError ErrCodeInvalidToken "Некорректный токен"

/-- The function `NewUserNotFoundError`. -/
def NewUserNotFoundError (userID : String) : Error :=
  NewDomainError ErrCodeUserNotFound ("Пользователь с ID '" ++ userID ++ "' не найден")

/-- The function `NewUserNotFoundByEmailError`. -/
def NewUserNotFoundByEmailError (email : String) : Error :=
  NewDomainError ErrCodeUserNotFound ("Пользователь с email '" ++ email ++ "' не найден")

/-- The field `Code` of an error that is a `*DomainError`; other errors have none. -/
def Error.code : Error → Option String
  | .domain c _ => some c
  | _ => none

/-! ## The stores and the other collaborators of the service -/

/-- The interface `domain.UserRepository` over a store state `σ`: a method takes
the state and returns its result and the next state. The methods the service
does not call are left out. -/
structure UserRepository (σ : Type) where
  Create : User → σ → Option Error × σ
  FindByID : String → σ → Except Error User × σ
  FindByEmail : String → σ → Except Error User × σ
  Update : User → σ → Option Error × σ
  List : UserFilter → σ → Except Error (List User × Int) × σ
  Exists : String → String → σ → Except Error Bool × σ
  Ban : String → BanInfo → σ → Option Error × σ
  Unban : String → σ → Option Error × σ
  UpdateSubscription : String → SubscriptionInfo → σ → Option Error × σ

/-- The interface `domain.AuditRepository` over a store state `τ`, restricted to
the methods the service calls. -/
structure AuditRepository (τ : Type) where
  SaveMetadata : String → List (String × String) → τ → Option Error × τ
  GetMetadata : String → τ → Except Error (List (String × String)) × τ
  UpdateMetadata : String → List (String × String) → τ → Option Error × τ
  LogActivity : UserActivity → τ → Option Error × τ
  LogSubscriptionChange : SubscriptionHistoryEntry → τ → Option Error × τ
  LogBanChange : String → String → List (String × Detail) → τ → Option Error × τ

/-- The part of `jwt.Claims` the service reads. -/
structure Claims where
  UserID : String
  deriving DecidableEq, Repr

/-- The two methods of `jwt.JWTManager` the service calls (package `pkg/jwt`). -/
structure JWTManager where
  GenerateToken : String → String → String → Except Error String
  ValidateToken : String → Except Error Claims

/-- What the service is built on: its two repositories, its token manager, the
two `bcrypt` functions, and the ambient sources `time.Now` (the `n`-th reading
of the clock), `uuid.New().String()` and `Time.Format` with the layout of
`generateUUID`. -/
structure Env (σ τ : Type) where
  userRepo : UserRepository σ
  auditRepo : AuditRepository τ
  jwtManager : JWTManager
  GenerateFromPassword : String → Except Error String
  CompareHashAndPassword : String → String → Option Error
  clock : Nat → Time
  uuid : Nat → String
  Format : Time → String

/-- A call on one of the two stores. -/
inductive Call where
  | Exists (email username : String)
  | Create (user : User)
  | FindByID (id : String)
  | FindByEmail (email : String)
  | Update (user : User)
  | Ban (userID : String) (banInfo : BanInfo)
  | Unban (userID : String)
  | UpdateSubscription (userID : String) (subscription : SubscriptionInfo)
  | SaveMetadata (userID : String) (metadata : List (String × String))
  | GetMetadata (userID : String)
  | UpdateMetadata (userID : String) (metadata : List (String × String))
  | LogActivity (activity : UserActivity)
  | LogSubscriptionChange (entry : SubscriptionHistoryEntry)
  | LogBanChange (userID action : String) (details : List (String × Detail))
  | List (filter : UserFilter)
  deriving DecidableEq, Repr

/-- A store call together with the error it returned (`none` for nil). -/
structure Event where
  call : Call
  err : Option Error
  deriving DecidableEq, Repr

/-- The state the service runs in: the states of the two stores, the number of
readings taken so far from the ambient sources, and the store calls issued so
far, oldest first. -/
structure World (σ τ : Type) where
  users : σ
  audit : τ
  tick : Nat
  trace : List Event

/-- The error of a Go result `(value, error)`. -/
def errOf {α : Type} : Except Error α → Option Error
  | .ok _ => none
  | .error e => some e

section Service

variable {σ τ : Type}

/-- One reading of `time.Now()`. -/
def timeNow (env : Env σ τ) (w : World σ τ) : Time × World σ τ :=
  (env.clock w.tick, { w with tick := w.tick + 1 })

/-- The function `domain.GenerateUUID`: `uuid.New().String()`. -/
def GenerateUUID (env : Env σ τ) (w : World σ τ) : String × World σ τ :=
  (env.uuid w.tick, { w with tick := w.tick + 1 })

/-- The function `generateUUID` of the domain package. -/
def generateUUID (env : Env σ τ) (w : World σ τ) : String × World σ τ :=
  ("generated-uuid-" ++ env.Format (timeNow env w).1, (timeNow env w).2)

/-- The function `NewUserActivity`; the fields of the literal are evaluated in order. -/
def NewUserActivity (env : Env σ τ) (userID : String) (activityType : ActivityType)
    (ipAddress userAgent deviceID : String) (w : World σ τ) : UserActivity × World σ τ :=
  let r := generateUUID env w
  let t := timeNow env r.2
  ({ ID := r.1, UserID := userID, ActivityType := activityType, IPAddress := ipAddress,
     UserAgent := userAgent, DeviceID := deviceID, Details := [], CreatedAt := t.1 }, t.2)

/-- The function `NewSubscriptionHistoryEntry`. -/
def NewSubscriptionHistoryEntry (env : Env σ τ) (userID : String)
    (oldLevel newLevel : SubscriptionLevel) (oldStatus newStatus : SubscriptionStatus)
    (reason changedBy : String) (w : World σ τ) : SubscriptionHistoryEntry × World σ τ :=
  let r := generateUUID env w
  let t := timeNow env r.2
  ({ ID := r.1, UserID := userID, OldLevel := oldLevel, NewLevel := newLevel,
     OldStatus := oldStatus, NewStatus := newStatus, Reason := reason,
     ChangedBy := changedBy, ChangedAt := t.1, Metadata := [] }, t.2)

/-- The function `NewBanInfo`: `BannedAt` is one reading of the clock, and with a
duration `BannedUntil` is a second reading plus the duration. -/
def NewBanInfo (env : Env σ τ) (reason bannedBy : String) (duration : Option Duration)
    (w : World σ τ) : BanInfo × World σ τ :=
  let t := timeNow env w
  let banInfo : BanInfo :=
    { IsBanned := true, BannedAt := t.1, BannedUntil := none, Reason := reason,
      BannedBy := bannedBy }
  match duration with
  | some d =>
    let t2 := timeNow env t.2
    ({ banInfo with BannedUntil := some (t2.1 + d) }, t2.2)
  | none => (banInfo, t.2)

/-! ## Store calls, each recorded in the trace -/

def callExists (env : Env σ τ) (email username : String) (w : World σ τ) :
    Except Error Bool × World σ τ :=
  let r := env.userRepo.Exists email username w.users
  (r.1, { w with users := r.2, trace := w.trace ++ [⟨.Exists email username, errOf r.1⟩] })

def callCreate (env : Env σ τ) (user : User) (w : World σ τ) : Option Error × World σ τ :=
  let r := env.userRepo.Create user w.users
  (r.1, { w with users := r.2, trace := w.trace ++ [⟨.Create user, r.1⟩] })

def callFindByID (env : Env σ τ) (id : String) (w : World σ τ) :
    Except Error User × World σ τ :=
  let r := env.userRepo.FindByID id w.users
  (r.1, { w with users := r.2, trace := w.trace ++ [⟨.FindByID id, errOf r.1⟩] })

def callFindByEmail (env : Env σ τ) (email : String) (w : World σ τ) :
    Except Error User × World σ τ :=
  let r := env.userRepo.FindByEmail email w.users
  (r.1, { w with users := r.2, trace := w.trace ++ [⟨.FindByEmail email, errOf r.1⟩] })

def callUpdate (env : Env σ τ) (user : User) (w : World σ τ) : Option Error × World σ τ :=
  let r := env.userRepo.Update user w.users
  (r.1, { w with users := r.2, trace := w.trace ++ [⟨.Update user, r.1⟩] })

def callList (env : Env σ τ) (filter : UserFilter) (w : World σ τ) :
    Except Error (List User × Int) × World σ τ :=
  let r := env.userRepo.List filter w.users
  (r.1, { w with users := r.2, trace := w.trace ++ [⟨.List filter, errOf r.1⟩] })

def callBan (env : Env σ τ) (userID : String) (banInfo : BanInfo) (w : World σ τ) :
    Option Error × World σ τ :=
  let r := env.userRepo.Ban userID banInfo w.users
  (r.1, { w with users := r.2, trace := w.trace ++ [⟨.Ban userID banInfo, r.1⟩] })

def callUnban (env : Env σ τ) (userID : String) (w : World σ τ) : Option Error × World σ τ :=
  let r := env.userRepo.Unban userID w.users
  (r.1, { w with users := r.2, trace := w.trace ++ [⟨.Unban userID, r.1⟩] })

def callUpdateSubscription (env : Env σ τ) (userID : String) (subscription : SubscriptionInfo)
    (w : World σ τ) : Option Error × World σ τ :=
  let r := env.userRepo.UpdateSubscription userID subscription w.users
  (r.1, { w with users := r.2,
                 trace := w.trace ++ [⟨.UpdateSubscription userID subscription, r.1⟩] })

def callSaveMetadata (env : Env σ τ) (userID : String) (metadata : List (String × String))
    (w : World σ τ) : Option Error × World σ τ :=
  let r := env.auditRepo.SaveMetadata userID metadata w.audit
  (r.1, { w with audit := r.2, trace := w.trace ++ [⟨.SaveMetadata userID metadata, r.1⟩] })

def callGetMetadata (env : Env σ τ) (userID : String) (w : World σ τ) :
    Except Error (List (String × String)) × World σ τ :=
  let r := env.auditRepo.GetMetadata userID w.audit
  (r.1, { w with audit := r.2, trace := w.trace ++ [⟨.GetMetadata userID, errOf r.1⟩] })

def callUpdateMetadata (env : Env σ τ) (userID : String) (metadata : List (String × String))
    (w : World σ τ) : Option Error × World σ τ :=
  let r := env.auditRepo.UpdateMetadata userID metadata w.audit
  (r.1, { w with audit := r.2, trace := w.trace ++ [⟨.UpdateMetadata userID metadata, r.1⟩] })

def callLogActivity (env : Env σ τ) (activity : UserActivity) (w : World σ τ) :
    Option Error × World σ τ :=
  let r := env.auditRepo.LogActivity activity w.audit
  (r.1, { w with audit := r.2, trace := w.trace ++ [⟨.LogActivity activity, r.1⟩] })

def callLogSubscriptionChange (env : Env σ τ) (entry : SubscriptionHistoryEntry)
    (w : World σ τ) : Option Error × World σ τ :=
  let r := env.auditRepo.LogSubscriptionChange entry w.audit
  (r.1, { w with audit := r.2, trace := w.trace ++ [⟨.LogSubscriptionChange entry, r.1⟩] })

def callLogBanChange (env : Env σ τ) (userID action : String)
    (details : List (String × Detail)) (w : World σ τ) : Option Error × World σ τ :=
  let r := env.auditRepo.LogBanChange userID action details w.audit
  (r.1, { w with audit := r.2,
                 trace := w.trace ++ [⟨.LogBanChange userID action details, r.1⟩] })

/-! ## The account service (`internal/server/user_server.go`) -/

/-- The function `isHashedPassword`. `len(password)` is the length in bytes. The
slice `password[:4]`, taken only when that length is 60, equals one of the four
ASCII prefixes exactly when the first four characters do, a byte below 128
being a character of its own in UTF-8. -/
def isHashedPassword (password : String) : Bool :=
  password.utf8ByteSize = 60 &&
    (password.data.take 4 = "$2a$".data || password.data.take 4 = "$2b$".data ||
     password.data.take 4 = "$2x$".data || password.data.take 4 = "$2y$".data)

/-- The call `user.IsBanned()` inside the service: the method reads the clock
only when it reaches `time.Now()`, that is for a ban in force with an end date. -/
def callIsBanned (env : Env σ τ) (user : User) (w : World σ τ) : (Bool × User) × World σ τ :=
  match user.BanInfo with
  | some b =>
    if b.IsBanned && b.BannedUntil.isSome then (user.IsBanned (timeNow env w).1, (timeNow env w).2)
    else (user.IsBanned (env.clock w.tick), w)
  | none => (user.IsBanned (env.clock w.tick), w)

/-- The method `UserService.Register`. -/
def Register (env : Env σ τ) (user : User) (w : World σ τ) :
    (Option User × Option Error) × World σ τ :=
  let found := callExists env user.Email user.Name w
  match found.1 with
  | .error err => ((none, some err), found.2)
  | .ok true => ((none, some ErrUserAlreadyExists), found.2)
  | .ok false =>
    match (if isHashedPassword user.Password then Except.ok user.Password
           else env.GenerateFromPassword user.Password) with
    | .error err => ((none, some err), found.2)
    | .ok password =>
      let user := { user with Password := password }
      let id := GenerateUUID env found.2
      let user := { user with ID := id.1, Status := UserStatusActive, Role := UserRoleUser }
      let t1 := timeNow env id.2
      let user := { user with CreatedAt := t1.1 }
      let t2 := timeNow env t1.2
      let user := { user with UpdatedAt := t2.1 }
      let created := callCreate env user t2.2
      match created.1 with
      | some err => ((none, some err), created.2)
      | none =>
        let w := if user.Metadata.length > 0 then
            (callSaveMetadata env user.ID user.Metadata created.2).2 else created.2
        let activity := NewUserActivity env user.ID ActivityTypeLogin "" "" "" w
        let w := (callLogActivity env activity.1 activity.2).2
        ((some { user with Password := "" }, none), w)

/-- The method `UserService.GetUser`. -/
def GetUser (env : Env σ τ) (id : String) (w : World σ τ) :
    (Option User × Option Error) × World σ τ :=
  let found := callFindByID env id w
  match found.1 with
  | .error err => ((none, some err), found.2)
  | .ok user =>
    let banned := callIsBanned env user found.2
    if banned.1.1 then ((none, some ErrUserBanned), banned.2)
    else
      let user := banned.1.2
      let metadata := callGetMetadata env id banned.2
      match metadata.1 with
      | .ok md =>
        let user := if md.length > 0 then { user with Metadata := md } else user
        ((some { user with Password := "" }, none), metadata.2)
      | .error _ => ((some { user with Password := "" }, none), metadata.2)

/-- The method `UserService.UpdateUser`. -/
def UpdateUser (env : Env σ τ) (user : User) (w : World σ τ) :
    (Option User × Option Error) × World σ τ :=
  let found := callFindByID env user.ID w
  match found.1 with
  | .error err => ((none, some err), found.2)
  | .ok existingUser =>
    let t := timeNow env found.2
    let existingUser := { existingUser with
      Name := user.Name, Email := user.Email, Phone := user.Phone,
      ServiceEmail := user.ServiceEmail, UpdatedAt := t.1 }
    match (if user.Password ≠ "" && !isHashedPassword user.Password then
             env.GenerateFromPassword user.Password
           else Except.ok existingUser.Password) with
    | .error err => ((none, some err), t.2)
    | .ok password =>
      let existingUser := { existingUser with Password := password }
      let updated := callUpdate env existingUser t.2
      match updated.1 with
      | some err => ((none, some err), updated.2)
      | none =>
        let w := if user.Metadata.length > 0 then
            (callUpdateMetadata env user.ID user.Metadata updated.2).2 else updated.2
        let activity := NewUserActivity env user.ID ActivityTypeProfileUpdate "" "" "" w
        let w := (callLogActivity env
          (activity.1.AddDetail "fields_updated" (.str "name, email, phone")) activity.2).2
        ((some { existingUser with Password := "" }, none), w)

/-- The method `UserService.DeleteUser`. -/
def DeleteUser (env : Env σ τ) (id : String) (w : World σ τ) : Option Error × World σ τ :=
  let found := callFindByID env id w
  match found.1 with
  | .error err => (some err, found.2)
  | .ok user =>
    let t := timeNow env found.2
    callUpdate env { user with Status := UserStatusDeleted, UpdatedAt := t.1 } t.2

/-- The method `UserService.ListUsers`; its results are the users, the total and the error. -/
def ListUsers (env : Env σ τ) (filter : UserFilter) (w : World σ τ) :
    (List User × Int × Option Error) × World σ τ :=
  let listed := callList env filter w
  match listed.1 with
  | .error err => (([], 0, some err), listed.2)
  | .ok (users, total) =>
    ((users.map (fun user => { user with Password := "" }), total, none), listed.2)

/-- The method `UserService.Authenticate`; its results are the user, the token and the error. -/
def Authenticate (env : Env σ τ) (email password : String) (w : World σ τ) :
    (Option User × String × Option Error) × World σ τ :=
  let found := callFindByEmail env email w
  match found.1 with
  | .error _ => ((none, "", some ErrInvalidCredentials), found.2)
  | .ok user =>
    if (if !isHashedPassword password then
          (env.CompareHashAndPassword user.Password password).isSome
        else decide (user.Password ≠ password)) then
      ((none, "", some ErrInvalidCredentials), found.2)
    else
      let banned := callIsBanned env user found.2
      if banned.1.1 then ((none, "", some ErrUserBanned), banned.2)
      else
        let user := banned.1.2
        match env.jwtManager.GenerateToken user.ID user.Email user.Role with
        | .error err => ((none, "", some err), banned.2)
        | .ok token =>
          let now := timeNow env banned.2
          let user := { user with LastLoginAt := some now.1 }
          let w := (callUpdate env user now.2).2
          let activity := NewUserActivity env user.ID ActivityTypeLogin "" "" "" w
          let w := (callLogActivity env activity.1 activity.2).2
          ((some { user with Password := "" }, token, none), w)

/-- The method `UserService.ValidateToken`. -/
def ValidateToken (env : Env σ τ) (token : String) (w : World σ τ) :
    (Option User × Option Error) × World σ τ :=
  match env.jwtManager.ValidateToken token with
  | .error _ => ((none, some ErrInvalidToken), w)
  | .ok claims =>
    let got := GetUser env claims.UserID w
    match got.1.2 with
    | some err => ((none, some err), got.2)
    | none => ((got.1.1, none), got.2)

/-- The method `UserService.ChangePassword`. -/
def ChangePassword (env : Env σ τ) (userID currentPassword newPassword : String)
    (w : World σ τ) : Option Error × World σ τ :=
  let found := callFindByID env userID w
  match found.1 with
  | .error err => (some err, found.2)
  | .ok user =>
    match env.CompareHashAndPassword user.Password currentPassword with
    | some _ => (some ErrInvalidCredentials, found.2)
    | none =>
      match env.GenerateFromPassword newPassword with
      | .error err => (some err, found.2)
      | .ok hashedPassword =>
        let t := timeNow env found.2
        let updated := callUpdate env
          { user with Password := hashedPassword, UpdatedAt := t.1 } t.2
        match updated.1 with
        | some err => (some err, updated.2)
        | none =>
          let activity :=
            NewUserActivity env userID ActivityTypePasswordChange "" "" "" updated.2
          let w := (callLogActivity env activity.1 activity.2).2
          (none, w)

/-- The method `UserService.BanUser`; `duration` is nil for a permanent ban. -/
def BanUser (env : Env σ τ) (userID reason bannedBy : String) (duration : Option Duration)
    (w : World σ τ) : (Option User × Option Error) × World σ τ :=
  let found := callFindByID env userID w
  match found.1 with
  | .error err => ((none, some err), found.2)
  | .ok user =>
    if user.IsAdmin then ((none, some (.other "cannot ban admin user")), found.2)
    else
      let banInfo := NewBanInfo env reason bannedBy duration found.2
      let user := { user with
        BanInfo := some banInfo.1
        Status := if duration.isSome then UserStatusBannedTemporarily
                  else UserStatusBannedPermanently }
      let banned := callBan env userID banInfo.1 banInfo.2
      match banned.1 with
      | some err => ((none, some err), banned.2)
      | none =>
        let details : List (String × Detail) :=
          [("reason", .str reason), ("banned_by", .str bannedBy),
           ("duration", .duration duration), ("user_id", .str userID)]
        let w := (callLogBanChange env userID "ban" details banned.2).2
        let activity := NewUserActivity env userID ActivityTypeBan "" "" "" w
        let w := (callLogActivity env
          ((activity.1.AddDetail "reason" (.str reason)).AddDetail "banned_by" (.str bannedBy))
          activity.2).2
        ((some { user with Password := "" }, none), w)

/-- The method `UserService.UnbanUser`. -/
def UnbanUser (env : Env σ τ) (userID unbannedBy : String) (w : World σ τ) :
    (Option User × Option Error) × World σ τ :=
  let found := callFindByID env userID w
  match found.1 with
  | .error err => ((none, some err), found.2)
  | .ok user =>
    match user.BanInfo with
    | none => ((none, some (.other "user is not banned")), found.2)
    | some b =>
      if !b.IsBanned then ((none, some (.other "user is not banned")), found.2)
      else
        let user := { user with BanInfo := some b.Unban, Status := UserStatusActive }
        let unbanned := callUnban env userID found.2
        match unbanned.1 with
        | some err => ((none, some err), unbanned.2)
        | none =>
          let details : List (String × Detail) :=
            [("unbanned_by", .str unbannedBy), ("user_id", .str userID)]
          let w := (callLogBanChange env userID "unban" details unbanned.2).2
          let activity := NewUserActivity env userID ActivityTypeUnban "" "" "" w
          let w := (callLogActivity env
            (activity.1.AddDetail "unbanned_by" (.str unbannedBy)) activity.2).2
          ((some { user with Password := "" }, none), w)

/-- The method `UserService.UpdateSubscription`, for a non-nil `subscription` (the
method dereferences it). -/
def UpdateSubscription (env : Env σ τ) (userID : String) (subscription : SubscriptionInfo)
    (w : World σ τ) : (Option User × Option Error) × World σ τ :=
  let found := callFindByID env userID w
  match found.1 with
  | .error err => ((none, some err), found.2)
  | .ok user =>
    let oldLevel : SubscriptionLevel := match user.Subscription with
      | some s => s.Level
      | none => ""
    let oldStatus : SubscriptionStatus := match user.Subscription with
      | some s => s.Status
      | none => ""
    let user := { user with Subscription := some subscription }
    let updated := callUpdateSubscription env userID subscription found.2
    match updated.1 with
    | some err => ((none, some err), updated.2)
    | none =>
      let entry := NewSubscriptionHistoryEntry env userID oldLevel subscription.Level
        oldStatus subscription.Status "Subscription updated" "system" updated.2
      let w := (callLogSubscriptionChange env entry.1 entry.2).2
      let activity := NewUserActivity env userID ActivityTypeSubscriptionStart "" "" "" w
      let w := (callLogActivity env
        ((activity.1.AddDetail "level" (.str subscription.Level)).AddDetail "status"
          (.str subscription.Status)) activity.2).2
      ((some { user with Password := "" }, none), w)

/-- The method `UserService.CancelSubscription`. -/
def CancelSubscription (env : Env σ τ) (userID reason : String) (immediate : Bool)
    (w : World σ τ) : (Option User × Option Error) × World σ τ :=
  let found := callFindByID env userID w
  match found.1 with
  | .error err => ((none, some err), found.2)
  | .ok user =>
    match user.Subscription with
    | none => ((none, some (.other "user does not have an active subscription")), found.2)
    | some s =>
      let now := timeNow env found.2
      let canceled := s.Cancel now.1 reason immediate
      let user := { user with Subscription := some canceled }
      let updated := callUpdateSubscription env userID canceled now.2
      match updated.1 with
      | some err => ((none, some err), updated.2)
      | none =>
        let entry := NewSubscriptionHistoryEntry env userID s.Level canceled.Level
          s.Status canceled.Status reason "system" updated.2
        let w := (callLogSubscriptionChange env entry.1 entry.2).2
        let activity := NewUserActivity env userID ActivityTypeSubscriptionEnd "" "" "" w
        let w := (callLogActivity env
          ((activity.1.AddDetail "reason" (.str reason)).AddDetail "immediate"
            (.bool immediate)) activity.2).2
        ((some { user with Password := "" }, none), w)

/-- The method `UserService.CheckSubscriptionAccess`. `GetUser` returns a user
whenever it returns no error; the branch for neither stands for the nil
dereference Go would make there. -/
def CheckSubscriptionAccess (env : Env σ τ) (userID : String)
    (requiredLevel : SubscriptionLevel) (feature : String) (w : World σ τ) :
    (Bool × Option Error) × World σ τ :=
  let got := GetUser env userID w
  match got.1.2 with
  | some err => ((false, some err), got.2)
  | none =>
    match got.1.1 with
    | none => ((false, some (.other "nil pointer dereference")), got.2)
    | some user =>
      match user.Subscription with
      | none => ((false, some ErrSubscriptionRequired), got.2)
      | some s =>
        if stringLess s.Level requiredLevel then ((false, some ErrSubscriptionRequired), got.2)
        else if feature ≠ "" then
          let now := timeNow env got.2
          if !user.CanAccessFeature now.1 feature then
            ((false, some ErrSubscriptionRequired), now.2)
          else ((true, none), now.2)
        else ((true, none), got.2)

end Service

/-! ## A small instance of the collaborators, to run the service on concrete inputs -/

/-- An in-memory record store: its state is the list of rows. Lookups skip rows
with status `DELETED`; `Update`, `Ban`, `Unban` and `UpdateSubscription` rewrite
the row with the given id. -/
def memUsers : UserRepository (List User) where
  Create user rows := (none, rows ++ [user])
  FindByID id rows :=
    match rows.find? (fun r => r.ID = id && r.Status ≠ UserStatusDeleted) with
    | some r => (.ok r, rows)
    | none => (.error (NewUserNotFoundError id), rows)
  FindByEmail email rows :=
    match rows.find? (fun r => r.Email = email && r.Status ≠ UserStatusDeleted) with
    | some r => (.ok r, rows)
    | none => (.error (NewUserNotFoundByEmailError email), rows)
  Update user rows :=
    if rows.any (fun r => r.ID = user.ID) then
      (none, rows.map (fun r => if r.ID = user.ID then user else r))
    else (some (NewUserNotFoundError user.ID), rows)
  List _ rows :=
    (.ok (rows.filter (fun r => r.Status ≠ UserStatusDeleted),
          (rows.filter (fun r => r.Status ≠ UserStatusDeleted)).length), rows)
  Exists email username rows :=
    (.ok (rows.any (fun r => (r.Email = email || r.Name = username) &&
                             r.Status ≠ UserStatusDeleted)), rows)
  Ban userID banInfo rows :=
    (none, rows.map (fun r => if r.ID = userID then
      { r with BanInfo := some banInfo,
               Status := if banInfo.BannedUntil.isSome then UserStatusBannedTemporarily
                         else UserStatusBannedPermanently } else r))
  Unban userID rows :=
    (none, rows.map (fun r => if r.ID = userID then
      { r with BanInfo := none, Status := UserStatusActive } else r))
  UpdateSubscription userID subscription rows :=
    (none, rows.map (fun r => if r.ID = userID then
      { r with Subscription := some subscription } else r))

/-- An audit store that accepts every write and holds no metadata. -/
def okAudit : AuditRepository Unit where
  SaveMetadata _ _ s := (none, s)
  GetMetadata _ s := (.ok [], s)
  UpdateMetadata _ _ s := (none, s)
  LogActivity _ s := (none, s)
  LogSubscriptionChange _ s := (none, s)
  LogBanChange _ _ _ s := (none, s)

/-- An audit store in an outage: every call returns an error. -/
def downAudit : AuditRepository Unit where
  SaveMetadata _ _ s := (some (.other "audit store unavailable"), s)
  GetMetadata _ s := (.error (.other "audit store unavailable"), s)
  UpdateMetadata _ _ s := (some (.other "audit store unavailable"), s)
  LogActivity _ s := (some (.other "audit store unavailable"), s)
  LogSubscriptionChange _ s := (some (.other "audit store unavailable"), s)
  LogBanChange _ _ _ s := (some (.other "audit store unavailable"), s)

/-- A token manager whose token for a user id is the id after `token:`. -/
def demoJWT : JWTManager where
  GenerateToken userID _ _ := .ok ("token:" ++ userID)
  ValidateToken token :=
    if token.data.take 6 = "token:".data then .ok ⟨String.mk (token.data.drop 6)⟩
    else .error (.other "token is malformed")

/-- The in-memory record store with the given audit store, a hash primitive that
prefixes the password, and a clock whose `n`-th reading is `1000 + n`. -/
def demoEnv (audit : AuditRepository Unit) : Env (List User) Unit where
  userRepo := memUsers
  auditRepo := audit
  jwtManager := demoJWT
  GenerateFromPassword password := .ok ("$2a$10$" ++ password)
  CompareHashAndPassword hash password :=
    if hash = "$2a$10$" ++ password then none
    else some (.other "hashedPassword is not the hash of the given password")
  clock n := 1000 + n
  uuid _ := "0b0e4f0a-6c1d-4c59-9ad0-1f2e3d4c5b6a"
  Format _ := "20240101000000"

/-- A user row with the given id, email, role and the hash of `secret123`. -/
def demoUser (id email : String) (role : UserRole) : User where
  ID := id
  ServiceEmail := email
  Name := id
  Password := "$2a$10$secret123"
  Email := email
  Phone := ""
  Status := UserStatusActive
  Role := role
  CreatedAt := 10
  UpdatedAt := 10
  LastLoginAt := none
  BanInfo := none
  Subscription := none
  Metadata := []

/-- A subscription of the given status, level and end date, everything else empty. -/
def demoSubscription (status : SubscriptionStatus) (level : SubscriptionLevel)
    (subscriptionEnd : Option Time) : SubscriptionInfo where
  Status := status
  Level := level
  SubscriptionStart := 0
  SubscriptionEnd := subscriptionEnd
  TrialEnd := none
  SubscriptionID := ""
  PaymentMethod := ""
  AutoRenew := false
  NextBillingDate := none
  Amount := 0
  Currency := ""
  CanceledAt := none
  CancelReason := ""
  GracePeriodEnd := none
  Features := []

/-- The world in which the record store holds the given rows and nothing has happened yet. -/
def demoWorld (rows : List User) : World (List User) Unit where
  users := rows
  audit := ()
  tick := 0
  trace := []

/-- The demo user with an active subscription of the given level and no end date. -/
def demoSubscriber (id : String) (level : SubscriptionLevel) : User :=
  { demoUser id "a@x.com" UserRoleUser with
    Subscription := some (demoSubscription SubscriptionStatusActive level none) }

/-- The demo user under a permanent ban. -/
def demoBanned (id : String) : User :=
  { demoUser id "a@x.com" UserRoleUser with
    Status := UserStatusBannedPermanently
    BanInfo := some { IsBanned := true, BannedAt := 1, BannedUntil := none,
                      Reason := "spam", BannedBy := "mod1" } }

/-- A string of 60 bytes with the prefix `$2a$`: the demo hash of a password of 53 letters. -/
def demoHash : String := "$2a$10$aaaaaaaaaaaaaaaaaaaaaaaaaaaaaaaaaaaaaaaaaaaaaaaaaaaaa"

/-- The demo user whose stored password is `demoHash`. -/
def demoHashed (id : String) : User :=
  { demoUser id "a@x.com" UserRoleUser with Password := demoHash }

/-! ## Vocabulary of the statements about store calls -/

section Vocabulary

variable {σ τ τ' : Type}

/-- The calls that write to the record store. -/
def Call.isRecordWrite : Call → Bool
  | .Create _ | .Update _ | .Ban _ _ | .Unban _ | .UpdateSubscription _ _ => true
  | _ => false

/-- The calls that write to the audit store. -/
def Call.isAuditWrite : Call → Bool
  | .SaveMetadata _ _ | .UpdateMetadata _ _ | .LogActivity _ | .LogSubscriptionChange _
  | .LogBanChange _ _ _ => true
  | _ => false

/-- The events recorded between the world `w` and the later world `w'`. -/
def World.since (w' w : World σ τ) : List Event := w'.trace.drop w.trace.length

/-- In `evs`, every write to the audit store comes after a write to the record
store that returned nil. -/
def AuditAfterRecordWrite (evs : List Event) : Prop :=
  ∀ pre a post, evs = pre ++ a :: post → a.call.isAuditWrite = true →
    ∃ e ∈ pre, e.call.isRecordWrite = true ∧ e.err = none

/-- If a write to the record store in `evs` returned an error, then `result` is
that error and `evs` holds no write to the audit store. -/
def FailsFast (result : Option Error) (evs : List Event) : Prop :=
  ∀ e ∈ evs, e.call.isRecordWrite = true → ∀ err, e.err = some err →
    result = some err ∧ ∀ a ∈ evs, a.call.isAuditWrite = false

/-- A scan of `evs` that decides `AuditAfterRecordWrite`; `written` tells whether a
write to the record store has returned nil before the events scanned. -/
def auditAfterWrite : Bool → List Event → Bool
  | _, [] => true
  | written, e :: rest =>
    (!e.call.isAuditWrite || written) &&
      auditAfterWrite (written || (e.call.isRecordWrite && e.err.isNone)) rest

/-- The same collaborators with another audit store in place of `env.auditRepo`. -/
def Env.withAudit (env : Env σ τ) (audit : AuditRepository τ') : Env σ τ' where
  userRepo := env.userRepo
  auditRepo := audit
  jwtManager := env.jwtManager
  GenerateFromPassword := env.GenerateFromPassword
  CompareHashAndPassword := env.CompareHashAndPassword
  clock := env.clock
  uuid := env.uuid
  Format := env.Format

/-- The same world with another state of the audit store. -/
def World.withAudit (w : World σ τ) (a : τ') : World σ τ' where
  users := w.users
  audit := a
  tick := w.tick
  trace := w.trace

end Vocabulary

/-! ## Pagination of the listing and its response -/

/-- A Go `int64` (and `int` on a 64-bit platform) holding the integer `x`: the
value after wrap-around. -/
def wrapInt64 (x : Int) : Int := (x + 2 ^ 63) % 2 ^ 64 - 2 ^ 63

/-- A Go `int32` holding the integer `x`: the value after wrap-around, which is
also what the conversion `int32(x)` of a wider integer gives. -/
def wrapInt32 (x : Int) : Int := (x + 2 ^ 31) % 2 ^ 32 - 2 ^ 31

/-- The pagination of `PostgresUserRepository.List` (the lines after the count
query): the filter after the three assignments to `Page` and `PageSize`, and
`offset`. The query binds `LIMIT` to the `PageSize` of that filter and `OFFSET`
to `offset`. `Page` and `PageSize` are Go `int`s, 64 bits wide, so the
subtraction and the product wrap. -/
def listPagination (filter : UserFilter) : UserFilter × Int :=
  let f1 := if filter.Page < 1 then { filter with Page := 1 } else filter
  let f2 := if f1.PageSize < 1 then { f1 with PageSize := 20 } else f1
  let f3 := if f2.PageSize > 100 then { f2 with PageSize := 100 } else f2
  (f3, wrapInt64 (wrapInt64 (f3.Page - 1) * f3.PageSize))

/-- The message `ListUsersResponse` of the generated package, as far as
`ListUsersResponseToProto` fills it; the users are kept as domain users. -/
structure ListUsersResponse where
  Users : List User
  Total : Int
  Page : Int
  PageSize : Int
  TotalPages : Int
  deriving DecidableEq, Repr

/-- The function `ListUsersResponseToProto` (`internal/domain/mappers.go`):
`total` is an `int64`, `page` and `pageSize` are `int32`s; the division is Go's,
which truncates. -/
def ListUsersResponseToProto (userses : List User) (total : Int) (page pageSize : Int) :
    ListUsersResponse where
  Users := userses
  Total := wrapInt32 total
  Page := page
  PageSize := pageSize
  TotalPages :=
    if pageSize > 0 then
      wrapInt32 (Int.tdiv (wrapInt64 (wrapInt64 (total + pageSize) - 1)) pageSize)
    else 0

/-- The method `Error()` of an error value: the message of an `errors.New` value,
and for a `*DomainError` without cause its message followed by its code. -/
def Error.errorText : Error → String
  | .sentinel message => message
  | .domain code message => message ++ " (код: " ++ code ++ ")"
  | .other message => message

/-- The gRPC status codes the handlers answer with. -/
inductive Code where
  | NotFound
  | AlreadyExists
  | PermissionDenied
  | Unauthenticated
  | Internal
  deriving DecidableEq, Repr

/-- An error made by `status.Error(code, message)`. -/
structure Status where
  code : Code
  message : String
  deriving DecidableEq, Repr

/-- The message `ListUsersRequest` as the handler reads it: the page and the page
size as sent (`int32`s), the search text, and the values the handler obtains from
the enum fields through `UserStatusFromProto`, `UserRoleFromProto`,
`SubscriptionStatusFromProto` and `SubscriptionLevelFromProto` (`none` where the
request says unspecified); the generated enums themselves are not part of the
sources. -/
structure ListUsersRequest where
  Page : Int
  PageSize : Int
  Search : String
  Status : UserStatus
  Role : UserRole
  IsBanned : Bool
  SubscriptionStatus : Option SubscriptionStatus
  SubscriptionLevel : Option SubscriptionLevel
  deriving DecidableEq, Repr

section Handler

variable {σ τ : Type}

/-- The filter `UserHandler.ListUsers` builds from the request. -/
def ListUsersRequest.filter (req : ListUsersRequest) : UserFilter where
  Page := req.Page
  PageSize := req.PageSize
  Search := req.Search
  Status := req.Status
  Role := req.Role
  IsBanned := if req.IsBanned then some true else none
  SubStatus := req.SubscriptionStatus
  SubLevel := req.SubscriptionLevel

/-- The method `UserHandler.ListUsers` (`internal/delivery/grpch/user_handler.go`):
the response is built from the page and the page size of the request. -/
def UserHandler.ListUsers (env : Env σ τ) (req : ListUsersRequest) (w : World σ τ) :
    (Option ListUsersResponse × Option Status) × World σ τ :=
  let listed := UserService.ListUsers env req.filter w
  match listed.1.2.2 with
  | some err => ((none, some ⟨.Internal, err.errorText⟩), listed.2)
  | none =>
    ((some (ListUsersResponseToProto listed.1.1 listed.1.2.1 req.Page req.PageSize), none),
     listed.2)

end Handler

/-! ## Properties a record store may have -/

section StoreProperties

variable {σ : Type}

/-- The lookup by id returns a user with the id asked for. -/
def FindsRequestedID (repo : UserRepository σ) : Prop :=
  ∀ id s u, (repo.FindByID id s).1 = .ok u → u.ID = id

/-- The lookups exclude deleted users: once `Update` has stored a user with status
`DELETED`, `FindByID` of its id reports it as not found, with the error of
`PostgresUserRepository.FindByID`. -/
def ExcludesDeleted (repo : UserRepository σ) : Prop :=
  ∀ u s, u.Status = UserStatusDeleted → (repo.Update u s).1 = none →
    (repo.FindByID u.ID (repo.Update u s).2).1 = .error (NewUserNotFoundError u.ID)

/-- The store persists the ban record given to `Ban`: when `FindByID` finds the
user and `Ban` then returns nil, the next `FindByID` returns the user with that
ban record. -/
def PersistsBan (repo : UserRepository σ) : Prop :=
  ∀ id b s u0, (repo.FindByID id s).1 = .ok u0 →
    (repo.Ban id b (repo.FindByID id s).2).1 = none →
    ∃ u, (repo.FindByID id (repo.Ban id b (repo.FindByID id s).2).2).1 = .ok u ∧
      u.BanInfo = some b

/-- The store persists the subscription given to `UpdateSubscription`: when
`FindByID` finds the user and `UpdateSubscription` then returns nil, the next
`FindByID` returns the user with that subscription and the ban record it had. -/
def PersistsSubscription (repo : UserRepository σ) : Prop :=
  ∀ id sub s u0, (repo.FindByID id s).1 = .ok u0 →
    (repo.UpdateSubscription id sub (repo.FindByID id s).2).1 = none →
    ∃ u, (repo.FindByID id
        (repo.UpdateSubscription id sub (repo.FindByID id s).2).2).1 = .ok u ∧
      u.Subscription = some sub ∧ u.BanInfo = u0.BanInfo

end StoreProperties

/-- The demo user under a ban that ran until time 50. -/
def demoExpired (id : String) : User :=
  { demoUser id "a@x.com" UserRoleUser with
    Status := UserStatusBannedTemporarily
    BanInfo := some { IsBanned := true, BannedAt := 1, BannedUntil := some 50,
                      Reason := "spam", BannedBy := "mod1" } }

section Records

variable {σ τ : Type}

/-- The ban record `NewBanInfo` makes when the clock has been read `tick` times
before: `BannedAt` is the next reading, and with a duration `BannedUntil` is the
reading after that plus the duration. -/
def banRecord (env : Env σ τ) (tick : Nat) (reason bannedBy : String)
    (duration : Option Duration) : BanInfo where
  IsBanned := true
  BannedAt := env.clock tick
  BannedUntil := duration.map (fun d => env.clock (tick + 1) + d)
  Reason := reason
  BannedBy := bannedBy

end Records

/-- The demo collaborators with a hash primitive that returns `demoHash` for every
password, a string in the recognized hash format. -/
def demoHashingEnv : Env (List User) Unit :=
  { demoEnv okAudit with
    GenerateFromPassword := fun _ => .ok demoHash
    CompareHashAndPassword := fun hash _ =>
      if hash = demoHash then none
      else some (.other "hashedPassword is not the hash of the given password") }

/-! ## The bytes of a string and the test for a stored hash -/

/-- The bytes of a character in a Go string, which holds UTF-8: one byte below
`0x80` for an ASCII character, and two to four bytes from `0x80` up otherwise. -/
def utf8Bytes (c : Char) : List Nat :=
  let v := c.val.toNat
  if v ≤ 0x7f then [v]
  else if v ≤ 0x7ff then [0xc0 + v / 64, 0x80 + v % 64]
  else if v ≤ 0xffff then [0xe0 + v / 4096, 0x80 + v / 64 % 64, 0x80 + v % 64]
  else [0xf0 + v / 262144, 0x80 + v / 4096 % 64, 0x80 + v / 64 % 64, 0x80 + v % 64]

/-- The bytes of a Go string: `len` counts them and a slice expression cuts them. -/
def goBytes (s : String) : List Nat := s.data.flatMap utf8Bytes

/-- The slice expression `s[:n]` on the bytes of a string: it panics, here `none`,
when `n` exceeds `len(s)`. -/
def sliceTo (s : List Nat) (n : Nat) : Option (List Nat) :=
  if n ≤ s.length then some (s.take n) else none

/-- The comparison `password[:4] == lit` of `isHashedPassword`. -/
def firstFourAre (password : List Nat) (lit : String) : Option Bool :=
  (sliceTo password 4).map (fun p => decide (p = goBytes lit))

/-- The function `isHashedPassword` on the bytes of its argument, evaluated as Go
does: `&&` and `||` take their right operand only when the left one has not
decided, and a slice out of range panics (`none`). -/
def isHashedPasswordBytes (password : List Nat) : Option Bool :=
  if password.length = 60 then
    (firstFourAre password "$2a$").bind fun a =>
      if a then some true
      else (firstFourAre password "$2b$").bind fun b =>
        if b then some true
        else (firstFourAre password "$2x$").bind fun x =>
          if x then some true
          else (firstFourAre password "$2y$").bind fun y =>
            if y then some true else some false
  else some false

/-! ## The page count with the division as Go performs it -/

/-- Go's division of two `int64`s: it panics, here `none`, on a zero divisor, and
truncates otherwise. -/
def divInt64 (a b : Int) : Option Int :=
  if b = 0 then none else some (wrapInt64 (Int.tdiv a b))

/-- The local `totalPages` of `ListUsersResponseToProto`, with the division as Go
performs it. -/
def totalPages (total pageSize : Int) : Option Int :=
  if pageSize > 0 then
    (divInt64 (wrapInt64 (wrapInt64 (total + pageSize) - 1)) pageSize).map wrapInt32
  else some 0

/-! ## The queries of `PostgresUserRepository.List` -/

/-- A value bound to a placeholder of a query. -/
inductive SqlArg where
  | text (s : String)
  | bool (b : Bool)
  | int (n : Int)
  deriving DecidableEq, Repr

/-- A placeholder as `fmt.Sprintf` writes it with the verb `$%d`. -/
def dollar (n : Nat) : String := "$" ++ toString n

/-- The three variables `PostgresUserRepository.List` builds its WHERE clause in. -/
structure WhereState where
  conditions : List String
  args : List SqlArg
  argPos : Nat
  deriving DecidableEq, Repr

/-- The first part of `PostgresUserRepository.List` (up to the count query): the
conditions, the arguments and `argPos` after the six tests of the filter. -/
def listWhere (filter : UserFilter) : WhereState :=
  let q : WhereState :=
    { conditions := ["status != $1"], args := [.text UserStatusDeleted], argPos := 1 + 1 }
  let q : WhereState :=
    if filter.Search ≠ "" then
      { conditions := q.conditions ++
          ["(name ILIKE " ++ dollar q.argPos ++ " OR email ILIKE " ++ dollar q.argPos ++
            " OR phone ILIKE " ++ dollar q.argPos ++ ")"]
        args := q.args ++ [.text ("%" ++ filter.Search ++ "%")]
        argPos := q.argPos + 1 }
    else q
  let q : WhereState :=
    if filter.Status ≠ "" ∧ filter.Status ≠ UserStatusUnspecified then
      { conditions := q.conditions ++ ["status = " ++ dollar q.argPos]
        args := q.args ++ [.text filter.Status]
        argPos := q.argPos + 1 }
    else q
  let q : WhereState :=
    if filter.Role ≠ "" ∧ filter.Role ≠ UserRoleUnspecified then
      { conditions := q.conditions ++ ["role = " ++ dollar q.argPos]
        args := q.args ++ [.text filter.Role]
        argPos := q.argPos + 1 }
    else q
  let q : WhereState :=
    match filter.IsBanned with
    | some isBanned =>
      { conditions := q.conditions ++ ["is_banned = " ++ dollar q.argPos]
        args := q.args ++ [.bool isBanned]
        argPos := q.argPos + 1 }
    | none => q
  let q : WhereState :=
    match filter.SubStatus with
    | some subStatus =>
      if subStatus ≠ "" then
        { conditions := q.conditions ++ ["subscription_status = " ++ dollar q.argPos]
          args := q.args ++ [.text subStatus]
          argPos := q.argPos + 1 }
      else q
    | none => q
  match filter.SubLevel with
  | some subLevel =>
    if subLevel ≠ "" then
      { conditions := q.conditions ++ ["subscription_level = " ++ dollar q.argPos]
        args := q.args ++ [.text subLevel]
        argPos := q.argPos + 1 }
    else q
  | none => q

/-- The WHERE clause of both queries: `strings.Join(conditions, " AND ")`. -/
def listWhereClause (filter : UserFilter) : String :=
  " AND ".intercalate (listWhere filter).conditions

/-- The count query of `PostgresUserRepository.List` and its arguments. -/
def listCountQuery (filter : UserFilter) : String × List SqlArg :=
  ("SELECT COUNT(*) FROM users WHERE " ++ listWhereClause filter, (listWhere filter).args)

/-- The page query of `PostgresUserRepository.List` and its arguments: the
arguments of the count query, then the page size and the offset of
`listPagination`. -/
def listPageQuery (filter : UserFilter) : String × List SqlArg :=
  let q := listWhere filter
  let p := listPagination filter
  ("\n\t\tSELECT * FROM users \n\t\tWHERE " ++ listWhereClause filter ++
     " \n\t\tORDER BY created_at DESC \n\t\tLIMIT " ++ dollar q.argPos ++
     " OFFSET " ++ dollar (q.argPos + 1),
   q.args ++ [.int p.1.PageSize, .int p.2])

/-- The predicates a listing may carry, named after what they test: this is the
reading of the specification, to be compared with `listWhere`. -/
inductive FilterField where
  | notDeleted
  | search
  | status
  | role
  | isBanned
  | subStatus
  | subLevel
  deriving DecidableEq, Repr

/-- Whether the specification counts the field as set in the filter; the
not-deleted predicate is always there. -/
def FilterField.isSet (filter : UserFilter) : FilterField → Bool
  | .notDeleted => true
  | .search => decide (filter.Search ≠ "")
  | .status => decide (filter.Status ≠ "" ∧ filter.Status ≠ UserStatusUnspecified)
  | .role => decide (filter.Role ≠ "" ∧ filter.Role ≠ UserRoleUnspecified)
  | .isBanned => filter.IsBanned.isSome
  | .subStatus => decide (filter.SubStatus ≠ none ∧ filter.SubStatus ≠ some "")
  | .subLevel => decide (filter.SubLevel ≠ none ∧ filter.SubLevel ≠ some "")

/-- The predicate of a field, written with the placeholder of number `n`. -/
def FilterField.predicate : FilterField → Nat → String
  | .notDeleted, n => "status != " ++ dollar n
  | .search, n =>
    "(name ILIKE " ++ dollar n ++ " OR email ILIKE " ++ dollar n ++
      " OR phone ILIKE " ++ dollar n ++ ")"
  | .status, n => "status = " ++ dollar n
  | .role, n => "role = " ++ dollar n
  | .isBanned, n => "is_banned = " ++ dollar n
  | .subStatus, n => "subscription_status = " ++ dollar n
  | .subLevel, n => "subscription_level = " ++ dollar n

/-- The value the predicate of a field compares with. -/
def FilterField.value (filter : UserFilter) : FilterField → SqlArg
  | .notDeleted => .text UserStatusDeleted
  | .search => .text ("%" ++ filter.Search ++ "%")
  | .status => .text filter.Status
  | .role => .text filter.Role
  | .isBanned => .bool (filter.IsBanned.getD false)
  | .subStatus => .text (filter.SubStatus.getD "")
  | .subLevel => .text (filter.SubLevel.getD "")

/-- The fields of the specification in the order of the tests of the listing. -/
def filterFields : List FilterField :=
  [.notDeleted, .search, .status, .role, .isBanned, .subStatus, .subLevel]

/-- The fields the filter sets, in that order. -/
def setFields (filter : UserFilter) : List FilterField :=
  filterFields.filter (fun field => field.isSet filter)

/-! ## The statement of `PostgresUserRepository.Ban` -/

/-- A JSON value, as far as the encoding of a ban record has them; a time is
written as a string. -/
inductive JSON where
  | null
  | bool (b : Bool)
  | string (s : String)
  | time (t : Time)
  deriving DecidableEq, Repr

/-- The result of `json.Marshal(banInfo)`: the struct `BanInfo` carries no `json`
tags, so each member is named after its field, and a nil `BannedUntil` is written
as `null`. -/
def BanInfo.Marshal (banInfo : BanInfo) : List (String × JSON) :=
  [("IsBanned", .bool banInfo.IsBanned),
   ("BannedAt", .time banInfo.BannedAt),
   ("BannedUntil", match banInfo.BannedUntil with
      | some t => .time t
      | none => .null),
   ("Reason", .string banInfo.Reason),
   ("BannedBy", .string banInfo.BannedBy)]

/-- The operator `->>` of `jsonb` on an object: the member with this very key, and
SQL `NULL` (`none`) when the object has no such member or the member is `null`. -/
def jsonbText (object : List (String × JSON)) (key : String) : Option JSON :=
  match object.lookup key with
  | some .null => none
  | some value => some value
  | none => none

/-- The columns of a row of `users` (`UserDBModel`) that the statement of
`PostgresUserRepository.Ban` reads or writes. -/
structure UserDBModel where
  ID : String
  Status : String
  UpdatedAt : Time
  BanInfo : Option (List (String × JSON))
  IsBanned : Bool
  deriving DecidableEq, Repr

/-- The `CASE` of the statement of `PostgresUserRepository.Ban`, on the encoded
ban record. -/
def banStatus (banInfoJSON : List (String × JSON)) : UserStatus :=
  if (jsonbText banInfoJSON "banned_until").isSome then UserStatusBannedTemporarily
  else UserStatusBannedPermanently

/-- The method `PostgresUserRepository.Ban` on the rows of `users`, with `now` the
reading of `time.Now()`: the `UPDATE` rewrites the rows with the given id. -/
def PostgresUserRepository.Ban (rows : List UserDBModel) (userID : String)
    (banInfo : BanInfo) (now : Time) : List UserDBModel :=
  let banInfoJSON := banInfo.Marshal
  rows.map fun row =>
    if row.ID = userID then
      { row with
        BanInfo := some banInfoJSON
        IsBanned := true
        Status := banStatus banInfoJSON
        UpdatedAt := now }
    else row

/-- A row of an active user, not banned. -/
def demoRow (id : String) : UserDBModel :=
  { ID := id, Status := UserStatusActive, UpdatedAt := 10, BanInfo := none, IsBanned := false }

/-! ## The handler `GetUserById` -/

section HandlerGetUser

variable {σ τ : Type}

/-- The method `UserHandler.GetUserById` (`internal/delivery/grpch/user_handler.go`):
the error of the service is compared with the two package values; the user is
kept as a domain user. -/
def UserHandler.GetUserById (env : Env σ τ) (id : String) (w : World σ τ) :
    (Option User × Option Status) × World σ τ :=
  let got := UserService.GetUser env id w
  match got.1.2 with
  | some err =>
    if err = ErrUserNotFound then ((none, some ⟨.NotFound, "user not found"⟩), got.2)
    else if err = ErrUserBanned then ((none, some ⟨.PermissionDenied, "user is banned"⟩), got.2)
    else ((none, some ⟨.Internal, err.errorText⟩), got.2)
  | none => ((got.1.1, none), got.2)

end HandlerGetUser

/-- The state of the WHERE clause lists the given fields: its conditions are their
predicates with the placeholders from `$1` on, its arguments are their values, and
`argPos` is the number of the next placeholder. -/
def WhereState.Lists (q : WhereState) (filter : UserFilter) (fields : List FilterField) :
    Prop :=
  q.conditions = List.zipWith FilterField.predicate fields (List.range' 1 fields.length) ∧
  q.args = fields.map (FilterField.value filter) ∧
  q.argPos = fields.length + 1

/-! ## Theorems -/

/-- The order `stringLess` is the order `<` of strings. -/
theorem stringLess_iff_lt (a b : String) : stringLess a b = true ↔ a < b := by
  simp [stringLess, String.lt_iff_toList_lt]

/-! ### C1: the level comparison of `CheckSubscriptionAccess` -/

/-- C1, the code at the failing input. Over a record store holding a user with an
active FREE subscription, `CheckSubscriptionAccess` with required level BASIC and
no feature grants access, `"FREE" < "BASIC"` being false for strings; and for a
BASIC user and required level FREE it fails with `ErrSubscriptionRequired`. The
comparison is the lexical one of the level names, not the one of the ladder. -/
theorem CheckSubscriptionAccess_compares_level_names :
    (CheckSubscriptionAccess (demoEnv okAudit) "u1" SubscriptionLevelBasic ""
      (demoWorld [demoSubscriber "u1" SubscriptionLevelFree])).1 = (true, none) ∧
    (CheckSubscriptionAccess (demoEnv okAudit) "u1" SubscriptionLevelFree ""
      (demoWorld [demoSubscriber "u1" SubscriptionLevelBasic])).1 =
        (false, some ErrSubscriptionRequired) := by
  decide

/-! ### C2: `User.IsBanned` -/

/-- C2. For every user and every time `now`, `IsBanned` returns false when the
user has no `BanInfo`, when `BanInfo.IsBanned` is false, and when `BannedUntil` is
present and `now` is after it; it returns true, whatever `now`, when
`BanInfo.IsBanned` is true and `BannedUntil` is absent. -/
theorem IsBanned_spec (u : User) (now : Time) :
    (u.BanInfo = none → (u.IsBanned now).1 = false) ∧
    (∀ b, u.BanInfo = some b → b.IsBanned = false → (u.IsBanned now).1 = false) ∧
    (∀ b untl, u.BanInfo = some b → b.BannedUntil = some untl → untl < now →
      (u.IsBanned now).1 = false) ∧
    (∀ b, u.BanInfo = some b → b.IsBanned = true → b.BannedUntil = none →
      (u.IsBanned now).1 = true) := by
  refine ⟨?_, ?_, ?_, ?_⟩
  · intro h
    simp [User.IsBanned, h]
  · intro b h hb
    simp [User.IsBanned, h, hb]
  · intro b untl h hu hlt
    simp only [User.IsBanned, h, hu]
    cases b.IsBanned <;> simp [hlt]
  · intro b h hb hu
    simp [User.IsBanned, h, hb, hu]

/-- C2, witness. A ban until time 50 is over at time 51 although `IsBanned` is
still set in the record, and a permanent ban holds at time 51. -/
theorem IsBanned_spec_witness :
    (({ demoUser "u1" "a@x.com" UserRoleUser with
        BanInfo := some { IsBanned := true, BannedAt := 1, BannedUntil := some 50,
                          Reason := "spam", BannedBy := "mod1" } } : User).IsBanned 51).1
      = false ∧
    ((demoBanned "u1").IsBanned 51).1 = true :=
  ⟨(IsBanned_spec _ 51).2.2.1 _ 50 rfl rfl (by decide),
   (IsBanned_spec _ 51).2.2.2 _ rfl rfl rfl⟩

/-! ### C3: `User.HasValidSubscription` -/

/-- The loop of `HasValidSubscription` over its three statuses. -/
theorem hasValidLoop_activeStatuses (s : SubscriptionInfo) (now : Time) :
    hasValidLoop s now activeStatuses = true ↔
      (s.Status = SubscriptionStatusActive ∨ s.Status = SubscriptionStatusTrial ∨
        s.Status = SubscriptionStatusGracePeriod) ∧
      (s.SubscriptionEnd = none ∨ ∃ e, s.SubscriptionEnd = some e ∧ now ≤ e) := by
  simp only [activeStatuses, hasValidLoop]
  by_cases h1 : s.Status = SubscriptionStatusActive
  · cases he : s.SubscriptionEnd <;> simp [h1, not_lt]
  · by_cases h2 : s.Status = SubscriptionStatusTrial
    · cases he : s.SubscriptionEnd <;> simp [h1, h2, not_lt]
    · by_cases h3 : s.Status = SubscriptionStatusGracePeriod
      · cases he : s.SubscriptionEnd <;> simp [h1, h2, h3, not_lt]
      · simp [h1, h2, h3]

/-- C3, counterexample. With status ACTIVE and `SubscriptionEnd` equal to `now`
(both 5) the end date is not in the future, yet `HasValidSubscription` returns
true: the equivalence of the claim fails at that input. -/
theorem HasValidSubscription_at_end_date :
    ¬ (({ demoUser "u1" "a@x.com" UserRoleUser with
          Subscription := some (demoSubscription SubscriptionStatusActive
            SubscriptionLevelBasic (some 5)) } : User).HasValidSubscription 5 = true ↔
        ∃ s, ({ demoUser "u1" "a@x.com" UserRoleUser with
          Subscription := some (demoSubscription SubscriptionStatusActive
            SubscriptionLevelBasic (some 5)) } : User).Subscription = some s ∧
          (s.Status = SubscriptionStatusActive ∨ s.Status = SubscriptionStatusTrial ∨
            s.Status = SubscriptionStatusGracePeriod) ∧
          (s.SubscriptionEnd = none ∨ ∃ e, s.SubscriptionEnd = some e ∧ (5 : Time) < e)) := by
  intro h
  obtain ⟨s, hs, _, hend⟩ := h.mp (by decide)
  injection hs with hs
  subst hs
  rcases hend with hend | ⟨e, he, hlt⟩
  · exact absurd hend (by decide)
  · injection he with he
    subst he
    exact absurd hlt (by decide)

/-- C3, amended. For every user and every time `now`, `HasValidSubscription`
returns true if and only if a subscription is present, its status is ACTIVE,
TRIAL or GRACE_PERIOD, and `SubscriptionEnd` is absent or not before `now`; in
particular it is false whenever `SubscriptionEnd` is before `now`, whatever the
status. -/
theorem HasValidSubscription_iff (u : User) (now : Time) :
    (u.HasValidSubscription now = true ↔
      ∃ s, u.Subscription = some s ∧
        (s.Status = SubscriptionStatusActive ∨ s.Status = SubscriptionStatusTrial ∨
          s.Status = SubscriptionStatusGracePeriod) ∧
        (s.SubscriptionEnd = none ∨ ∃ e, s.SubscriptionEnd = some e ∧ now ≤ e)) ∧
    (∀ s e, u.Subscription = some s → s.SubscriptionEnd = some e → e < now →
      u.HasValidSubscription now = false) := by
  constructor
  · cases hs : u.Subscription with
    | none => simp [User.HasValidSubscription, hs]
    | some s => simp [User.HasValidSubscription, hs, hasValidLoop_activeStatuses]
  · intro s e hs he hlt
    have h := hasValidLoop_activeStatuses s now
    cases hv : hasValidLoop s now activeStatuses with
    | false => simp [User.HasValidSubscription, hs, hv]
    | true =>
      rw [hv] at h
      obtain ⟨_, h2⟩ := h.mp rfl
      rcases h2 with h2 | ⟨e', h2, h3⟩
      · simp [he] at h2
      · rw [he] at h2
        injection h2 with h2
        subst h2
        exact absurd hlt (not_lt.mpr h3)

/-- C3, witness. An ACTIVE subscription that ended at time 5 is not valid at time 6. -/
theorem HasValidSubscription_iff_witness :
    ({ demoUser "u1" "a@x.com" UserRoleUser with
        Subscription := some (demoSubscription SubscriptionStatusActive
          SubscriptionLevelBasic (some 5)) } : User).HasValidSubscription 6 = false :=
  (HasValidSubscription_iff _ 6).2 _ 5 rfl rfl (by decide)

section ServiceTheorems

variable {σ τ τ' : Type}

/-! ### C4: `Authenticate` and the two ways of failing -/

/-- C4, counterexample. The stored password of the user is `demoHash`, a string in
the format of a hash. Supplied as the password, that string is rejected by the
hash primitive, so it does not match the stored hash; yet `Authenticate` compares
the two strings, finds them equal and succeeds instead of failing with
`ErrInvalidCredentials`. -/
theorem Authenticate_accepts_the_stored_hash :
    errOf ((demoEnv okAudit).userRepo.FindByEmail "a@x.com" [demoHashed "u1"]).1 = none ∧
    (demoEnv okAudit).CompareHashAndPassword (demoHashed "u1").Password demoHash ≠ none ∧
    (Authenticate (demoEnv okAudit) "a@x.com" demoHash
      (demoWorld [demoHashed "u1"])).1.2.2 = none ∧
    (Authenticate (demoEnv okAudit) "a@x.com" demoHash
      (demoWorld [demoHashed "u1"])).1 ≠ (none, "", some ErrInvalidCredentials) := by
  decide

/-- C4, amended. A call of `Authenticate` whose email the record store does not
find, and a call whose email it finds while the password is neither accepted by
the hash primitive for the stored hash nor the stored hash string itself, fail
with the same error, `ErrInvalidCredentials`, return no user and the empty token,
and make no store call other than the lookup `FindByEmail`. -/
theorem Authenticate_enumeration_resistant (env : Env σ τ)
    (email₁ password₁ : String) (w₁ : World σ τ)
    (email₂ password₂ : String) (w₂ : World σ τ) (e : Error) (u : User)
    (hmissing : (env.userRepo.FindByEmail email₁ w₁.users).1 = .error e)
    (hfound : (env.userRepo.FindByEmail email₂ w₂.users).1 = .ok u)
    (hreject : env.CompareHashAndPassword u.Password password₂ ≠ none)
    (hdiff : u.Password ≠ password₂) :
    (Authenticate env email₁ password₁ w₁).1 = (none, "", some ErrInvalidCredentials) ∧
    (Authenticate env email₂ password₂ w₂).1 = (none, "", some ErrInvalidCredentials) ∧
    (Authenticate env email₁ password₁ w₁).2.since w₁ = [⟨.FindByEmail email₁, some e⟩] ∧
    (Authenticate env email₂ password₂ w₂).2.since w₂ = [⟨.FindByEmail email₂, none⟩] ∧
    (Authenticate env email₁ password₁ w₁).2.users =
      (env.userRepo.FindByEmail email₁ w₁.users).2 ∧
    (Authenticate env email₂ password₂ w₂).2.users =
      (env.userRepo.FindByEmail email₂ w₂.users).2 ∧
    (Authenticate env email₁ password₁ w₁).2.audit = w₁.audit ∧
    (Authenticate env email₂ password₂ w₂).2.audit = w₂.audit := by
  have hsome : (env.CompareHashAndPassword u.Password password₂).isSome = true := by
    cases h : env.CompareHashAndPassword u.Password password₂ with
    | none => exact absurd h hreject
    | some _ => rfl
  have hcheck : (if (!isHashedPassword password₂) = true then
        (env.CompareHashAndPassword u.Password password₂).isSome
      else decide (u.Password ≠ password₂)) = true := by
    split
    · exact hsome
    · simpa using hdiff
  simp only [Authenticate, callFindByEmail, hmissing, hfound, hcheck, World.since, errOf]
  simp

/-- C4, witness. For the user registered with password `secret123`, an unknown
email and a wrong password give the same result. -/
theorem Authenticate_enumeration_resistant_witness :
    (Authenticate (demoEnv okAudit) "b@x.com" "secret123"
      (demoWorld [demoUser "u1" "a@x.com" UserRoleUser])).1 =
        (none, "", some ErrInvalidCredentials) ∧
    (Authenticate (demoEnv okAudit) "a@x.com" "wrong"
      (demoWorld [demoUser "u1" "a@x.com" UserRoleUser])).1 =
        (none, "", some ErrInvalidCredentials) :=
  have h := Authenticate_enumeration_resistant (demoEnv okAudit)
    "b@x.com" "secret123" (demoWorld [demoUser "u1" "a@x.com" UserRoleUser])
    "a@x.com" "wrong" (demoWorld [demoUser "u1" "a@x.com" UserRoleUser])
    (NewUserNotFoundByEmailError "b@x.com") (demoUser "u1" "a@x.com" UserRoleUser)
    rfl rfl (by decide) (by decide)
  ⟨h.1, h.2.1⟩

/-! ### C5: `ValidateToken` -/

/-- C5, counterexample. The token verifies and names a user under a permanent ban,
respectively a user the record store does not hold; `ValidateToken` returns the
error of `GetUser`, `ErrUserBanned` respectively the store's not-found error, and
neither is `ErrInvalidToken`. -/
theorem ValidateToken_returns_the_lookup_error :
    errOf ((demoEnv okAudit).jwtManager.ValidateToken "token:u1") = none ∧
    (ValidateToken (demoEnv okAudit) "token:u1" (demoWorld [demoBanned "u1"])).1 =
      (none, some ErrUserBanned) ∧
    (ValidateToken (demoEnv okAudit) "token:u1" (demoWorld [])).1 =
      (none, some (NewUserNotFoundError "u1")) ∧
    ErrUserBanned ≠ ErrInvalidToken ∧ NewUserNotFoundError "u1" ≠ ErrInvalidToken := by
  decide

/-- C5, amended. When the token manager rejects the token, `ValidateToken` fails
with `ErrInvalidToken` without any store call; when the token verifies and the
lookup `GetUser` of its user fails, `ValidateToken` fails with the error of
`GetUser`, unchanged. In both cases no user is returned. -/
theorem ValidateToken_errors (env : Env σ τ) (token : String) (w : World σ τ) :
    (∀ e, env.jwtManager.ValidateToken token = .error e →
      (ValidateToken env token w).1 = (none, some ErrInvalidToken) ∧
      (ValidateToken env token w).2 = w) ∧
    (∀ claims err, env.jwtManager.ValidateToken token = .ok claims →
      (GetUser env claims.UserID w).1.2 = some err →
      (ValidateToken env token w).1 = (none, some err)) := by
  constructor
  · intro e h
    simp [ValidateToken, h]
  · intro claims err h hget
    simp [ValidateToken, h, hget]

/-- C5, witness. A malformed token fails with `ErrInvalidToken`; a token of a
banned user fails with `ErrUserBanned`. -/
theorem ValidateToken_errors_witness :
    (ValidateToken (demoEnv okAudit) "garbage" (demoWorld [demoBanned "u1"])).1 =
      (none, some ErrInvalidToken) ∧
    (ValidateToken (demoEnv okAudit) "token:u1" (demoWorld [demoBanned "u1"])).1 =
      (none, some ErrUserBanned) :=
  ⟨((ValidateToken_errors (demoEnv okAudit) "garbage" (demoWorld [demoBanned "u1"])).1
      (.other "token is malformed") rfl).1,
   (ValidateToken_errors (demoEnv okAudit) "token:u1" (demoWorld [demoBanned "u1"])).2
      ⟨"u1"⟩ ErrUserBanned rfl rfl⟩

/-! ### C6: `Register` on a taken email or name -/

/-- C6, counterexample. The store holds a user with the email `a@x.com` and its
`Exists` reports the email of the candidate as taken; `Register` fails, and the
error it returns carries no code: it is the value `ErrUserAlreadyExists` made by
`errors.New`, not a `*DomainError`, so its code is not `USER_ALREADY_EXISTS`, and
it is another value than the error `NewDomainError` makes with that code. -/
theorem Register_existing_error_has_no_code :
    ((demoEnv okAudit).userRepo.Exists (demoUser "" "a@x.com" UserRoleUser).Email
      (demoUser "" "a@x.com" UserRoleUser).Name
      [demoUser "u1" "a@x.com" UserRoleUser]).1 = .ok true ∧
    (Register (demoEnv okAudit) (demoUser "" "a@x.com" UserRoleUser)
      (demoWorld [demoUser "u1" "a@x.com" UserRoleUser])).1.2 = some ErrUserAlreadyExists ∧
    (Register (demoEnv okAudit) (demoUser "" "a@x.com" UserRoleUser)
      (demoWorld [demoUser "u1" "a@x.com" UserRoleUser])).1.2.bind Error.code = none ∧
    (Register (demoEnv okAudit) (demoUser "" "a@x.com" UserRoleUser)
      (demoWorld [demoUser "u1" "a@x.com" UserRoleUser])).1.2.bind Error.code ≠
        some ErrCodeUserAlreadyExists ∧
    (∀ message, (Register (demoEnv okAudit) (demoUser "" "a@x.com" UserRoleUser)
      (demoWorld [demoUser "u1" "a@x.com" UserRoleUser])).1.2 ≠
        some (NewDomainError ErrCodeUserAlreadyExists message)) :=
  have hres : (Register (demoEnv okAudit) (demoUser "" "a@x.com" UserRoleUser)
      (demoWorld [demoUser "u1" "a@x.com" UserRoleUser])).1.2 = some ErrUserAlreadyExists := by
    decide
  ⟨rfl, hres, by decide, by decide, fun _ h => by
    rw [hres] at h
    simp [ErrUserAlreadyExists, NewDomainError] at h⟩

/-- C6, amended. When the record store's `Exists` reports the candidate's email or
name as taken, `Register` fails with the value `ErrUserAlreadyExists`, which is
made by `errors.New` with the message `user already exists` and carries no code,
returns no user, and makes no store call other than `Exists`: neither `Create` nor
`SaveMetadata` nor `LogActivity` is called, and the audit store is untouched. -/
theorem Register_existing (env : Env σ τ) (user : User) (w : World σ τ)
    (h : (env.userRepo.Exists user.Email user.Name w.users).1 = .ok true) :
    (Register env user w).1 = (none, some ErrUserAlreadyExists) ∧
    (Register env user w).2.since w = [⟨.Exists user.Email user.Name, none⟩] ∧
    (Register env user w).2.users = (env.userRepo.Exists user.Email user.Name w.users).2 ∧
    (Register env user w).2.audit = w.audit ∧
    (Register env user w).1.2.bind Error.code = none ∧
    (Register env user w).1.2.map Error.errorText = some "user already exists" := by
  simp [Register, callExists, h, errOf, World.since, ErrUserAlreadyExists, Error.code,
    Error.errorText]

/-- C6, witness. Registering a second user with the email of a stored one fails
with an error that carries no code, and the rows of the store are the same
afterwards. -/
theorem Register_existing_witness :
    (Register (demoEnv okAudit) (demoUser "" "a@x.com" UserRoleUser)
      (demoWorld [demoUser "u1" "a@x.com" UserRoleUser])).1 =
        (none, some ErrUserAlreadyExists) ∧
    (Register (demoEnv okAudit) (demoUser "" "a@x.com" UserRoleUser)
      (demoWorld [demoUser "u1" "a@x.com" UserRoleUser])).2.users =
        [demoUser "u1" "a@x.com" UserRoleUser] ∧
    (Register (demoEnv okAudit) (demoUser "" "a@x.com" UserRoleUser)
      (demoWorld [demoUser "u1" "a@x.com" UserRoleUser])).1.2.bind Error.code = none :=
  have h := Register_existing (demoEnv okAudit) (demoUser "" "a@x.com" UserRoleUser)
    (demoWorld [demoUser "u1" "a@x.com" UserRoleUser]) rfl
  ⟨h.1, h.2.2.1, h.2.2.2.2.1⟩

end ServiceTheorems

section ServiceTheorems

variable {σ τ τ' : Type}

/-! ### C7: returned users carry no password -/

/-- A user returned by `GetUser` has an empty password. -/
theorem GetUser_password (env : Env σ τ) (id : String) (w : World σ τ) (u : User)
    (h : (GetUser env id w).1.1 = some u) : u.Password = "" := by
  simp only [GetUser] at h
  repeat' split at h
  all_goals simp at h
  all_goals (subst h; rfl)

/-- A user returned by `Register` has an empty password. -/
theorem Register_password (env : Env σ τ) (user : User) (w : World σ τ) (u : User)
    (h : (Register env user w).1.1 = some u) : u.Password = "" := by
  simp only [Register] at h
  repeat' split at h
  all_goals simp at h
  all_goals (subst h; rfl)

/-- A user returned by `UpdateUser` has an empty password. -/
theorem UpdateUser_password (env : Env σ τ) (user : User) (w : World σ τ) (u : User)
    (h : (UpdateUser env user w).1.1 = some u) : u.Password = "" := by
  simp only [UpdateUser] at h
  repeat' split at h
  all_goals simp at h
  all_goals (subst h; rfl)

/-- A user returned by `Authenticate` has an empty password. -/
theorem Authenticate_password (env : Env σ τ) (email password : String) (w : World σ τ) (u : User)
    (h : (Authenticate env email password w).1.1 = some u) : u.Password = "" := by
  simp only [Authenticate] at h
  repeat' split at h
  all_goals simp at h
  all_goals (subst h; rfl)

/-- A user returned by `BanUser` has an empty password. -/
theorem BanUser_password (env : Env σ τ) (userID reason bannedBy : String) (duration : Option Duration) (w : World σ τ) (u : User)
    (h : (BanUser env userID reason bannedBy duration w).1.1 = some u) : u.Password = "" := by
  simp only [BanUser] at h
  repeat' split at h
  all_goals simp at h
  all_goals (subst h; rfl)

/-- A user returned by `UnbanUser` has an empty password. -/
theorem UnbanUser_password (env : Env σ τ) (userID unbannedBy : String) (w : World σ τ) (u : User)
    (h : (UnbanUser env userID unbannedBy w).1.1 = some u) : u.Password = "" := by
  simp only [UnbanUser] at h
  repeat' split at h
  all_goals simp at h
  all_goals (subst h; rfl)

/-- A user returned by `UpdateSubscription` has an empty password. -/
theorem UpdateSubscription_password (env : Env σ τ) (userID : String) (subscription : SubscriptionInfo) (w : World σ τ) (u : User)
    (h : (UpdateSubscription env userID subscription w).1.1 = some u) : u.Password = "" := by
  simp only [UpdateSubscription] at h
  repeat' split at h
  all_goals simp at h
  all_goals (subst h; rfl)

/-- A user returned by `CancelSubscription` has an empty password. -/
theorem CancelSubscription_password (env : Env σ τ) (userID reason : String) (immediate : Bool) (w : World σ τ) (u : User)
    (h : (CancelSubscription env userID reason immediate w).1.1 = some u) : u.Password = "" := by
  simp only [CancelSubscription] at h
  repeat' split at h
  all_goals simp at h
  all_goals (subst h; rfl)

/-- Every user in the list returned by `ListUsers` has an empty password. -/
theorem ListUsers_password (env : Env σ τ) (filter : UserFilter) (w : World σ τ) (u : User)
    (h : u ∈ (ListUsers env filter w).1.1) : u.Password = "" := by
  simp only [ListUsers] at h
  repeat' split at h
  all_goals simp at h
  obtain ⟨a, _, rfl⟩ := h
  rfl

/-- C7. Whatever the stores hold and whatever the input, a user returned by
`GetUser`, `Register`, `UpdateUser`, `Authenticate`, `BanUser`, `UnbanUser`,
`UpdateSubscription` or `CancelSubscription`, and every user in the list returned
by `ListUsers`, has `Password = ""`. -/
theorem returned_users_have_no_password (env : Env σ τ) (w : World σ τ) :
    (∀ (id : String) (u : User),
      (GetUser env id w).1.1 = some u → u.Password = "") ∧
    (∀ (user : User) (u : User),
      (Register env user w).1.1 = some u → u.Password = "") ∧
    (∀ (user : User) (u : User),
      (UpdateUser env user w).1.1 = some u → u.Password = "") ∧
    (∀ (email password : String) (u : User),
      (Authenticate env email password w).1.1 = some u → u.Password = "") ∧
    (∀ (userID reason bannedBy : String) (duration : Option Duration) (u : User),
      (BanUser env userID reason bannedBy duration w).1.1 = some u → u.Password = "") ∧
    (∀ (userID unbannedBy : String) (u : User),
      (UnbanUser env userID unbannedBy w).1.1 = some u → u.Password = "") ∧
    (∀ (userID : String) (subscription : SubscriptionInfo) (u : User),
      (UpdateSubscription env userID subscription w).1.1 = some u → u.Password = "") ∧
    (∀ (userID reason : String) (immediate : Bool) (u : User),
      (CancelSubscription env userID reason immediate w).1.1 = some u → u.Password = "") ∧
    (∀ (filter : UserFilter) (u : User),
      u ∈ (ListUsers env filter w).1.1 → u.Password = "") :=
  ⟨fun id u h => GetUser_password env id w u h,
   fun user u h => Register_password env user w u h,
   fun user u h => UpdateUser_password env user w u h,
   fun email password u h => Authenticate_password env email password w u h,
   fun userID reason bannedBy duration u h => BanUser_password env userID reason bannedBy duration w u h,
   fun userID unbannedBy u h => UnbanUser_password env userID unbannedBy w u h,
   fun userID subscription u h => UpdateSubscription_password env userID subscription w u h,
   fun userID reason immediate u h => CancelSubscription_password env userID reason immediate w u h,
   fun filter u h => ListUsers_password env filter w u h⟩

/-- C7, witness. The stored row of the user holds a password hash; the user
`GetUser` returns for it holds none, and neither do the users `ListUsers` returns. -/
theorem returned_users_have_no_password_witness :
    (demoUser "u1" "a@x.com" UserRoleUser).Password = "$2a$10$secret123" ∧
    (GetUser (demoEnv okAudit) "u1" (demoWorld [demoUser "u1" "a@x.com" UserRoleUser])).1.1 =
      some { demoUser "u1" "a@x.com" UserRoleUser with Password := "" } ∧
    ({ demoUser "u1" "a@x.com" UserRoleUser with Password := "" } : User).Password = "" ∧
    (ListUsers (demoEnv okAudit) ⟨1, 20, "", "", "", none, none, none⟩
      (demoWorld [demoUser "u1" "a@x.com" UserRoleUser])).1.1.map User.Password = [""] :=
  ⟨rfl, rfl,
   (returned_users_have_no_password (demoEnv okAudit)
      (demoWorld [demoUser "u1" "a@x.com" UserRoleUser])).1 "u1" _ rfl,
   rfl⟩

/-! ### C8: the audit store and the error an operation returns -/

/-- The error `Register` returns does not depend on the audit store. -/
theorem Register_audit_indep (env : Env σ τ) (audit : AuditRepository τ') (a : τ')
    (user : User) (w : World σ τ) :
    (Register (env.withAudit audit) user (w.withAudit a)).1.2 =
      (Register env user w).1.2 := by
  simp only [Register, callExists, callCreate, callFindByID, callFindByEmail, callUpdate, callBan, callUnban,
    callUpdateSubscription, callIsBanned, NewBanInfo, Env.withAudit, World.withAudit,
    GenerateUUID, timeNow]
  repeat' split
  all_goals simp_all

/-- The error `GetUser` returns does not depend on the audit store. -/
theorem GetUser_audit_indep (env : Env σ τ) (audit : AuditRepository τ') (a : τ')
    (id : String) (w : World σ τ) :
    (GetUser (env.withAudit audit) id (w.withAudit a)).1.2 =
      (GetUser env id w).1.2 := by
  simp only [GetUser, callExists, callCreate, callFindByID, callFindByEmail, callUpdate, callBan, callUnban,
    callUpdateSubscription, callIsBanned, NewBanInfo, Env.withAudit, World.withAudit,
    GenerateUUID, timeNow]
  repeat' split
  all_goals simp_all

/-- The error `UpdateUser` returns does not depend on the audit store. -/
theorem UpdateUser_audit_indep (env : Env σ τ) (audit : AuditRepository τ') (a : τ')
    (user : User) (w : World σ τ) :
    (UpdateUser (env.withAudit audit) user (w.withAudit a)).1.2 =
      (UpdateUser env user w).1.2 := by
  simp only [UpdateUser, callExists, callCreate, callFindByID, callFindByEmail, callUpdate, callBan, callUnban,
    callUpdateSubscription, callIsBanned, NewBanInfo, Env.withAudit, World.withAudit,
    GenerateUUID, timeNow]
  repeat' split
  all_goals simp_all

/-- The error `Authenticate` returns does not depend on the audit store. -/
theorem Authenticate_audit_indep (env : Env σ τ) (audit : AuditRepository τ') (a : τ')
    (email password : String) (w : World σ τ) :
    (Authenticate (env.withAudit audit) email password (w.withAudit a)).1.2.2 =
      (Authenticate env email password w).1.2.2 := by
  simp only [Authenticate, callExists, callCreate, callFindByID, callFindByEmail, callUpdate, callBan, callUnban,
    callUpdateSubscription, callIsBanned, NewBanInfo, Env.withAudit, World.withAudit,
    GenerateUUID, timeNow]
  repeat' split
  all_goals simp_all

/-- The error `ChangePassword` returns does not depend on the audit store. -/
theorem ChangePassword_audit_indep (env : Env σ τ) (audit : AuditRepository τ') (a : τ')
    (userID currentPassword newPassword : String) (w : World σ τ) :
    (ChangePassword (env.withAudit audit) userID currentPassword newPassword (w.withAudit a)).1 =
      (ChangePassword env userID currentPassword newPassword w).1 := by
  simp only [ChangePassword, callExists, callCreate, callFindByID, callFindByEmail, callUpdate, callBan, callUnban,
    callUpdateSubscription, callIsBanned, NewBanInfo, Env.withAudit, World.withAudit,
    GenerateUUID, timeNow]
  repeat' split
  all_goals simp_all

/-- The error `BanUser` returns does not depend on the audit store. -/
theorem BanUser_audit_indep (env : Env σ τ) (audit : AuditRepository τ') (a : τ')
    (userID reason bannedBy : String) (duration : Option Duration) (w : World σ τ) :
    (BanUser (env.withAudit audit) userID reason bannedBy duration (w.withAudit a)).1.2 =
      (BanUser env userID reason bannedBy duration w).1.2 := by
  simp only [BanUser, callExists, callCreate, callFindByID, callFindByEmail, callUpdate, callBan, callUnban,
    callUpdateSubscription, callIsBanned, NewBanInfo, Env.withAudit, World.withAudit,
    GenerateUUID, timeNow]
  repeat' split
  all_goals simp_all

/-- The error `UnbanUser` returns does not depend on the audit store. -/
theorem UnbanUser_audit_indep (env : Env σ τ) (audit : AuditRepository τ') (a : τ')
    (userID unbannedBy : String) (w : World σ τ) :
    (UnbanUser (env.withAudit audit) userID unbannedBy (w.withAudit a)).1.2 =
      (UnbanUser env userID unbannedBy w).1.2 := by
  simp only [UnbanUser, callExists, callCreate, callFindByID, callFindByEmail, callUpdate, callBan, callUnban,
    callUpdateSubscription, callIsBanned, NewBanInfo, Env.withAudit, World.withAudit,
    GenerateUUID, timeNow]
  repeat' split
  all_goals simp_all

/-- The error `UpdateSubscription` returns does not depend on the audit store. -/
theorem UpdateSubscription_audit_indep (env : Env σ τ) (audit : AuditRepository τ') (a : τ')
    (userID : String) (subscription : SubscriptionInfo) (w : World σ τ) :
    (UpdateSubscription (env.withAudit audit) userID subscription (w.withAudit a)).1.2 =
      (UpdateSubscription env userID subscription w).1.2 := by
  simp only [UpdateSubscription, callExists, callCreate, callFindByID, callFindByEmail, callUpdate, callBan, callUnban,
    callUpdateSubscription, callIsBanned, NewBanInfo, Env.withAudit, World.withAudit,
    GenerateUUID, timeNow]
  repeat' split
  all_goals simp_all

/-- The error `CancelSubscription` returns does not depend on the audit store. -/
theorem CancelSubscription_audit_indep (env : Env σ τ) (audit : AuditRepository τ') (a : τ')
    (userID reason : String) (immediate : Bool) (w : World σ τ) :
    (CancelSubscription (env.withAudit audit) userID reason immediate (w.withAudit a)).1.2 =
      (CancelSubscription env userID reason immediate w).1.2 := by
  simp only [CancelSubscription, callExists, callCreate, callFindByID, callFindByEmail, callUpdate, callBan, callUnban,
    callUpdateSubscription, callIsBanned, NewBanInfo, Env.withAudit, World.withAudit,
    GenerateUUID, timeNow]
  repeat' split
  all_goals simp_all

/-- C8, counterexample. `GetUser` of a user under a permanent ban: the only store
call is `FindByID`, it succeeds, and the operation fails with `ErrUserBanned`, with
a working audit store as with one in an outage. Likewise `BanUser` of an
administrator fails although `FindByID` succeeded. So the success of every
record-store call does not make the operation succeed. -/
theorem operation_fails_though_store_calls_succeed :
    (∀ e ∈ (GetUser (demoEnv okAudit) "u1" (demoWorld [demoBanned "u1"])).2.since
        (demoWorld [demoBanned "u1"]), e.err = none) ∧
    (GetUser (demoEnv okAudit) "u1" (demoWorld [demoBanned "u1"])).1.2 =
      some ErrUserBanned ∧
    (GetUser (demoEnv downAudit) "u1" (demoWorld [demoBanned "u1"])).1.2 =
      some ErrUserBanned ∧
    (∀ e ∈ (BanUser (demoEnv okAudit) "u1" "spam" "mod1" none
        (demoWorld [demoUser "u1" "a@x.com" UserRoleAdmin])).2.since
        (demoWorld [demoUser "u1" "a@x.com" UserRoleAdmin]), e.err = none) ∧
    (BanUser (demoEnv okAudit) "u1" "spam" "mod1" none
      (demoWorld [demoUser "u1" "a@x.com" UserRoleAdmin])).1.2 ≠ none := by
  decide

/-- C8, amended. The audit store is never a source of failure: for each of
`Register`, `GetUser`, `UpdateUser`, `Authenticate`, `ChangePassword`, `BanUser`,
`UnbanUser`, `UpdateSubscription` and `CancelSubscription`, the error returned
(nil or not) is the same when the audit store is replaced by any other audit
store in any state, so whether the audit calls succeed or fail. -/
theorem audit_store_never_decides_the_error (env : Env σ τ) (audit : AuditRepository τ')
    (a : τ') (w : World σ τ) :
    (∀ (user : User),
      (Register (env.withAudit audit) user (w.withAudit a)).1.2 =
        (Register env user w).1.2) ∧
    (∀ (id : String),
      (GetUser (env.withAudit audit) id (w.withAudit a)).1.2 =
        (GetUser env id w).1.2) ∧
    (∀ (user : User),
      (UpdateUser (env.withAudit audit) user (w.withAudit a)).1.2 =
        (UpdateUser env user w).1.2) ∧
    (∀ (email password : String),
      (Authenticate (env.withAudit audit) email password (w.withAudit a)).1.2.2 =
        (Authenticate env email password w).1.2.2) ∧
    (∀ (userID currentPassword newPassword : String),
      (ChangePassword (env.withAudit audit) userID currentPassword newPassword (w.withAudit a)).1 =
        (ChangePassword env userID currentPassword newPassword w).1) ∧
    (∀ (userID reason bannedBy : String) (duration : Option Duration),
      (BanUser (env.withAudit audit) userID reason bannedBy duration (w.withAudit a)).1.2 =
        (BanUser env userID reason bannedBy duration w).1.2) ∧
    (∀ (userID unbannedBy : String),
      (UnbanUser (env.withAudit audit) userID unbannedBy (w.withAudit a)).1.2 =
        (UnbanUser env userID unbannedBy w).1.2) ∧
    (∀ (userID : String) (subscription : SubscriptionInfo),
      (UpdateSubscription (env.withAudit audit) userID subscription (w.withAudit a)).1.2 =
        (UpdateSubscription env userID subscription w).1.2) ∧
    (∀ (userID reason : String) (immediate : Bool),
      (CancelSubscription (env.withAudit audit) userID reason immediate (w.withAudit a)).1.2 =
        (CancelSubscription env userID reason immediate w).1.2) :=
  ⟨fun user => Register_audit_indep env audit a user w,
   fun id => GetUser_audit_indep env audit a id w,
   fun user => UpdateUser_audit_indep env audit a user w,
   fun email password => Authenticate_audit_indep env audit a email password w,
   fun userID currentPassword newPassword => ChangePassword_audit_indep env audit a userID currentPassword newPassword w,
   fun userID reason bannedBy duration => BanUser_audit_indep env audit a userID reason bannedBy duration w,
   fun userID unbannedBy => UnbanUser_audit_indep env audit a userID unbannedBy w,
   fun userID subscription => UpdateSubscription_audit_indep env audit a userID subscription w,
   fun userID reason immediate => CancelSubscription_audit_indep env audit a userID reason immediate w⟩

/-- With the audit store in an outage `Register` returns the created user and no
error, and the failed audit calls are in the trace. -/
theorem Register_succeeds_during_audit_outage :
    (Register (demoEnv downAudit)
      { demoUser "" "a@x.com" UserRoleUser with Password := "secret123" }
      (demoWorld [])).1.2 = none ∧
    ((Register (demoEnv downAudit)
      { demoUser "" "a@x.com" UserRoleUser with Password := "secret123" }
      (demoWorld [])).2.trace.map Event.err) =
        [none, none, some (.other "audit store unavailable")] := by
  decide

/-! ### C9: the record-store write comes first -/

/-- The scan `auditAfterWrite`, started with `written`, is sound. -/
theorem auditAfterWrite_sound_aux (evs : List Event) :
    ∀ written, auditAfterWrite written evs = true →
      ∀ pre a post, evs = pre ++ a :: post → a.call.isAuditWrite = true →
        written = true ∨ ∃ e ∈ pre, e.call.isRecordWrite = true ∧ e.err = none := by
  induction evs with
  | nil =>
    intro _ _ pre a post h
    simp at h
  | cons e rest ih =>
    intro written hck pre a post h ha
    simp only [auditAfterWrite, Bool.and_eq_true, Bool.or_eq_true, Bool.not_eq_true'] at hck
    obtain ⟨h1, h2⟩ := hck
    cases pre with
    | nil =>
      simp only [List.nil_append, List.cons.injEq] at h
      obtain ⟨rfl, _⟩ := h
      rcases h1 with h1 | h1
      · rw [ha] at h1
        cases h1
      · exact Or.inl h1
    | cons p rest' =>
      simp only [List.cons_append, List.cons.injEq] at h
      obtain ⟨rfl, hrest⟩ := h
      rcases ih _ h2 rest' a post hrest ha with h3 | ⟨x, hx, hw⟩
      · simp only [Bool.or_eq_true, Bool.and_eq_true, Option.isNone_iff_eq_none] at h3
        rcases h3 with h3 | ⟨h3, h4⟩
        · exact Or.inl h3
        · exact Or.inr ⟨e, List.mem_cons_self _ _, h3, h4⟩
      · exact Or.inr ⟨x, List.mem_cons_of_mem _ hx, hw⟩

/-- A list of events that passes the scan has its audit writes after a
successful record-store write. -/
theorem auditAfterWrite_sound (evs : List Event) (h : auditAfterWrite false evs = true) :
    AuditAfterRecordWrite evs := by
  intro pre a post hevs ha
  rcases auditAfterWrite_sound_aux evs false h pre a post hevs ha with h1 | h1
  · cases h1
  · exact h1

/-- The store calls of `Register`: audit writes after the record-store write, and
nothing after a failed one. -/
theorem Register_writes (env : Env σ τ) (user : User) (w : World σ τ) :
    AuditAfterRecordWrite ((Register env user w).2.since w) ∧
    FailsFast (Register env user w).1.2 ((Register env user w).2.since w) := by
  refine ⟨auditAfterWrite_sound _ ?_, ?_⟩
  all_goals simp only [Register, callExists, callCreate, callFindByID, callFindByEmail, callUpdate, callBan, callUnban,
    callUpdateSubscription, callIsBanned, callSaveMetadata, callUpdateMetadata, callGetMetadata,
    callLogActivity, callLogBanChange, callLogSubscriptionChange, NewBanInfo, NewUserActivity,
    NewSubscriptionHistoryEntry, generateUUID, GenerateUUID, timeNow, World.since, FailsFast]
  all_goals repeat' split
  all_goals simp_all [auditAfterWrite, Call.isAuditWrite, Call.isRecordWrite, errOf]

/-- The store calls of `UpdateUser`: audit writes after the record-store write, and
nothing after a failed one. -/
theorem UpdateUser_writes (env : Env σ τ) (user : User) (w : World σ τ) :
    AuditAfterRecordWrite ((UpdateUser env user w).2.since w) ∧
    FailsFast (UpdateUser env user w).1.2 ((UpdateUser env user w).2.since w) := by
  refine ⟨auditAfterWrite_sound _ ?_, ?_⟩
  all_goals simp only [UpdateUser, callExists, callCreate, callFindByID, callFindByEmail, callUpdate, callBan, callUnban,
    callUpdateSubscription, callIsBanned, callSaveMetadata, callUpdateMetadata, callGetMetadata,
    callLogActivity, callLogBanChange, callLogSubscriptionChange, NewBanInfo, NewUserActivity,
    NewSubscriptionHistoryEntry, generateUUID, GenerateUUID, timeNow, World.since, FailsFast]
  all_goals repeat' split
  all_goals simp_all [auditAfterWrite, Call.isAuditWrite, Call.isRecordWrite, errOf]

/-- The store calls of `ChangePassword`: audit writes after the record-store write, and
nothing after a failed one. -/
theorem ChangePassword_writes (env : Env σ τ) (userID currentPassword newPassword : String) (w : World σ τ) :
    AuditAfterRecordWrite ((ChangePassword env userID currentPassword newPassword w).2.since w) ∧
    FailsFast (ChangePassword env userID currentPassword newPassword w).1 ((ChangePassword env userID currentPassword newPassword w).2.since w) := by
  refine ⟨auditAfterWrite_sound _ ?_, ?_⟩
  all_goals simp only [ChangePassword, callExists, callCreate, callFindByID, callFindByEmail, callUpdate, callBan, callUnban,
    callUpdateSubscription, callIsBanned, callSaveMetadata, callUpdateMetadata, callGetMetadata,
    callLogActivity, callLogBanChange, callLogSubscriptionChange, NewBanInfo, NewUserActivity,
    NewSubscriptionHistoryEntry, generateUUID, GenerateUUID, timeNow, World.since, FailsFast]
  all_goals repeat' split
  all_goals simp_all [auditAfterWrite, Call.isAuditWrite, Call.isRecordWrite, errOf]

/-- The store calls of `BanUser`: audit writes after the record-store write, and
nothing after a failed one. -/
theorem BanUser_writes (env : Env σ τ) (userID reason bannedBy : String) (duration : Option Duration) (w : World σ τ) :
    AuditAfterRecordWrite ((BanUser env userID reason bannedBy duration w).2.since w) ∧
    FailsFast (BanUser env userID reason bannedBy duration w).1.2 ((BanUser env userID reason bannedBy duration w).2.since w) := by
  refine ⟨auditAfterWrite_sound _ ?_, ?_⟩
  all_goals simp only [BanUser, callExists, callCreate, callFindByID, callFindByEmail, callUpdate, callBan, callUnban,
    callUpdateSubscription, callIsBanned, callSaveMetadata, callUpdateMetadata, callGetMetadata,
    callLogActivity, callLogBanChange, callLogSubscriptionChange, NewBanInfo, NewUserActivity,
    NewSubscriptionHistoryEntry, generateUUID, GenerateUUID, timeNow, World.since, FailsFast]
  all_goals repeat' split
  all_goals simp_all [auditAfterWrite, Call.isAuditWrite, Call.isRecordWrite, errOf]

/-- The store calls of `UnbanUser`: audit writes after the record-store write, and
nothing after a failed one. -/
theorem UnbanUser_writes (env : Env σ τ) (userID unbannedBy : String) (w : World σ τ) :
    AuditAfterRecordWrite ((UnbanUser env userID unbannedBy w).2.since w) ∧
    FailsFast (UnbanUser env userID unbannedBy w).1.2 ((UnbanUser env userID unbannedBy w).2.since w) := by
  refine ⟨auditAfterWrite_sound _ ?_, ?_⟩
  all_goals simp only [UnbanUser, callExists, callCreate, callFindByID, callFindByEmail, callUpdate, callBan, callUnban,
    callUpdateSubscription, callIsBanned, callSaveMetadata, callUpdateMetadata, callGetMetadata,
    callLogActivity, callLogBanChange, callLogSubscriptionChange, NewBanInfo, NewUserActivity,
    NewSubscriptionHistoryEntry, generateUUID, GenerateUUID, timeNow, World.since, FailsFast]
  all_goals repeat' split
  all_goals simp_all [auditAfterWrite, Call.isAuditWrite, Call.isRecordWrite, errOf]

/-- The store calls of `UpdateSubscription`: audit writes after the record-store write, and
nothing after a failed one. -/
theorem UpdateSubscription_writes (env : Env σ τ) (userID : String) (subscription : SubscriptionInfo) (w : World σ τ) :
    AuditAfterRecordWrite ((UpdateSubscription env userID subscription w).2.since w) ∧
    FailsFast (UpdateSubscription env userID subscription w).1.2 ((UpdateSubscription env userID subscription w).2.since w) := by
  refine ⟨auditAfterWrite_sound _ ?_, ?_⟩
  all_goals simp only [UpdateSubscription, callExists, callCreate, callFindByID, callFindByEmail, callUpdate, callBan, callUnban,
    callUpdateSubscription, callIsBanned, callSaveMetadata, callUpdateMetadata, callGetMetadata,
    callLogActivity, callLogBanChange, callLogSubscriptionChange, NewBanInfo, NewUserActivity,
    NewSubscriptionHistoryEntry, generateUUID, GenerateUUID, timeNow, World.since, FailsFast]
  all_goals repeat' split
  all_goals simp_all [auditAfterWrite, Call.isAuditWrite, Call.isRecordWrite, errOf]

/-- The store calls of `CancelSubscription`: audit writes after the record-store write, and
nothing after a failed one. -/
theorem CancelSubscription_writes (env : Env σ τ) (userID reason : String) (immediate : Bool) (w : World σ τ) :
    AuditAfterRecordWrite ((CancelSubscription env userID reason immediate w).2.since w) ∧
    FailsFast (CancelSubscription env userID reason immediate w).1.2 ((CancelSubscription env userID reason immediate w).2.since w) := by
  refine ⟨auditAfterWrite_sound _ ?_, ?_⟩
  all_goals simp only [CancelSubscription, callExists, callCreate, callFindByID, callFindByEmail, callUpdate, callBan, callUnban,
    callUpdateSubscription, callIsBanned, callSaveMetadata, callUpdateMetadata, callGetMetadata,
    callLogActivity, callLogBanChange, callLogSubscriptionChange, NewBanInfo, NewUserActivity,
    NewSubscriptionHistoryEntry, generateUUID, GenerateUUID, timeNow, World.since, FailsFast]
  all_goals repeat' split
  all_goals simp_all [auditAfterWrite, Call.isAuditWrite, Call.isRecordWrite, errOf]

/-- C9. In each of `Register`, `UpdateUser`, `ChangePassword`, `BanUser`,
`UnbanUser`, `UpdateSubscription` and `CancelSubscription`, every write to the
audit store is issued after a write to the record store (`Create`, `Update`, `Ban`,
`Unban`, `UpdateSubscription`) that returned nil; and if the write to the record
store returns an error, the operation returns that error and issues no write to
the audit store at all. -/
theorem record_write_precedes_audit_writes (env : Env σ τ) (w : World σ τ) :
    (∀ (user : User),
      AuditAfterRecordWrite ((Register env user w).2.since w) ∧
      FailsFast (Register env user w).1.2 ((Register env user w).2.since w)) ∧
    (∀ (user : User),
      AuditAfterRecordWrite ((UpdateUser env user w).2.since w) ∧
      FailsFast (UpdateUser env user w).1.2 ((UpdateUser env user w).2.since w)) ∧
    (∀ (userID currentPassword newPassword : String),
      AuditAfterRecordWrite ((ChangePassword env userID currentPassword newPassword w).2.since w) ∧
      FailsFast (ChangePassword env userID currentPassword newPassword w).1 ((ChangePassword env userID currentPassword newPassword w).2.since w)) ∧
    (∀ (userID reason bannedBy : String) (duration : Option Duration),
      AuditAfterRecordWrite ((BanUser env userID reason bannedBy duration w).2.since w) ∧
      FailsFast (BanUser env userID reason bannedBy duration w).1.2 ((BanUser env userID reason bannedBy duration w).2.since w)) ∧
    (∀ (userID unbannedBy : String),
      AuditAfterRecordWrite ((UnbanUser env userID unbannedBy w).2.since w) ∧
      FailsFast (UnbanUser env userID unbannedBy w).1.2 ((UnbanUser env userID unbannedBy w).2.since w)) ∧
    (∀ (userID : String) (subscription : SubscriptionInfo),
      AuditAfterRecordWrite ((UpdateSubscription env userID subscription w).2.since w) ∧
      FailsFast (UpdateSubscription env userID subscription w).1.2 ((UpdateSubscription env userID subscription w).2.since w)) ∧
    (∀ (userID reason : String) (immediate : Bool),
      AuditAfterRecordWrite ((CancelSubscription env userID reason immediate w).2.since w) ∧
      FailsFast (CancelSubscription env userID reason immediate w).1.2 ((CancelSubscription env userID reason immediate w).2.since w)) :=
  ⟨fun user => Register_writes env user w,
   fun user => UpdateUser_writes env user w,
   fun userID currentPassword newPassword => ChangePassword_writes env userID currentPassword newPassword w,
   fun userID reason bannedBy duration => BanUser_writes env userID reason bannedBy duration w,
   fun userID unbannedBy => UnbanUser_writes env userID unbannedBy w,
   fun userID subscription => UpdateSubscription_writes env userID subscription w,
   fun userID reason immediate => CancelSubscription_writes env userID reason immediate w⟩

/-! ### C10: `BanUser` on an administrator -/

/-- C10. When the record store finds the target and its role is ADMIN, SUPER_ADMIN
or MODERATOR, `BanUser` returns no user and the error `cannot ban admin user`, and
its only store call is the lookup `FindByID`: `Ban` is not called, no audit write
is issued, and the record store is in the state the lookup left it in, so that
the stored `BanInfo` and status of the target are the ones it had. -/
theorem BanUser_admin (env : Env σ τ) (userID reason bannedBy : String)
    (duration : Option Duration) (w : World σ τ) (user : User)
    (hfind : (env.userRepo.FindByID userID w.users).1 = .ok user)
    (hrole : user.Role = UserRoleAdmin ∨ user.Role = UserRoleSuperAdmin ∨
      user.Role = UserRoleModerator) :
    (BanUser env userID reason bannedBy duration w).1 =
      (none, some (.other "cannot ban admin user")) ∧
    (BanUser env userID reason bannedBy duration w).2.since w =
      [⟨.FindByID userID, none⟩] ∧
    (BanUser env userID reason bannedBy duration w).2.users =
      (env.userRepo.FindByID userID w.users).2 ∧
    (BanUser env userID reason bannedBy duration w).2.audit = w.audit := by
  have hadmin : user.IsAdmin = true := by
    rcases hrole with h | h | h <;> simp [User.IsAdmin, h]
  simp [BanUser, callFindByID, hfind, errOf, hadmin, World.since]

/-- C10, witness. Banning a stored moderator for an hour fails, and the rows of
the record store, the ban record and status of the moderator among them, are
what they were. -/
theorem BanUser_admin_witness :
    (BanUser (demoEnv okAudit) "u1" "spam" "mod1" (some 3600000000000)
      (demoWorld [demoUser "u1" "a@x.com" UserRoleModerator])).1 =
        (none, some (.other "cannot ban admin user")) ∧
    (BanUser (demoEnv okAudit) "u1" "spam" "mod1" (some 3600000000000)
      (demoWorld [demoUser "u1" "a@x.com" UserRoleModerator])).2.users =
        [demoUser "u1" "a@x.com" UserRoleModerator] :=
  have h := BanUser_admin (demoEnv okAudit) "u1" "spam" "mod1" (some 3600000000000)
    (demoWorld [demoUser "u1" "a@x.com" UserRoleModerator])
    (demoUser "u1" "a@x.com" UserRoleModerator) rfl (Or.inr (Or.inr rfl))
  ⟨h.1, h.2.2.1⟩

end ServiceTheorems


section LaterTheorems

variable {σ τ : Type}

/-! ### C11: a temporary ban runs out by itself -/

/-- The ban record made by `NewBanInfo`, by the readings of the clock. -/
theorem NewBanInfo_eq (env : Env σ τ) (reason bannedBy : String) (duration : Option Duration)
    (w : World σ τ) :
    (NewBanInfo env reason bannedBy duration w).1 =
      banRecord env w.tick reason bannedBy duration := by
  cases duration <;> simp [NewBanInfo, banRecord, timeNow]

/-- What a successful `BanUser` has done: the lookup found a user who is no
administrator, `Ban` stored the new ban record and returned nil, and the user
returned is the one found with that record, the status of the ban and no
password. -/
theorem BanUser_success (env : Env σ τ) (userID reason bannedBy : String)
    (duration : Option Duration) (w : World σ τ) (ub : User)
    (h : (BanUser env userID reason bannedBy duration w).1 = (some ub, none)) :
    ∃ user0, (env.userRepo.FindByID userID w.users).1 = .ok user0 ∧
      user0.IsAdmin = false ∧
      (env.userRepo.Ban userID (banRecord env w.tick reason bannedBy duration)
        (env.userRepo.FindByID userID w.users).2).1 = none ∧
      ub = { user0 with
        BanInfo := some (banRecord env w.tick reason bannedBy duration)
        Status := if duration.isSome then UserStatusBannedTemporarily
                  else UserStatusBannedPermanently
        Password := "" } ∧
      (BanUser env userID reason bannedBy duration w).2.users =
        (env.userRepo.Ban userID (banRecord env w.tick reason bannedBy duration)
          (env.userRepo.FindByID userID w.users).2).2 := by
  have hw : (NewBanInfo env reason bannedBy duration (callFindByID env userID w).2).2.users =
      (env.userRepo.FindByID userID w.users).2 := by
    cases duration <;> simp [NewBanInfo, timeNow, callFindByID]
  have ht : (callFindByID env userID w).2.tick = w.tick := rfl
  simp only [BanUser] at h ⊢
  cases hf : (callFindByID env userID w).1 with
  | error e => simp [hf] at h
  | ok user0 =>
    have hf' : (env.userRepo.FindByID userID w.users).1 = .ok user0 := hf
    simp only [hf] at h ⊢
    cases ha : user0.IsAdmin with
    | true => simp [ha] at h
    | false =>
      simp only [ha, NewBanInfo_eq, ht] at h ⊢
      cases hb : (callBan env userID (banRecord env w.tick reason bannedBy duration)
          (NewBanInfo env reason bannedBy duration (callFindByID env userID w).2).2).1 with
      | some e => simp [hb] at h
      | none =>
        have hb' : (env.userRepo.Ban userID (banRecord env w.tick reason bannedBy duration)
            (env.userRepo.FindByID userID w.users).2).1 = none := by
          rw [← hw]
          exact hb
        simp only [hb] at h ⊢
        refine ⟨user0, hf', ha, hb', ?_, ?_⟩
        · simp at h
          exact h.symm
        · simp [callLogActivity, callLogBanChange, NewUserActivity, generateUUID, timeNow,
            callBan, hw]

/-- C11. Over a record store that persists the ban record given to `Ban` and
returns it from `FindByID`: after `BanUser` with a duration has succeeded, in any
later world in which the record store is as the ban left it (so no unban has been
made), `GetUser` fails with `ErrUserBanned` whenever the clock reads a time
before the `BannedUntil` of the ban, and whenever it reads a time after it
`GetUser` succeeds and returns the user, making no write to the record store,
whose state is the one the lookup leaves. -/
theorem ban_expires_lazily (env : Env σ τ) (userID reason bannedBy : String) (d : Duration)
    (w w2 : World σ τ) (ub : User) (untl : Time)
    (hstore : PersistsBan env.userRepo)
    (hban : (BanUser env userID reason bannedBy (some d) w).1 = (some ub, none))
    (hu : ub.BanInfo.bind BanInfo.BannedUntil = some untl)
    (hw2 : w2.users = (BanUser env userID reason bannedBy (some d) w).2.users) :
    (env.clock w2.tick < untl →
      (GetUser env userID w2).1 = (none, some ErrUserBanned)) ∧
    (untl < env.clock w2.tick →
      (GetUser env userID w2).1.2 = none ∧
      (GetUser env userID w2).1.1.isSome = true ∧
      (∀ e ∈ (GetUser env userID w2).2.since w2, e.call.isRecordWrite = false) ∧
      (GetUser env userID w2).2.users = (env.userRepo.FindByID userID w2.users).2) := by
  obtain ⟨user0, hf, _, hb, hub, husers⟩ :=
    BanUser_success env userID reason bannedBy (some d) w ub hban
  have huntl : untl = env.clock (w.tick + 1) + d := by
    rw [hub] at hu
    simpa [banRecord] using hu.symm
  obtain ⟨u, hfu, hbi⟩ := hstore userID _ w.users user0 hf hb
  rw [← husers, ← hw2] at hfu
  constructor
  · intro hlt
    have hnot : ¬ (env.clock (w.tick + 1) + d < env.clock w2.tick) := by
      rw [← huntl]
      exact not_lt.mpr (le_of_lt hlt)
    simp [GetUser, hfu, callIsBanned, hbi, banRecord, User.IsBanned, timeNow, callFindByID,
      hnot]
  · intro hlt
    rw [huntl] at hlt
    cases hm : (env.auditRepo.GetMetadata userID w2.audit).1 <;>
      simp [GetUser, hfu, callIsBanned, hbi, banRecord, User.IsBanned, timeNow, callFindByID,
        hlt, callGetMetadata, hm, World.since, Call.isRecordWrite]

end LaterTheorems

section MemStore

/-- The lookup of the in-memory store leaves its rows as they are. -/
theorem memUsers_FindByID_state (id : String) (rows : List User) :
    (memUsers.FindByID id rows).2 = rows := by
  simp only [memUsers]
  split <;> rfl

/-- A user found by the in-memory store is a row with the id asked for that is
not deleted. -/
theorem memUsers_FindByID_ok (id : String) (rows : List User) (u : User)
    (h : (memUsers.FindByID id rows).1 = .ok u) :
    rows.find? (fun r => r.ID = id && r.Status ≠ UserStatusDeleted) = some u := by
  simp only [memUsers] at h
  split at h
  · rename_i r hr
    simp only [Except.ok.injEq] at h
    rw [hr, h]
  · simp at h

/-- The in-memory store returns users with the id asked for. -/
theorem memUsers_findsRequestedID : FindsRequestedID memUsers := by
  intro id s u h
  have h1 := List.find?_some (memUsers_FindByID_ok id s u h)
  simp at h1
  exact h1.1

/-- The in-memory store persists the ban record given to `Ban`. -/
theorem memUsers_persistsBan : PersistsBan memUsers := by
  intro id b s u0 hf _
  rw [memUsers_FindByID_state]
  have h0 := memUsers_FindByID_ok id s u0 hf
  have hmem : u0 ∈ s := List.mem_of_find?_eq_some h0
  have hp := List.find?_some h0
  simp only [Bool.and_eq_true, decide_eq_true_eq] at hp
  simp only [memUsers, List.find?_map]
  cases hq : List.find? ((fun r => decide (r.ID = id) && decide (r.Status ≠ UserStatusDeleted)) ∘
      fun r => if r.ID = id then
        { r with BanInfo := some b,
                 Status := if b.BannedUntil.isSome then UserStatusBannedTemporarily
                           else UserStatusBannedPermanently } else r) s with
  | none =>
    exfalso
    have hall := List.find?_eq_none.mp hq u0 hmem
    apply hall
    simp only [Function.comp, hp.1, if_true, Bool.and_eq_true, decide_eq_true_eq, true_and]
    cases b.BannedUntil <;> simp <;> decide
  | some r =>
    have hr := List.find?_some hq
    simp only [Function.comp, Bool.and_eq_true, decide_eq_true_eq] at hr
    by_cases hid : r.ID = id
    · simp [hid]
    · simp [hid] at hr

end MemStore

section MemStoreSubscription

/-- The in-memory store persists the subscription given to `UpdateSubscription`
and keeps the ban record. -/
theorem memUsers_persistsSubscription : PersistsSubscription memUsers := by
  intro id sub s u0 hf _
  rw [memUsers_FindByID_state]
  have h0 := memUsers_FindByID_ok id s u0 hf
  have hp := List.find?_some h0
  simp only [Bool.and_eq_true, decide_eq_true_eq] at hp
  have hcomp : ((fun r : User => decide (r.ID = id) && decide (r.Status ≠ UserStatusDeleted)) ∘
      fun r => if r.ID = id then { r with Subscription := some sub } else r) =
      fun r : User => decide (r.ID = id) && decide (r.Status ≠ UserStatusDeleted) := by
    funext r
    by_cases hid : r.ID = id <;> simp [Function.comp, hid]
  refine ⟨{ u0 with Subscription := some sub }, ?_, rfl, rfl⟩
  simp only [memUsers, List.find?_map, hcomp, h0, Option.map_some', hp.1, if_true]

end MemStoreSubscription

/-- C11, witness. A user is banned for 3600 at a moment when the clock reads 1001;
with the store as the ban left it, `GetUser` fails with `ErrUserBanned` when the
clock reads 1010 and succeeds when it reads 6000. -/
theorem ban_expires_lazily_witness :
    (GetUser (demoEnv okAudit) "u1"
      { users := (BanUser (demoEnv okAudit) "u1" "spam" "mod1" (some 3600)
          (demoWorld [demoUser "u1" "a@x.com" UserRoleUser])).2.users,
        audit := (), tick := 10, trace := [] }).1 = (none, some ErrUserBanned) ∧
    (GetUser (demoEnv okAudit) "u1"
      { users := (BanUser (demoEnv okAudit) "u1" "spam" "mod1" (some 3600)
          (demoWorld [demoUser "u1" "a@x.com" UserRoleUser])).2.users,
        audit := (), tick := 5000, trace := [] }).1.2 = none :=
  ⟨(ban_expires_lazily (demoEnv okAudit) "u1" "spam" "mod1" 3600
      (demoWorld [demoUser "u1" "a@x.com" UserRoleUser])
      { users := (BanUser (demoEnv okAudit) "u1" "spam" "mod1" (some 3600)
          (demoWorld [demoUser "u1" "a@x.com" UserRoleUser])).2.users,
        audit := (), tick := 10, trace := [] } _ 4601
      memUsers_persistsBan rfl rfl rfl).1 (by decide),
   ((ban_expires_lazily (demoEnv okAudit) "u1" "spam" "mod1" 3600
      (demoWorld [demoUser "u1" "a@x.com" UserRoleUser])
      { users := (BanUser (demoEnv okAudit) "u1" "spam" "mod1" (some 3600)
          (demoWorld [demoUser "u1" "a@x.com" UserRoleUser])).2.users,
        audit := (), tick := 5000, trace := [] } _ 4601
      memUsers_persistsBan rfl rfl rfl).2 (by decide)).1⟩

section DeleteTheorems

variable {σ τ : Type}

/-! ### C12 and C13: the soft delete -/

/-- The in-memory store excludes deleted users from its lookups. -/
theorem memUsers_excludesDeleted : ExcludesDeleted memUsers := by
  intro u s hdel hupd
  simp only [memUsers] at hupd ⊢
  split at hupd
  · rename_i hany
    simp only [hany, if_true]
    have hnone : List.find? (fun r => decide (r.ID = u.ID) && decide (r.Status ≠ UserStatusDeleted))
        (List.map (fun r => if r.ID = u.ID then u else r) s) = none := by
      rw [List.find?_eq_none]
      intro x hx
      obtain ⟨r, _, rfl⟩ := List.mem_map.mp hx
      by_cases hid : r.ID = u.ID
      · simp [hid, hdel]
      · simp [hid]
    rw [hnone]
  · simp at hupd

/-- What a successful `DeleteUser` has done: the lookup found a user, and `Update`
stored that user with status `DELETED` and a new `UpdatedAt`, and nothing else
was called. -/
theorem DeleteUser_success (env : Env σ τ) (id : String) (w : World σ τ)
    (h : (DeleteUser env id w).1 = none) :
    ∃ u, (env.userRepo.FindByID id w.users).1 = .ok u ∧
      (env.userRepo.Update { u with Status := UserStatusDeleted, UpdatedAt := env.clock w.tick }
        (env.userRepo.FindByID id w.users).2).1 = none ∧
      (DeleteUser env id w).2.users =
        (env.userRepo.Update
          { u with Status := UserStatusDeleted, UpdatedAt := env.clock w.tick }
          (env.userRepo.FindByID id w.users).2).2 ∧
      (DeleteUser env id w).2.since w =
        [⟨.FindByID id, none⟩,
         ⟨.Update { u with Status := UserStatusDeleted, UpdatedAt := env.clock w.tick },
          none⟩] := by
  simp only [DeleteUser, callFindByID] at h ⊢
  cases hf : (env.userRepo.FindByID id w.users).1 with
  | error e => simp [hf] at h
  | ok u =>
    simp only [hf, callUpdate, timeNow] at h ⊢
    exact ⟨u, rfl, h, rfl, by simp [World.since, h, errOf]⟩

/-- After a successful `DeleteUser`, over a store that returns users with the id
asked for and excludes deleted users, the lookup of the id reports not found. -/
theorem FindByID_after_DeleteUser (env : Env σ τ) (id : String) (w : World σ τ)
    (hid : FindsRequestedID env.userRepo) (hex : ExcludesDeleted env.userRepo)
    (h : (DeleteUser env id w).1 = none) :
    (env.userRepo.FindByID id (DeleteUser env id w).2.users).1 =
      .error (NewUserNotFoundError id) := by
  obtain ⟨u, hf, hupd, husers, _⟩ := DeleteUser_success env id w h
  have hu : u.ID = id := hid id w.users u hf
  have := hex { u with Status := UserStatusDeleted, UpdatedAt := env.clock w.tick }
    (env.userRepo.FindByID id w.users).2 rfl hupd
  rw [husers]
  simpa [hu] using this

/-- C12, counterexample. Over the in-memory store, whose lookups exclude deleted
users, the first `DeleteUser` of a stored user succeeds and the second one fails
with the store's not-found error; the row has status `DELETED` after both. -/
theorem second_DeleteUser_fails :
    (DeleteUser (demoEnv okAudit) "u1"
      (demoWorld [demoUser "u1" "a@x.com" UserRoleUser])).1 = none ∧
    (DeleteUser (demoEnv okAudit) "u1"
      (DeleteUser (demoEnv okAudit) "u1"
        (demoWorld [demoUser "u1" "a@x.com" UserRoleUser])).2).1 =
      some (NewUserNotFoundError "u1") ∧
    ((DeleteUser (demoEnv okAudit) "u1"
      (DeleteUser (demoEnv okAudit) "u1"
        (demoWorld [demoUser "u1" "a@x.com" UserRoleUser])).2).2.users.map User.Status) =
      [UserStatusDeleted] := by
  decide

/-- C12, amended. Over a record store that returns users with the id asked for and
whose `FindByID` excludes users with status `DELETED`: after a first successful
`DeleteUser`, a second `DeleteUser` of the same id fails with the store's
not-found error; its only store call is the lookup, so it writes nothing and the
stored user stays as the first call left it, in status `DELETED`. -/
theorem second_DeleteUser_not_found (env : Env σ τ) (id : String) (w : World σ τ)
    (hid : FindsRequestedID env.userRepo) (hex : ExcludesDeleted env.userRepo)
    (h : (DeleteUser env id w).1 = none) :
    (DeleteUser env id (DeleteUser env id w).2).1 = some (NewUserNotFoundError id) ∧
    (DeleteUser env id (DeleteUser env id w).2).2.since (DeleteUser env id w).2 =
      [⟨.FindByID id, some (NewUserNotFoundError id)⟩] ∧
    (DeleteUser env id (DeleteUser env id w).2).2.users =
      (env.userRepo.FindByID id (DeleteUser env id w).2.users).2 := by
  have hnf := FindByID_after_DeleteUser env id w hid hex h
  generalize (DeleteUser env id w).2 = w1 at hnf ⊢
  simp [DeleteUser, callFindByID, hnf, World.since, errOf]

/-- C12, witness. The second delete of the stored user of the in-memory store. -/
theorem second_DeleteUser_not_found_witness :
    (DeleteUser (demoEnv okAudit) "u1"
      (DeleteUser (demoEnv okAudit) "u1"
        (demoWorld [demoUser "u1" "a@x.com" UserRoleUser])).2).1 =
      some (NewUserNotFoundError "u1") :=
  (second_DeleteUser_not_found (demoEnv okAudit) "u1"
    (demoWorld [demoUser "u1" "a@x.com" UserRoleUser])
    memUsers_findsRequestedID memUsers_excludesDeleted rfl).1

/-- C13. After a successful `DeleteUser` the store calls made are the lookup and
one `Update`, whose user is the user loaded with status `DELETED` and a new
`UpdatedAt` and every other field as loaded, so the row is rewritten and not
removed; and over a record store that returns users with the id asked for and
whose lookups exclude deleted users, `GetUser` of the id then fails with the
store's not-found error, whose code is USER_NOT_FOUND. -/
theorem DeleteUser_hides_user (env : Env σ τ) (id : String) (w : World σ τ) (u : User)
    (hid : FindsRequestedID env.userRepo) (hex : ExcludesDeleted env.userRepo)
    (hf : (env.userRepo.FindByID id w.users).1 = .ok u)
    (h : (DeleteUser env id w).1 = none) :
    (DeleteUser env id w).2.since w =
      [⟨.FindByID id, none⟩,
       ⟨.Update { u with Status := UserStatusDeleted, UpdatedAt := env.clock w.tick },
        none⟩] ∧
    (GetUser env id (DeleteUser env id w).2).1 = (none, some (NewUserNotFoundError id)) ∧
    (NewUserNotFoundError id).code = some ErrCodeUserNotFound := by
  obtain ⟨u', hf', _, _, hsince⟩ := DeleteUser_success env id w h
  have hnf := FindByID_after_DeleteUser env id w hid hex h
  rw [hf] at hf'
  injection hf' with hf'
  subst hf'
  refine ⟨hsince, ?_, rfl⟩
  generalize (DeleteUser env id w).2 = w1 at hnf ⊢
  simp [GetUser, callFindByID, hnf]

/-- C13, witness. Deleting the stored user of the in-memory store rewrites its row
with status `DELETED`, and `GetUser` then reports it as not found. -/
theorem DeleteUser_hides_user_witness :
    (DeleteUser (demoEnv okAudit) "u1"
      (demoWorld [demoUser "u1" "a@x.com" UserRoleUser])).2.users =
      [{ demoUser "u1" "a@x.com" UserRoleUser with
          Status := UserStatusDeleted, UpdatedAt := 1000 }] ∧
    (GetUser (demoEnv okAudit) "u1"
      (DeleteUser (demoEnv okAudit) "u1"
        (demoWorld [demoUser "u1" "a@x.com" UserRoleUser])).2).1 =
      (none, some (NewUserNotFoundError "u1")) :=
  ⟨rfl,
   (DeleteUser_hides_user (demoEnv okAudit) "u1"
     (demoWorld [demoUser "u1" "a@x.com" UserRoleUser])
     (demoUser "u1" "a@x.com" UserRoleUser)
     memUsers_findsRequestedID memUsers_excludesDeleted rfl rfl).2.1⟩

end DeleteTheorems

/-! ### C14: the page count of the listing response -/

/-- C14, the code at the failing input. The record store counts 45 users and the
request has page size 0. The listing itself is paged by 20, the page size after
normalisation, yet the handler computes the response from the page size of the
request: it reports page size 0 and 0 pages, not 3. With 150 users and page
size 500 the response reports 1 page, not the 2 pages of 100. -/
theorem ListUsers_response_uses_requested_page_size :
    (listPagination (ListUsersRequest.filter ⟨1, 0, "", "", "", false, none, none⟩)).1.PageSize
      = 20 ∧
    ((UserHandler.ListUsers (demoEnv okAudit) ⟨1, 0, "", "", "", false, none, none⟩
        (demoWorld (List.replicate 45 (demoUser "u1" "a@x.com" UserRoleUser)))).1.1.map
      (fun r => (r.Total, r.PageSize, r.TotalPages))) = some (45, 0, 0) ∧
    (listPagination (ListUsersRequest.filter ⟨1, 500, "", "", "", false, none, none⟩)).1.PageSize
      = 100 ∧
    (ListUsersResponseToProto [] 150 1 500).TotalPages = 1 := by
  decide

/-! ### C15: the pagination of the listing -/

/-- An integer in the range of `int64` is held unchanged. -/
theorem wrapInt64_of_range (x : Int) (h1 : -2 ^ 63 ≤ x) (h2 : x < 2 ^ 63) :
    wrapInt64 x = x := by
  unfold wrapInt64
  norm_num at h1 h2 ⊢
  omega

/-- C15, counterexample. For page 2 ^ 62 and page size 100 the product
`(page - 1) * pageSize` does not fit the 64 bits of a Go `int`: the offset bound
to `OFFSET` is -100, which is negative and is not `(page - 1) * pageSize`. -/
theorem listPagination_offset_wraps :
    (listPagination ⟨2 ^ 62, 100, "", "", "", none, none, none⟩).1.Page = 2 ^ 62 ∧
    (listPagination ⟨2 ^ 62, 100, "", "", "", none, none, none⟩).1.PageSize = 100 ∧
    (listPagination ⟨2 ^ 62, 100, "", "", "", none, none, none⟩).2 = -100 ∧
    ¬ (0 ≤ (listPagination ⟨2 ^ 62, 100, "", "", "", none, none, none⟩).2) ∧
    (listPagination ⟨2 ^ 62, 100, "", "", "", none, none, none⟩).2 ≠ (2 ^ 62 - 1) * 100 := by
  decide

/-- C15, amended. For every filter, `List` normalises the pagination: a page below
1 becomes 1, a page size below 1 becomes 20, a page size above 100 becomes 100,
values in range and all other fields are unchanged, so `LIMIT` is always
between 1 and 100; and when `(page - 1) * pageSize` of the normalised values fits
a Go `int` (as it does for every page a request can carry, an `int32`),
`OFFSET` is that product and is not negative. -/
theorem listPagination_spec (f : UserFilter) :
    (listPagination f).1.Page = (if f.Page < 1 then 1 else f.Page) ∧
    (listPagination f).1.PageSize =
      (if f.PageSize < 1 then 20 else if f.PageSize > 100 then 100 else f.PageSize) ∧
    1 ≤ (listPagination f).1.Page ∧
    1 ≤ (listPagination f).1.PageSize ∧ (listPagination f).1.PageSize ≤ 100 ∧
    (listPagination f).1.Search = f.Search ∧ (listPagination f).1.Status = f.Status ∧
    (listPagination f).1.Role = f.Role ∧ (listPagination f).1.IsBanned = f.IsBanned ∧
    (listPagination f).1.SubStatus = f.SubStatus ∧
    (listPagination f).1.SubLevel = f.SubLevel ∧
    (((listPagination f).1.Page - 1) * (listPagination f).1.PageSize < 2 ^ 63 →
      (listPagination f).2 = ((listPagination f).1.Page - 1) * (listPagination f).1.PageSize ∧
      0 ≤ (listPagination f).2) := by
  have hpage : (listPagination f).1.Page = (if f.Page < 1 then 1 else f.Page) := by
    simp only [listPagination]
    split_ifs <;> simp_all
  have hsize : (listPagination f).1.PageSize =
      (if f.PageSize < 1 then 20 else if f.PageSize > 100 then 100 else f.PageSize) := by
    simp only [listPagination]
    split_ifs <;> simp_all
  have h1 : 1 ≤ (listPagination f).1.Page := by
    rw [hpage]
    split_ifs <;> omega
  have h2 : 1 ≤ (listPagination f).1.PageSize ∧ (listPagination f).1.PageSize ≤ 100 := by
    rw [hsize]
    split_ifs <;> omega
  refine ⟨hpage, hsize, h1, h2.1, h2.2, ?_, ?_, ?_, ?_, ?_, ?_, ?_⟩
  · simp only [listPagination]; split_ifs <;> rfl
  · simp only [listPagination]; split_ifs <;> rfl
  · simp only [listPagination]; split_ifs <;> rfl
  · simp only [listPagination]; split_ifs <;> rfl
  · simp only [listPagination]; split_ifs <;> rfl
  · simp only [listPagination]; split_ifs <;> rfl
  · intro hfit
    have hnn : 0 ≤ ((listPagination f).1.Page - 1) * (listPagination f).1.PageSize :=
      mul_nonneg (by omega) (by omega)
    have hlt : (listPagination f).1.Page - 1 < 2 ^ 63 := by
      have : (listPagination f).1.Page - 1 ≤
          ((listPagination f).1.Page - 1) * (listPagination f).1.PageSize :=
        le_mul_of_one_le_right (by omega) h2.1
      omega
    have hoff : (listPagination f).2 =
        wrapInt64 (wrapInt64 ((listPagination f).1.Page - 1) * (listPagination f).1.PageSize) :=
      rfl
    rw [hoff, wrapInt64_of_range _ (by norm_num; omega) hlt,
      wrapInt64_of_range _ (by norm_num; omega) hfit]
    exact ⟨rfl, hnn⟩

/-- C15, witness. Page 3 with page size 500 is listed with `LIMIT` 100 and
`OFFSET` 200; page 0 with page size 0 with `LIMIT` 20 and `OFFSET` 0. -/
theorem listPagination_spec_witness :
    (listPagination ⟨3, 500, "", "", "", none, none, none⟩).1.PageSize = 100 ∧
    (listPagination ⟨3, 500, "", "", "", none, none, none⟩).2 = 200 ∧
    (listPagination ⟨0, 0, "", "", "", none, none, none⟩).1.PageSize = 20 ∧
    (listPagination ⟨0, 0, "", "", "", none, none, none⟩).2 = 0 :=
  ⟨by decide,
   (((listPagination_spec ⟨3, 500, "", "", "", none, none, none⟩).2.2.2.2.2.2.2.2.2.2.2
      (by decide)).1).trans (by decide),
   by decide,
   (((listPagination_spec ⟨0, 0, "", "", "", none, none, none⟩).2.2.2.2.2.2.2.2.2.2.2
      (by decide)).1).trans (by decide)⟩

section UnbanTheorems

variable {σ τ : Type}

/-! ### C16: `UnbanUser` -/

/-- C16, counterexample. The stored user is under a temporary ban that ran out at
time 50, so at the clock's reading 1000 the user is not banned; `UnbanUser` does
not fail: it calls `Unban` and returns the user. -/
theorem UnbanUser_of_expired_ban_succeeds :
    ((demoExpired "u1").IsBanned ((demoEnv okAudit).clock 0)).1 = false ∧
    (UnbanUser (demoEnv okAudit) "u1" "mod1" (demoWorld [demoExpired "u1"])).1.2 = none ∧
    (UnbanUser (demoEnv okAudit) "u1" "mod1" (demoWorld [demoExpired "u1"])).1.1.isSome
      = true ∧
    (⟨.Unban "u1", none⟩ : Event) ∈
      (UnbanUser (demoEnv okAudit) "u1" "mod1" (demoWorld [demoExpired "u1"])).2.trace := by
  decide

/-- C16, amended. `UnbanUser` fails with `user is not banned`, making no store call
other than the lookup (so neither `Unban` nor an audit write), for every user
with no ban record or whose ban record has `IsBanned` false. For every user
whose ban record has `IsBanned` true, be the ban in force or a temporary one
that has run out, it calls `Unban` and, when that returns nil, returns the user
with `BanInfo.IsBanned` false, `BannedUntil` absent and status `ACTIVE`. -/
theorem UnbanUser_spec (env : Env σ τ) (userID unbannedBy : String) (w : World σ τ)
    (user : User) (hf : (env.userRepo.FindByID userID w.users).1 = .ok user) :
    ((user.BanInfo = none ∨ ∃ b, user.BanInfo = some b ∧ b.IsBanned = false) →
      (UnbanUser env userID unbannedBy w).1 = (none, some (.other "user is not banned")) ∧
      (UnbanUser env userID unbannedBy w).2.since w = [⟨.FindByID userID, none⟩] ∧
      (UnbanUser env userID unbannedBy w).2.users = (env.userRepo.FindByID userID w.users).2 ∧
      (UnbanUser env userID unbannedBy w).2.audit = w.audit) ∧
    (∀ b, user.BanInfo = some b → b.IsBanned = true →
      (env.userRepo.Unban userID (env.userRepo.FindByID userID w.users).2).1 = none →
      (UnbanUser env userID unbannedBy w).1 =
        (some { user with
          BanInfo := some { b with IsBanned := false, BannedUntil := none }
          Status := UserStatusActive
          Password := "" }, none)) := by
  constructor
  · rintro (hnone | ⟨b, hb, hflag⟩)
    · simp [UnbanUser, callFindByID, hf, hnone, World.since, errOf]
    · simp [UnbanUser, callFindByID, hf, hb, hflag, World.since, errOf]
  · intro b hb hflag hunban
    simp [UnbanUser, callFindByID, hf, hb, hflag, callUnban, hunban, BanInfo.Unban]

/-- C16, witness. A user without ban record cannot be unbanned; a user under a
permanent ban is returned unbanned and active. -/
theorem UnbanUser_spec_witness :
    (UnbanUser (demoEnv okAudit) "u1" "mod1"
      (demoWorld [demoUser "u1" "a@x.com" UserRoleUser])).1 =
      (none, some (.other "user is not banned")) ∧
    (UnbanUser (demoEnv okAudit) "u1" "mod1" (demoWorld [demoBanned "u1"])).1 =
      (some { demoBanned "u1" with
        BanInfo := some { IsBanned := false, BannedAt := 1, BannedUntil := none,
                          Reason := "spam", BannedBy := "mod1" }
        Status := UserStatusActive
        Password := "" }, none) :=
  ⟨((UnbanUser_spec (demoEnv okAudit) "u1" "mod1"
      (demoWorld [demoUser "u1" "a@x.com" UserRoleUser])
      (demoUser "u1" "a@x.com" UserRoleUser) rfl).1 (Or.inl rfl)).1,
   (UnbanUser_spec (demoEnv okAudit) "u1" "mod1" (demoWorld [demoBanned "u1"])
      (demoBanned "u1") rfl).2 _ rfl rfl rfl⟩

/-! ### C17: the overlay of `UpdateUser` -/

/-- C17, counterexample. The partial carries a new password that is not empty and
has the format of a hash. `UpdateUser` succeeds and writes the user, and the
password written and stored is still the old one. -/
theorem UpdateUser_drops_hashed_password :
    (demoHashed "u1").Password ≠ "" ∧
    (demoHashed "u1").Password ≠ (demoUser "u1" "a@x.com" UserRoleUser).Password ∧
    (UpdateUser (demoEnv okAudit) (demoHashed "u1")
      (demoWorld [demoUser "u1" "a@x.com" UserRoleUser])).1.2 = none ∧
    (UpdateUser (demoEnv okAudit) (demoHashed "u1")
      (demoWorld [demoUser "u1" "a@x.com" UserRoleUser])).2.users.map User.Password =
      [(demoUser "u1" "a@x.com" UserRoleUser).Password] := by
  decide

/-- The password `UpdateUser` writes, by the password of the partial. -/
theorem updatePassword_cases (env : Env σ τ) (user existing : User) (p : String)
    (h : (if ¬user.Password = "" ∧ isHashedPassword user.Password = false then
            env.GenerateFromPassword user.Password
          else Except.ok existing.Password) = Except.ok p) :
    (user.Password = "" → p = existing.Password) ∧
    (¬user.Password = "" → isHashedPassword user.Password = false →
      env.GenerateFromPassword user.Password = Except.ok p) := by
  split at h
  · rename_i hc
    exact ⟨fun h0 => absurd h0 hc.1, fun _ _ => h⟩
  · rename_i hc
    simp only [Except.ok.injEq] at h
    exact ⟨fun _ => h.symm, fun h1 h2 => absurd ⟨h1, h2⟩ hc⟩

/-- C17, amended. Every user `UpdateUser` hands to `Update` has the id, status,
role, creation time, last login, ban record, subscription and metadata of the
user loaded, the name, email, phone and service email of the partial and a new
`UpdatedAt`; its password is the one loaded when the partial's is empty, and
the output of the hash primitive for the partial's password when that is not
empty and not in the format of a hash. -/
theorem UpdateUser_written (env : Env σ τ) (user : User) (w : World σ τ) (existing : User)
    (hf : (env.userRepo.FindByID user.ID w.users).1 = .ok existing)
    (written : User) (err : Option Error)
    (hw : (⟨.Update written, err⟩ : Event) ∈ (UpdateUser env user w).2.since w) :
    written.ID = existing.ID ∧ written.Status = existing.Status ∧
    written.Role = existing.Role ∧ written.CreatedAt = existing.CreatedAt ∧
    written.LastLoginAt = existing.LastLoginAt ∧ written.BanInfo = existing.BanInfo ∧
    written.Subscription = existing.Subscription ∧ written.Metadata = existing.Metadata ∧
    written.Name = user.Name ∧ written.Email = user.Email ∧ written.Phone = user.Phone ∧
    written.ServiceEmail = user.ServiceEmail ∧ written.UpdatedAt = env.clock w.tick ∧
    (user.Password = "" → written.Password = existing.Password) ∧
    (user.Password ≠ "" → isHashedPassword user.Password = false →
      env.GenerateFromPassword user.Password = .ok written.Password) := by
  simp only [UpdateUser, callFindByID, hf, callUpdate, callUpdateMetadata, callLogActivity,
    NewUserActivity, generateUUID, timeNow, World.since] at hw
  repeat' split at hw
  all_goals simp_all [errOf]
  all_goals (try (obtain ⟨rfl, -⟩ := hw))
  all_goals exact updatePassword_cases env user existing _ (by assumption)

/-- C17, witness. A partial with a new name, email and the password `newsecret`,
and with another role, is written with the name and email of the partial, the
role of the stored user and the hash of `newsecret`. -/
theorem UpdateUser_written_witness :
    ({ demoUser "u1" "a@x.com" UserRoleUser with
        Name := "bob", Email := "new@x.com", ServiceEmail := "new@x.com",
        UpdatedAt := 1000, Password := "$2a$10$newsecret" } : User).Role = UserRoleUser ∧
    (demoEnv okAudit).GenerateFromPassword "newsecret" = .ok
      ({ demoUser "u1" "a@x.com" UserRoleUser with
        Name := "bob", Email := "new@x.com", ServiceEmail := "new@x.com",
        UpdatedAt := 1000, Password := "$2a$10$newsecret" } : User).Password :=
  have h := UpdateUser_written (demoEnv okAudit)
    { demoUser "u1" "new@x.com" UserRoleAdmin with Name := "bob", Password := "newsecret" }
    (demoWorld [demoUser "u1" "a@x.com" UserRoleUser])
    (demoUser "u1" "a@x.com" UserRoleUser) rfl
    { demoUser "u1" "a@x.com" UserRoleUser with
      Name := "bob", Email := "new@x.com", ServiceEmail := "new@x.com",
      UpdatedAt := 1000, Password := "$2a$10$newsecret" }
    none (by decide)
  ⟨h.2.2.1, h.2.2.2.2.2.2.2.2.2.2.2.2.2.2 (by decide) (by decide)⟩

end UnbanTheorems

section RegisterTheorems

variable {σ τ : Type}

/-! ### C18: a successful `Register` -/

/-- C18, counterexample. The candidate supplies a password that already has the
format of a hash. `Register` succeeds, and the password of the user handed to
`Create` and stored is the supplied string itself. -/
theorem Register_stores_a_supplied_hash :
    ({ demoUser "" "a@x.com" UserRoleUser with Password := demoHash } : User).Password
      = demoHash ∧
    (Register demoHashingEnv { demoUser "" "a@x.com" UserRoleUser with Password := demoHash }
      (demoWorld [])).1.2 = none ∧
    (Register demoHashingEnv { demoUser "" "a@x.com" UserRoleUser with Password := demoHash }
      (demoWorld [])).2.users.map User.Password = [demoHash] := by
  decide

/-- C18, amended. Let the clock not run backwards and the hash primitive return
strings in the recognized hash format. A successful `Register` returns a user
with status `ACTIVE` and role `USER`, whatever the candidate carried, with
`CreatedAt` and `UpdatedAt` two successive readings of the clock taken during the
call, so that `CreatedAt ≤ UpdatedAt`; and the user handed to `Create` is the
returned one with a password in the recognized hash format: the output of the
hash primitive, and so not the password supplied, when the supplied one is not
in that format, and the supplied string itself when it is. -/
theorem Register_success_spec (env : Env σ τ) (candidate : User) (w : World σ τ) (u : User)
    (hclock : Monotone env.clock)
    (hhash : ∀ p h, env.GenerateFromPassword p = .ok h → isHashedPassword h = true)
    (h : (Register env candidate w).1 = (some u, none)) :
    u.Status = UserStatusActive ∧ u.Role = UserRoleUser ∧
    u.CreatedAt = env.clock (w.tick + 1) ∧ u.UpdatedAt = env.clock (w.tick + 2) ∧
    w.tick + 2 < (Register env candidate w).2.tick ∧
    u.CreatedAt ≤ u.UpdatedAt ∧
    ∃ password, isHashedPassword password = true ∧
      (isHashedPassword candidate.Password = false →
        env.GenerateFromPassword candidate.Password = .ok password ∧
        password ≠ candidate.Password) ∧
      (isHashedPassword candidate.Password = true → password = candidate.Password) ∧
      (⟨.Create { u with Password := password }, none⟩ : Event) ∈
        (Register env candidate w).2.since w := by
  have hmono : env.clock (w.tick + 1) ≤ env.clock (w.tick + 2) := hclock (by omega)
  simp only [Register, callExists, GenerateUUID, timeNow] at h ⊢
  cases hE : (env.userRepo.Exists candidate.Email candidate.Name w.users).1 with
  | error e => simp [hE] at h
  | ok b =>
    cases b with
    | true => simp [hE] at h
    | false =>
      simp only [hE] at h ⊢
      cases hP : (if isHashedPassword candidate.Password = true then
          Except.ok candidate.Password
        else env.GenerateFromPassword candidate.Password) with
      | error e => simp [hP] at h
      | ok password =>
        have hfmt : isHashedPassword password = true := by
          split at hP
          · rename_i hc
            simp only [Except.ok.injEq] at hP
            rw [← hP]
            exact hc
          · exact hhash _ _ hP
        have hne : isHashedPassword candidate.Password = false →
            env.GenerateFromPassword candidate.Password = .ok password ∧
            password ≠ candidate.Password := by
          intro hc
          refine ⟨by simpa [hc] using hP, ?_⟩
          intro heq
          rw [heq, hc] at hfmt
          cases hfmt
        have hsame : isHashedPassword candidate.Password = true →
            password = candidate.Password := by
          intro hc
          simp only [hc, if_true, Except.ok.injEq] at hP
          exact hP.symm
        simp only [hP] at h ⊢
        split at h
        · simp at h
        · rename_i hC
          simp only [Prod.mk.injEq, Option.some.injEq, and_true] at h
          subst h
          refine ⟨rfl, rfl, rfl, rfl, ?_, hmono, password, hfmt, hne, hsame, ?_⟩
          · simp only [hC]
            split <;>
              simp [callLogActivity, callSaveMetadata, NewUserActivity, generateUUID, timeNow,
                callCreate]
          · simp only [hC]
            simp only [callCreate] at hC
            split <;>
              simp [callLogActivity, callSaveMetadata, NewUserActivity, generateUUID, timeNow,
                callCreate, World.since, errOf, hC]

/-- C18, witness. A candidate with role `ADMIN`, status `SUSPENDED` and the password
`secret123` is registered as an active user with role `USER`, created at the
reading 1001 and updated at the reading 1002 of the clock. -/
theorem Register_success_spec_witness :
    (Register demoHashingEnv
      { demoUser "" "a@x.com" UserRoleAdmin with
        Password := "secret123", Status := UserStatusSuspended }
      (demoWorld [])).1 =
      (some { demoUser "" "a@x.com" UserRoleUser with
        ID := "0b0e4f0a-6c1d-4c59-9ad0-1f2e3d4c5b6a", Password := "",
        CreatedAt := 1001, UpdatedAt := 1002 }, none) ∧
    ({ demoUser "" "a@x.com" UserRoleUser with
        ID := "0b0e4f0a-6c1d-4c59-9ad0-1f2e3d4c5b6a", Password := "",
        CreatedAt := 1001, UpdatedAt := 1002 } : User).Status = UserStatusActive ∧
    ({ demoUser "" "a@x.com" UserRoleUser with
        ID := "0b0e4f0a-6c1d-4c59-9ad0-1f2e3d4c5b6a", Password := "",
        CreatedAt := 1001, UpdatedAt := 1002 } : User).Role = UserRoleUser :=
  have h := Register_success_spec demoHashingEnv
    { demoUser "" "a@x.com" UserRoleAdmin with
      Password := "secret123", Status := UserStatusSuspended }
    (demoWorld [])
    { demoUser "" "a@x.com" UserRoleUser with
      ID := "0b0e4f0a-6c1d-4c59-9ad0-1f2e3d4c5b6a", Password := "",
      CreatedAt := 1001, UpdatedAt := 1002 }
    (fun a b hab => by
      show (1000 : Int) + (a : Int) ≤ 1000 + (b : Int)
      have : a ≤ b := hab
      omega)
    (fun p h hp => by
      have : demoHash = h := by
        injection hp
      rw [← this]
      decide)
    rfl
  ⟨rfl, h.1, h.2.1⟩

end RegisterTheorems

section BanAndSubscriptionTheorems

variable {σ τ : Type}

/-! ### C19: a successful `BanUser` -/

/-- C19, counterexample. A ban for 3600 made while the clock reads 1000 and then
1001: the ban record returned has `BannedAt` 1000 and `BannedUntil` 4601, which is
not `BannedAt` plus the duration, `NewBanInfo` reading the clock a second time for
`BannedUntil`. -/
theorem BanUser_reads_the_clock_twice :
    (BanUser (demoEnv okAudit) "u1" "spam" "mod1" (some 3600)
      (demoWorld [demoUser "u1" "a@x.com" UserRoleUser])).1.1.bind User.BanInfo =
      some { IsBanned := true, BannedAt := 1000, BannedUntil := some 4601,
             Reason := "spam", BannedBy := "mod1" } ∧
    (4601 : Time) ≠ 1000 + 3600 := by
  decide

/-- C19, amended. A successful `BanUser` returns the user with a ban record that
has `IsBanned` true, the given reason and actor, `BannedAt` the reading of the
clock at the ban, and `BannedUntil` absent without a duration and, with a
duration, the next reading of the clock plus the duration, which is at least
`BannedAt` plus the duration when the clock does not run backwards; the status is
`BANNED_TEMPORARILY` exactly when a duration is given and `BANNED_PERMANENTLY`
exactly when none is. -/
theorem BanUser_success_spec (env : Env σ τ) (userID reason bannedBy : String)
    (duration : Option Duration) (w : World σ τ) (ub : User)
    (hclock : Monotone env.clock)
    (h : (BanUser env userID reason bannedBy duration w).1 = (some ub, none)) :
    ub.BanInfo = some
      { IsBanned := true, BannedAt := env.clock w.tick,
        BannedUntil := duration.map (fun d => env.clock (w.tick + 1) + d),
        Reason := reason, BannedBy := bannedBy } ∧
    (∀ d, duration = some d → env.clock w.tick + d ≤ env.clock (w.tick + 1) + d) ∧
    (ub.Status = UserStatusBannedTemporarily ↔ duration.isSome = true) ∧
    (ub.Status = UserStatusBannedPermanently ↔ duration = none) := by
  obtain ⟨user0, -, -, -, hub, -⟩ :=
    BanUser_success env userID reason bannedBy duration w ub h
  have hmono : env.clock w.tick ≤ env.clock (w.tick + 1) := hclock (by omega)
  subst hub
  refine ⟨rfl, fun d _ => add_le_add_right hmono d, ?_, ?_⟩
  · cases duration <;> first | (simp; done) | (simp; decide)
  · cases duration <;> first | (simp; done) | (simp; decide)

/-- C19, witness. The ban for 3600 of the counterexample, and a permanent ban. -/
theorem BanUser_success_spec_witness :
    (BanUser (demoEnv okAudit) "u1" "spam" "mod1" (some 3600)
      (demoWorld [demoUser "u1" "a@x.com" UserRoleUser])).1.1.bind User.BanInfo =
      some { IsBanned := true, BannedAt := 1000, BannedUntil := some 4601,
             Reason := "spam", BannedBy := "mod1" } ∧
    (BanUser (demoEnv okAudit) "u1" "spam" "mod1" none
      (demoWorld [demoUser "u1" "a@x.com" UserRoleUser])).1.1.bind User.BanInfo =
      some { IsBanned := true, BannedAt := 1000, BannedUntil := none,
             Reason := "spam", BannedBy := "mod1" } :=
  ⟨(BanUser_success_spec (demoEnv okAudit) "u1" "spam" "mod1" (some 3600)
      (demoWorld [demoUser "u1" "a@x.com" UserRoleUser]) _
      (fun a b hab => by
        show (1000 : Int) + (a : Int) ≤ 1000 + (b : Int)
        have : a ≤ b := hab
        omega) rfl).1,
   (BanUser_success_spec (demoEnv okAudit) "u1" "spam" "mod1" none
      (demoWorld [demoUser "u1" "a@x.com" UserRoleUser]) _
      (fun a b hab => by
        show (1000 : Int) + (a : Int) ≤ 1000 + (b : Int)
        have : a ≤ b := hab
        omega) rfl).1⟩

/-! ### C20: the subscription round trip -/

/-- The result of `IsBanned` is decided by the ban record. -/
theorem IsBanned_congr (u v : User) (now : Time) (h : u.BanInfo = v.BanInfo) :
    (u.IsBanned now).1 = (v.IsBanned now).1 := by
  simp only [User.IsBanned, h]
  repeat' split
  all_goals rfl

/-- The receiver `IsBanned` returns has the subscription it had. -/
theorem IsBanned_subscription (u : User) (now : Time) :
    (u.IsBanned now).2.Subscription = u.Subscription := by
  simp only [User.IsBanned]
  repeat' split
  all_goals rfl

/-- The call `user.IsBanned()` in the service gives what `IsBanned` gives at the
current reading of the clock. -/
theorem callIsBanned_result (env : Env σ τ) (u : User) (w : World σ τ) :
    (callIsBanned env u w).1 = u.IsBanned (env.clock w.tick) := by
  simp only [callIsBanned, timeNow]
  repeat' split
  all_goals rfl

/-- What a successful `UpdateSubscription` has done. -/
theorem UpdateSubscription_success (env : Env σ τ) (userID : String)
    (sub : SubscriptionInfo) (w : World σ τ) (user0 : User)
    (hf : (env.userRepo.FindByID userID w.users).1 = .ok user0)
    (h : (UpdateSubscription env userID sub w).1.2 = none) :
    (env.userRepo.UpdateSubscription userID sub (env.userRepo.FindByID userID w.users).2).1
      = none ∧
    (UpdateSubscription env userID sub w).2.users =
      (env.userRepo.UpdateSubscription userID sub
        (env.userRepo.FindByID userID w.users).2).2 := by
  simp only [UpdateSubscription, callFindByID, hf, callUpdateSubscription] at h ⊢
  split at h
  · simp at h
  · rename_i hu
    exact ⟨hu, by simp [hu, callLogActivity, callLogSubscriptionChange, NewUserActivity,
      NewSubscriptionHistoryEntry, generateUUID, timeNow]⟩

/-- C20. Over a record store that persists the subscription given to
`UpdateSubscription` and returns it from `FindByID`: when `UpdateSubscription`
succeeds for a stored user who is not banned at the time of the read that
follows, `GetUser` called right after returns a user whose subscription is the
one given, so with its level and status; and every history entry the update has
logged, of which there is one, records the level and status the user had before
(the empty ones if the user had no subscription) as old and those of the
given subscription as new. -/
theorem subscription_round_trip (env : Env σ τ) (userID : String) (sub : SubscriptionInfo)
    (w : World σ τ) (user0 : User)
    (hstore : PersistsSubscription env.userRepo)
    (hf : (env.userRepo.FindByID userID w.users).1 = .ok user0)
    (hupd : (UpdateSubscription env userID sub w).1.2 = none)
    (hnb : (user0.IsBanned (env.clock (UpdateSubscription env userID sub w).2.tick)).1
      = false) :
    (GetUser env userID (UpdateSubscription env userID sub w).2).1.2 = none ∧
    (GetUser env userID (UpdateSubscription env userID sub w).2).1.1.bind User.Subscription
      = some sub ∧
    ((GetUser env userID (UpdateSubscription env userID sub w).2).1.1.bind
      User.Subscription).map SubscriptionInfo.Level = some sub.Level ∧
    ((GetUser env userID (UpdateSubscription env userID sub w).2).1.1.bind
      User.Subscription).map SubscriptionInfo.Status = some sub.Status ∧
    (∃ entry err, (⟨.LogSubscriptionChange entry, err⟩ : Event) ∈
      (UpdateSubscription env userID sub w).2.since w) ∧
    (∀ entry err, (⟨.LogSubscriptionChange entry, err⟩ : Event) ∈
        (UpdateSubscription env userID sub w).2.since w →
      entry.UserID = userID ∧
      entry.OldLevel = (user0.Subscription.map SubscriptionInfo.Level).getD "" ∧
      entry.OldStatus = (user0.Subscription.map SubscriptionInfo.Status).getD "" ∧
      entry.NewLevel = sub.Level ∧ entry.NewStatus = sub.Status) := by
  obtain ⟨hu, husers⟩ := UpdateSubscription_success env userID sub w user0 hf hupd
  obtain ⟨u, hfu, hsub, hban⟩ := hstore userID sub w.users user0 hf hu
  rw [← husers] at hfu
  have hget : (GetUser env userID (UpdateSubscription env userID sub w).2).1.2 = none ∧
      (GetUser env userID (UpdateSubscription env userID sub w).2).1.1.bind User.Subscription
        = some sub := by
    generalize (UpdateSubscription env userID sub w).2 = w1 at hfu hnb ⊢
    have hnb' : (callIsBanned env u (callFindByID env userID w1).2).1.1 = false := by
      rw [callIsBanned_result, IsBanned_congr u user0 _ hban]
      exact hnb
    have hs' : (callIsBanned env u (callFindByID env userID w1).2).1.2.Subscription
        = some sub := by
      rw [callIsBanned_result, IsBanned_subscription, hsub]
    have hfu' : (callFindByID env userID w1).1 = .ok u := hfu
    simp only [GetUser, hfu', hnb', Bool.false_eq_true, if_false]
    split
    · refine ⟨rfl, ?_⟩
      split <;> simp [hs']
    · exact ⟨rfl, by simp [hs']⟩
  refine ⟨hget.1, hget.2, by rw [hget.2]; rfl, by rw [hget.2]; rfl, ?_, ?_⟩
  · simp only [UpdateSubscription, callFindByID, hf, callUpdateSubscription, hu,
      callLogSubscriptionChange, callLogActivity, NewUserActivity,
      NewSubscriptionHistoryEntry, generateUUID, timeNow, World.since]
    simp
  · intro entry err hmem
    simp only [UpdateSubscription, callFindByID, hf, callUpdateSubscription, hu,
      callLogSubscriptionChange, callLogActivity, NewUserActivity,
      NewSubscriptionHistoryEntry, generateUUID, timeNow, World.since] at hmem
    simp at hmem
    obtain ⟨rfl, -⟩ := hmem
    cases user0.Subscription <;> simp

/-- C20, witness. The stored user gets an active PRO subscription; `GetUser` right
after returns the user with that subscription. -/
theorem subscription_round_trip_witness :
    (GetUser (demoEnv okAudit) "u1"
      (UpdateSubscription (demoEnv okAudit) "u1"
        (demoSubscription SubscriptionStatusActive SubscriptionLevelPro none)
        (demoWorld [demoUser "u1" "a@x.com" UserRoleUser])).2).1.1.bind User.Subscription =
      some (demoSubscription SubscriptionStatusActive SubscriptionLevelPro none) :=
  (subscription_round_trip (demoEnv okAudit) "u1"
    (demoSubscription SubscriptionStatusActive SubscriptionLevelPro none)
    (demoWorld [demoUser "u1" "a@x.com" UserRoleUser])
    (demoUser "u1" "a@x.com" UserRoleUser)
    memUsers_persistsSubscription rfl rfl rfl).2.1

end BanAndSubscriptionTheorems

/-! ### C21: `SubscriptionInfo.Cancel` -/

/-- C21: `SubscriptionInfo.Cancel` sets the status to `CANCELED`, the reason to the
given one, `CanceledAt` to the reading of the clock and `AutoRenew` to false; an
immediate cancel sets `SubscriptionEnd` to `CanceledAt`, a deferred one leaves it;
the level, the amount, the currency, the start, the features and the other fields
stay; and a user holding an immediately cancelled subscription has no valid
subscription at any time. -/
theorem Cancel_spec (s : SubscriptionInfo) (now : Time) (reason : String) (immediate : Bool) :
    (s.Cancel now reason immediate).Status = SubscriptionStatusCanceled ∧
    (s.Cancel now reason immediate).CancelReason = reason ∧
    (s.Cancel now reason immediate).CanceledAt = some now ∧
    (s.Cancel now reason immediate).AutoRenew = false ∧
    (s.Cancel now reason true).SubscriptionEnd = (s.Cancel now reason true).CanceledAt ∧
    (s.Cancel now reason false).SubscriptionEnd = s.SubscriptionEnd ∧
    (s.Cancel now reason immediate).Level = s.Level ∧
    (s.Cancel now reason immediate).Amount = s.Amount ∧
    (s.Cancel now reason immediate).Currency = s.Currency ∧
    (s.Cancel now reason immediate).SubscriptionStart = s.SubscriptionStart ∧
    (s.Cancel now reason immediate).Features = s.Features ∧
    (s.Cancel now reason immediate).TrialEnd = s.TrialEnd ∧
    (s.Cancel now reason immediate).SubscriptionID = s.SubscriptionID ∧
    (s.Cancel now reason immediate).PaymentMethod = s.PaymentMethod ∧
    (s.Cancel now reason immediate).NextBillingDate = s.NextBillingDate ∧
    (s.Cancel now reason immediate).GracePeriodEnd = s.GracePeriodEnd ∧
    ∀ (u : User) (later : Time),
      User.HasValidSubscription
        { u with Subscription := some (s.Cancel now reason true) } later = false := by
  refine ⟨rfl, rfl, rfl, rfl, rfl, rfl, rfl, rfl, rfl, rfl, rfl, rfl, rfl, rfl, rfl, rfl, ?_⟩
  intro u later
  have h1 : SubscriptionStatusCanceled ≠ SubscriptionStatusActive := by decide
  have h2 : SubscriptionStatusCanceled ≠ SubscriptionStatusTrial := by decide
  have h3 : SubscriptionStatusCanceled ≠ SubscriptionStatusGracePeriod := by decide
  simp [User.HasValidSubscription, activeStatuses, hasValidLoop, SubscriptionInfo.Cancel,
    h1, h2, h3]

/-! ### C22: `isHashedPassword` -/

/-- A character below `0x80` is one byte, its own number. -/
theorem utf8Bytes_ascii (c : Char) (h : c.toNat < 128) : utf8Bytes c = [c.toNat] := by
  have h2 : c.val.toNat ≤ 127 := by
    have : c.toNat = c.val.toNat := rfl
    omega
  simp [utf8Bytes, h2, Char.toNat]

/-- A character whose first byte is below `0x80` is that one byte. -/
theorem utf8Bytes_head (c : Char) (n : Nat) (hn : n < 128) (tl : List Nat)
    (h : utf8Bytes c = n :: tl) : c.toNat = n ∧ tl = [] := by
  unfold utf8Bytes at h
  simp only [Char.toNat] at *
  split at h
  · simp at h
    exact ⟨h.1, h.2⟩
  · split at h
    · simp at h; omega
    · split at h
      · simp at h; omega
      · simp at h; omega

/-- Every character has at least one byte. -/
theorem utf8Bytes_ne_nil (c : Char) : utf8Bytes c ≠ [] := by
  unfold utf8Bytes
  simp only
  split
  · simp
  · split
    · simp
    · split <;> simp

/-- The number of bytes of a character is its `utf8Size`. -/
theorem utf8Bytes_length (c : Char) : (utf8Bytes c).length = c.utf8Size := by
  have key : ∀ (a : UInt32) (n : Nat) (h : n < UInt32.size),
      a ≤ UInt32.ofNatCore n h ↔ a.toNat ≤ n := fun _ _ _ => Iff.rfl
  unfold utf8Bytes Char.utf8Size
  simp only [key]
  split
  · rfl
  · split
    · rfl
    · split <;> rfl

/-- The number of bytes of a string is its `utf8ByteSize`. -/
theorem goBytes_length (s : String) : (goBytes s).length = s.utf8ByteSize := by
  cases s with
  | mk l =>
    simp only [goBytes, String.utf8ByteSize]
    induction l with
    | nil => rfl
    | cons c l ih =>
      simp only [List.flatMap_cons, List.length_append, String.utf8ByteSize.go, ih,
        utf8Bytes_length]
      omega

/-- The first bytes of a string spell a word of ASCII characters exactly when its
first characters do. -/
theorem take_bytes_iff (p : List Char) (hp : ∀ c ∈ p, c.toNat < 128) (l : List Char) :
    (l.flatMap utf8Bytes).take p.length = p.map Char.toNat ↔ l.take p.length = p := by
  induction p generalizing l with
  | nil => simp
  | cons a p ih =>
    have ha : a.toNat < 128 := hp a (List.mem_cons_self a p)
    have hp2 : ∀ c ∈ p, c.toNat < 128 := fun c hc => hp c (List.mem_cons_of_mem a hc)
    cases l with
    | nil => simp
    | cons c l =>
      simp only [List.flatMap_cons, List.length_cons, List.map_cons, List.take_succ_cons,
        List.cons.injEq]
      constructor
      · intro h
        cases hb : utf8Bytes c with
        | nil => exact absurd hb (utf8Bytes_ne_nil c)
        | cons b bs =>
          rw [hb] at h
          simp only [List.cons_append, List.take_succ_cons, List.cons.injEq] at h
          have hc := utf8Bytes_head c b (by omega) bs hb
          rw [hc.2] at h
          simp only [List.nil_append] at h
          refine ⟨?_, (ih hp2 l).mp h.2⟩
          apply Char.ext
          apply UInt32.ext
          have e1 : c.toNat = c.val.toNat := rfl
          have e2 : a.toNat = a.val.toNat := rfl
          omega
      · rintro ⟨rfl, h⟩
        rw [utf8Bytes_ascii c ha]
        simp only [List.cons_append, List.nil_append, List.take_succ_cons, List.cons.injEq,
          true_and]
        exact (ih hp2 l).mpr h

/-- The comparison of the first four bytes with an ASCII word of four characters
never panics on a string of 60 bytes, and says whether the string starts with the
word. -/
theorem firstFourAre_of_length (password : String) (lit : String)
    (hlen : (goBytes password).length = 60) (h4 : lit.data.length = 4)
    (hascii : ∀ c ∈ lit.data, c.toNat < 128) :
    firstFourAre (goBytes password) lit = some (decide (password.data.take 4 = lit.data)) := by
  have hb : goBytes lit = lit.data.map Char.toNat := by
    unfold goBytes
    generalize lit.data = l at hascii
    induction l with
    | nil => rfl
    | cons c l ih =>
      simp only [List.flatMap_cons, List.map_cons]
      rw [utf8Bytes_ascii c (hascii c (List.mem_cons_self c l)),
        ih (fun d hd => hascii d (List.mem_cons_of_mem c hd))]
      rfl
  have key := take_bytes_iff lit.data hascii password.data
  rw [h4] at key
  simp only [firstFourAre, sliceTo, hlen, hb]
  simp only [show (4 : Nat) ≤ 60 by decide, if_true, Option.map_some', Option.some.injEq,
    decide_eq_decide]
  exact key

/-- The two forms of `isHashedPassword` agree: evaluated on the bytes as Go does,
the function never panics and returns what the model of the service uses. -/
theorem isHashedPasswordBytes_goBytes (password : String) :
    isHashedPasswordBytes (goBytes password) = some (isHashedPassword password) := by
  unfold isHashedPasswordBytes isHashedPassword
  by_cases hlen : (goBytes password).length = 60
  · have hsize : password.utf8ByteSize = 60 := by rw [← goBytes_length]; exact hlen
    rw [if_pos hlen, firstFourAre_of_length password "$2a$" hlen rfl (by decide),
      firstFourAre_of_length password "$2b$" hlen rfl (by decide),
      firstFourAre_of_length password "$2x$" hlen rfl (by decide),
      firstFourAre_of_length password "$2y$" hlen rfl (by decide)]
    simp only [hsize, decide_True, Bool.true_and, Option.some_bind]
    by_cases ha : password.data.take 4 = "$2a$".data
    · simp [ha]
    · by_cases hb : password.data.take 4 = "$2b$".data
      · simp [hb]
      · by_cases hx : password.data.take 4 = "$2x$".data
        · simp [hx]
        · by_cases hy : password.data.take 4 = "$2y$".data
          · simp [hy]
          · simp [ha, hb, hx, hy]
  · have hsize : password.utf8ByteSize ≠ 60 := by rw [← goBytes_length]; exact hlen
    simp [hlen, hsize]

/-- On any bytes `isHashedPassword` returns, and returns true exactly for 60 bytes
of which the first four are one of the four prefixes. -/
theorem isHashedPasswordBytes_eq (b : List Nat) :
    isHashedPasswordBytes b = some (decide (b.length = 60 ∧
      (b.take 4 = goBytes "$2a$" ∨ b.take 4 = goBytes "$2b$" ∨
       b.take 4 = goBytes "$2x$" ∨ b.take 4 = goBytes "$2y$"))) := by
  unfold isHashedPasswordBytes
  by_cases hlen : b.length = 60
  · simp only [hlen, if_true, firstFourAre, sliceTo, show (4 : Nat) ≤ 60 by decide,
      Option.map_some', Option.some_bind, true_and]
    by_cases ha : b.take 4 = goBytes "$2a$"
    · simp [ha]
    · by_cases hb : b.take 4 = goBytes "$2b$"
      · simp [hb]
      · by_cases hx : b.take 4 = goBytes "$2x$"
        · simp [hx]
        · by_cases hy : b.take 4 = goBytes "$2y$"
          · simp [hy]
          · simp [ha, hb, hx, hy]
  · simp [hlen]

/-- C22: `isHashedPassword` is total and returns true exactly for a string of 60
bytes (Go's `len`) whose first four characters are `$2a$`, `$2b$`, `$2x$` or
`$2y$`: evaluated on the bytes as Go does, with a slice out of range a panic, it
returns a value for every byte string, that value is true exactly for 60 bytes
starting with one of the four prefixes, on the bytes of a string it is the value
the service model uses, and it is false for every string of fewer than four
bytes, the empty one included. -/
theorem isHashedPassword_spec (password : String) :
    (∀ b : List Nat, isHashedPasswordBytes b = some (decide (b.length = 60 ∧
      (b.take 4 = goBytes "$2a$" ∨ b.take 4 = goBytes "$2b$" ∨
       b.take 4 = goBytes "$2x$" ∨ b.take 4 = goBytes "$2y$")))) ∧
    isHashedPasswordBytes (goBytes password) = some (isHashedPassword password) ∧
    (isHashedPassword password = true ↔
      (goBytes password).length = 60 ∧
      (password.data.take 4 = "$2a$".data ∨ password.data.take 4 = "$2b$".data ∨
       password.data.take 4 = "$2x$".data ∨ password.data.take 4 = "$2y$".data)) ∧
    ((goBytes password).length < 4 → isHashedPassword password = false) ∧
    isHashedPassword "" = false ∧
    ((∀ c ∈ password.data, c.toNat < 128) → (goBytes password).length = password.length) := by
  refine ⟨isHashedPasswordBytes_eq, isHashedPasswordBytes_goBytes password, ?_, ?_, by decide, ?_⟩
  · rw [goBytes_length]
    simp [isHashedPassword, or_assoc]
  · intro h
    rw [goBytes_length] at h
    have : password.utf8ByteSize ≠ 60 := by omega
    simp [isHashedPassword, this]
  · intro h
    cases password with
    | mk l =>
      simp only [goBytes, String.length]
      simp only at h
      induction l with
      | nil => rfl
      | cons c l ih =>
        simp only [List.flatMap_cons, List.length_append, List.length_cons,
          utf8Bytes_ascii c (h c (List.mem_cons_self c l)), List.length_nil, Nat.zero_add]
        rw [ih (fun d hd => h d (List.mem_cons_of_mem c hd))]
        omega

/-! ### C23 and C30: the queries of the listing -/

/-- Appending the predicate of one more field, written with the placeholder
`argPos`, and its value keeps the state listing the fields. -/
theorem Lists_append (filter : UserFilter) (q : WhereState) (fields : List FilterField)
    (field : FilterField) (h : q.Lists filter fields) :
    WhereState.Lists
      { conditions := q.conditions ++ [field.predicate q.argPos]
        args := q.args ++ [field.value filter]
        argPos := q.argPos + 1 } filter (fields ++ [field]) := by
  obtain ⟨h1, h2, h3⟩ := h
  refine ⟨?_, ?_, ?_⟩
  · simp only [List.length_append, List.length_singleton]
    rw [List.range'_1_concat, List.zipWith_append _ _ _ _ _ (by simp), h1, h3]
    simp [Nat.add_comm]
  · simp [h2]
  · simp [h3]

/-- The test of the search text. -/
theorem Lists_search (filter : UserFilter) (q : WhereState) (fields : List FilterField)
    (h : q.Lists filter fields) :
    WhereState.Lists
      (if filter.Search ≠ "" then
        { conditions := q.conditions ++
            ["(name ILIKE " ++ dollar q.argPos ++ " OR email ILIKE " ++ dollar q.argPos ++
              " OR phone ILIKE " ++ dollar q.argPos ++ ")"]
          args := q.args ++ [.text ("%" ++ filter.Search ++ "%")]
          argPos := q.argPos + 1 }
      else q) filter
      (fields ++ [FilterField.search].filter (fun field => field.isSet filter)) := by
  by_cases hc : filter.Search ≠ ""
  · simp only [hc, if_true, List.filter, FilterField.isSet, decide_True, not_false_eq_true,
      ne_eq]
    exact Lists_append filter q fields .search h
  · simp only [hc, if_false, List.filter, FilterField.isSet, decide_False, List.append_nil]
    exact h

/-- The test of the status. -/
theorem Lists_status (filter : UserFilter) (q : WhereState) (fields : List FilterField)
    (h : q.Lists filter fields) :
    WhereState.Lists
      (if filter.Status ≠ "" ∧ filter.Status ≠ UserStatusUnspecified then
        { conditions := q.conditions ++ ["status = " ++ dollar q.argPos]
          args := q.args ++ [.text filter.Status]
          argPos := q.argPos + 1 }
      else q) filter
      (fields ++ [FilterField.status].filter (fun field => field.isSet filter)) := by
  by_cases hc : filter.Status ≠ "" ∧ filter.Status ≠ UserStatusUnspecified
  · simp only [hc, if_true, List.filter, FilterField.isSet, decide_True, not_false_eq_true,
      ne_eq, and_self]
    exact Lists_append filter q fields .status h
  · simp only [hc, if_false, List.filter, FilterField.isSet, decide_False, List.append_nil]
    exact h

/-- The test of the role. -/
theorem Lists_role (filter : UserFilter) (q : WhereState) (fields : List FilterField)
    (h : q.Lists filter fields) :
    WhereState.Lists
      (if filter.Role ≠ "" ∧ filter.Role ≠ UserRoleUnspecified then
        { conditions := q.conditions ++ ["role = " ++ dollar q.argPos]
          args := q.args ++ [.text filter.Role]
          argPos := q.argPos + 1 }
      else q) filter
      (fields ++ [FilterField.role].filter (fun field => field.isSet filter)) := by
  by_cases hc : filter.Role ≠ "" ∧ filter.Role ≠ UserRoleUnspecified
  · simp only [hc, if_true, List.filter, FilterField.isSet, decide_True, not_false_eq_true,
      ne_eq, and_self]
    exact Lists_append filter q fields .role h
  · simp only [hc, if_false, List.filter, FilterField.isSet, decide_False, List.append_nil]
    exact h

/-- The test of the ban flag. -/
theorem Lists_isBanned (filter : UserFilter) (q : WhereState) (fields : List FilterField)
    (h : q.Lists filter fields) :
    WhereState.Lists
      (match filter.IsBanned with
       | some isBanned =>
         { conditions := q.conditions ++ ["is_banned = " ++ dollar q.argPos]
           args := q.args ++ [.bool isBanned]
           argPos := q.argPos + 1 }
       | none => q) filter
      (fields ++ [FilterField.isBanned].filter (fun field => field.isSet filter)) := by
  cases hc : filter.IsBanned with
  | none =>
    simp only [List.filter, FilterField.isSet, hc, Option.isSome_none, List.append_nil]
    exact h
  | some b =>
    simp only [List.filter, FilterField.isSet, hc, Option.isSome_some]
    have := Lists_append filter q fields .isBanned h
    simp only [FilterField.value, hc, Option.getD_some] at this
    exact this

/-- The test of the subscription status. -/
theorem Lists_subStatus (filter : UserFilter) (q : WhereState) (fields : List FilterField)
    (h : q.Lists filter fields) :
    WhereState.Lists
      (match filter.SubStatus with
       | some subStatus =>
         if subStatus ≠ "" then
           { conditions := q.conditions ++ ["subscription_status = " ++ dollar q.argPos]
             args := q.args ++ [.text subStatus]
             argPos := q.argPos + 1 }
         else q
       | none => q) filter
      (fields ++ [FilterField.subStatus].filter (fun field => field.isSet filter)) := by
  cases hc : filter.SubStatus with
  | none =>
    simp only [List.filter, FilterField.isSet, hc, ne_eq, not_true_eq_false, false_and,
      decide_False, List.append_nil]
    exact h
  | some v =>
    by_cases hv : v = ""
    · simp only [List.filter, FilterField.isSet, hc, hv, ne_eq, not_true_eq_false, and_false,
        decide_False, List.append_nil, if_false]
      exact h
    · simp only [List.filter, FilterField.isSet, hc, hv, ne_eq, not_false_eq_true, if_true,
        reduceCtorEq, Option.some.injEq, and_self, decide_True]
      have := Lists_append filter q fields .subStatus h
      simp only [FilterField.value, hc, Option.getD_some] at this
      exact this

/-- The test of the subscription level. -/
theorem Lists_subLevel (filter : UserFilter) (q : WhereState) (fields : List FilterField)
    (h : q.Lists filter fields) :
    WhereState.Lists
      (match filter.SubLevel with
       | some subLevel =>
         if subLevel ≠ "" then
           { conditions := q.conditions ++ ["subscription_level = " ++ dollar q.argPos]
             args := q.args ++ [.text subLevel]
             argPos := q.argPos + 1 }
         else q
       | none => q) filter
      (fields ++ [FilterField.subLevel].filter (fun field => field.isSet filter)) := by
  cases hc : filter.SubLevel with
  | none =>
    simp only [List.filter, FilterField.isSet, hc, ne_eq, not_true_eq_false, false_and,
      decide_False, List.append_nil]
    exact h
  | some v =>
    by_cases hv : v = ""
    · simp only [List.filter, FilterField.isSet, hc, hv, ne_eq, not_true_eq_false, and_false,
        decide_False, List.append_nil, if_false]
      exact h
    · simp only [List.filter, FilterField.isSet, hc, hv, ne_eq, not_false_eq_true, if_true,
        reduceCtorEq, Option.some.injEq, and_self, decide_True]
      have := Lists_append filter q fields .subLevel h
      simp only [FilterField.value, hc, Option.getD_some] at this
      exact this

/-- The set fields, test by test. -/
theorem setFields_eq (filter : UserFilter) :
    setFields filter =
      [FilterField.notDeleted] ++
        [FilterField.search].filter (fun field => field.isSet filter) ++
        [FilterField.status].filter (fun field => field.isSet filter) ++
        [FilterField.role].filter (fun field => field.isSet filter) ++
        [FilterField.isBanned].filter (fun field => field.isSet filter) ++
        [FilterField.subStatus].filter (fun field => field.isSet filter) ++
        [FilterField.subLevel].filter (fun field => field.isSet filter) := by
  have h : filterFields =
      [FilterField.notDeleted] ++ [FilterField.search] ++ [FilterField.status] ++
        [FilterField.role] ++ [FilterField.isBanned] ++ [FilterField.subStatus] ++
        [FilterField.subLevel] := rfl
  rw [setFields, h]
  simp only [List.filter_append]
  rfl

/-- The conditions, the arguments and `argPos` of `List`, field by field: the
conditions are the predicates of the set fields, numbered from 1 in their order,
the arguments are their values, and `argPos` is the next number. -/
theorem listWhere_eq (filter : UserFilter) :
    (listWhere filter).conditions =
      List.zipWith FilterField.predicate (setFields filter)
        (List.range' 1 (setFields filter).length) ∧
    (listWhere filter).args = (setFields filter).map (FilterField.value filter) ∧
    (listWhere filter).argPos = (setFields filter).length + 1 := by
  have h0 : WhereState.Lists
      { conditions := ["status != $1"], args := [.text UserStatusDeleted], argPos := 1 + 1 }
      filter [FilterField.notDeleted] := ⟨by decide, rfl, rfl⟩
  have h := Lists_subLevel filter _ _ (Lists_subStatus filter _ _ (Lists_isBanned filter _ _
    (Lists_role filter _ _ (Lists_status filter _ _ (Lists_search filter _ _ h0)))))
  rw [← setFields_eq] at h
  exact h

/-- The set fields are fields of the listing in its order, each at most once. -/
theorem setFields_sublist (filter : UserFilter) :
    (setFields filter).Sublist filterFields ∧ (setFields filter).Nodup := by
  have h : (setFields filter).Sublist filterFields := List.filter_sublist _
  exact ⟨h, h.nodup (by decide)⟩

/-- A field is among the set fields exactly when the filter sets it. -/
theorem mem_setFields (filter : UserFilter) (field : FilterField) :
    field ∈ setFields filter ↔ field.isSet filter = true := by
  simp only [setFields, List.mem_filter, and_iff_right_iff_imp]
  intro _
  cases field <;> decide

/-- C23: for every filter the WHERE clause of both queries of `List` is the
conditions joined by `AND`; the conditions are the predicates of the fields the
filter sets, one for each in the order of the listing, each with a placeholder;
and a field is among them exactly when it is set: the not-deleted predicate
always, the search when it is not empty, the status and the role when they are
neither empty nor `UNSPECIFIED`, the ban flag when it is not nil, the subscription
status and level when they are not nil and not empty. -/
theorem listWhere_ands_the_set_predicates (filter : UserFilter) :
    (listCountQuery filter).1 =
      "SELECT COUNT(*) FROM users WHERE " ++
        " AND ".intercalate (listWhere filter).conditions ∧
    (listPageQuery filter).1 =
      "\n\t\tSELECT * FROM users \n\t\tWHERE " ++
        " AND ".intercalate (listWhere filter).conditions ++
        " \n\t\tORDER BY created_at DESC \n\t\tLIMIT " ++ dollar (listWhere filter).argPos ++
        " OFFSET " ++ dollar ((listWhere filter).argPos + 1) ∧
    (listWhere filter).conditions.length = (setFields filter).length ∧
    (∃ ns : List Nat, ns.length = (setFields filter).length ∧
      (listWhere filter).conditions =
        List.zipWith FilterField.predicate (setFields filter) ns) ∧
    (setFields filter).Sublist filterFields ∧ (setFields filter).Nodup ∧
    FilterField.notDeleted ∈ setFields filter ∧
    (FilterField.search ∈ setFields filter ↔ filter.Search ≠ "") ∧
    (FilterField.status ∈ setFields filter ↔
      filter.Status ≠ "" ∧ filter.Status ≠ UserStatusUnspecified) ∧
    (FilterField.role ∈ setFields filter ↔
      filter.Role ≠ "" ∧ filter.Role ≠ UserRoleUnspecified) ∧
    (FilterField.isBanned ∈ setFields filter ↔ filter.IsBanned ≠ none) ∧
    (FilterField.subStatus ∈ setFields filter ↔
      ∃ v, filter.SubStatus = some v ∧ v ≠ "") ∧
    (FilterField.subLevel ∈ setFields filter ↔
      ∃ v, filter.SubLevel = some v ∧ v ≠ "") := by
  have h := listWhere_eq filter
  refine ⟨rfl, rfl, ?_, ⟨List.range' 1 (setFields filter).length, by simp, h.1⟩,
    (setFields_sublist filter).1, (setFields_sublist filter).2, ?_, ?_, ?_, ?_, ?_, ?_, ?_⟩
  · rw [h.1]; simp
  · rw [mem_setFields]; rfl
  · rw [mem_setFields]; simp [FilterField.isSet]
  · rw [mem_setFields]; simp [FilterField.isSet]
  · rw [mem_setFields]; simp [FilterField.isSet]
  · rw [mem_setFields]; cases h : filter.IsBanned <;> simp [FilterField.isSet, h]
  · rw [mem_setFields]; cases h : filter.SubStatus <;> simp [FilterField.isSet, h]
  · rw [mem_setFields]; cases h : filter.SubLevel <;> simp [FilterField.isSet, h]

/-- C30, counterexample. For page 2 ^ 62 and page size 100 the page query binds
`OFFSET`, its third argument, to -100, which is not `(page - 1) * pageSize`. -/
theorem listPageQuery_offset_wraps :
    (listPageQuery ⟨2 ^ 62, 100, "", "", "", none, none, none⟩).2 =
      [.text UserStatusDeleted, .int 100, .int (-100)] ∧
    (listPagination ⟨2 ^ 62, 100, "", "", "", none, none, none⟩).1.Page = 2 ^ 62 ∧
    (listPagination ⟨2 ^ 62, 100, "", "", "", none, none, none⟩).1.PageSize = 100 ∧
    (-100 : Int) ≠ (2 ^ 62 - 1) * 100 := by
  decide

/-- C30, amended: for every filter with `k` set fields, the not-deleted one
included, the conditions of `List` are the predicates of these fields with the
placeholders `$1` to `$k` in order; the count query receives `k` arguments, the
values of these predicates in the same order; the page query receives these and
two more, `LIMIT` is written with `$(k+1)` and bound to the normalised page size,
`OFFSET` is written with `$(k+2)` and bound to the offset computed in the 64 bits
of a Go `int`, which is `(page - 1) * pageSize` of the normalised values whenever
that product fits. -/
theorem listQuery_placeholders_align (filter : UserFilter) :
    (listWhere filter).conditions =
      List.zipWith FilterField.predicate (setFields filter)
        (List.range' 1 (setFields filter).length) ∧
    (listCountQuery filter).2 = (setFields filter).map (FilterField.value filter) ∧
    (listCountQuery filter).2.length = (setFields filter).length ∧
    (listPageQuery filter).2 =
      (listCountQuery filter).2 ++
        [.int (listPagination filter).1.PageSize, .int (listPagination filter).2] ∧
    (listPageQuery filter).2.length = (setFields filter).length + 2 ∧
    (listPageQuery filter).1 =
      "\n\t\tSELECT * FROM users \n\t\tWHERE " ++ listWhereClause filter ++
        " \n\t\tORDER BY created_at DESC \n\t\tLIMIT " ++
        dollar ((setFields filter).length + 1) ++
        " OFFSET " ++ dollar ((setFields filter).length + 2) ∧
    (listPagination filter).2 =
      wrapInt64 (wrapInt64 ((listPagination filter).1.Page - 1) *
        (listPagination filter).1.PageSize) ∧
    (((listPagination filter).1.Page - 1) * (listPagination filter).1.PageSize < 2 ^ 63 →
      (listPagination filter).2 =
        ((listPagination filter).1.Page - 1) * (listPagination filter).1.PageSize) := by
  have h := listWhere_eq filter
  have hargs : (listCountQuery filter).2 = (setFields filter).map (FilterField.value filter) :=
    h.2.1
  refine ⟨h.1, hargs, by rw [hargs]; simp, rfl, ?_, ?_, rfl, ?_⟩
  · show ((listWhere filter).args ++ _).length = _
    rw [h.2.1]; simp
  · show _ ++ dollar (listWhere filter).argPos ++ _ ++ dollar ((listWhere filter).argPos + 1) = _
    rw [h.2.2]
  · intro hfit
    have h1 : 1 ≤ (listPagination filter).1.Page := by
      simp only [listPagination]
      split_ifs <;> simp_all
    have h2 : 1 ≤ (listPagination filter).1.PageSize := by
      simp only [listPagination]
      split_ifs <;> simp_all
    have hnn : 0 ≤ ((listPagination filter).1.Page - 1) * (listPagination filter).1.PageSize :=
      mul_nonneg (by omega) (by omega)
    have hlt : (listPagination filter).1.Page - 1 < 2 ^ 63 := by
      have : (listPagination filter).1.Page - 1 ≤
          ((listPagination filter).1.Page - 1) * (listPagination filter).1.PageSize :=
        le_mul_of_one_le_right (by omega) h2
      omega
    have hoff : (listPagination filter).2 =
        wrapInt64 (wrapInt64 ((listPagination filter).1.Page - 1) *
          (listPagination filter).1.PageSize) := rfl
    have hw : ∀ x : Int, -2 ^ 63 ≤ x → x < 2 ^ 63 → wrapInt64 x = x := by
      intro x hx1 hx2
      unfold wrapInt64
      norm_num at hx1 hx2 ⊢
      omega
    rw [hoff, hw _ (by norm_num; omega) hlt, hw _ (by norm_num; omega) hfit]

/-- C30 on a filter with a search text, a status and a ban flag, page 3 in pages
of 500: four predicates with `$1` to `$4`, `LIMIT $5` bound to 100 and
`OFFSET $6` bound to 200. -/
theorem listQuery_placeholders_align_witness :
    (listWhere ⟨3, 500, "bob", "ACTIVE", "", some true, none, none⟩).conditions =
      ["status != $1", "(name ILIKE $2 OR email ILIKE $2 OR phone ILIKE $2)",
       "status = $3", "is_banned = $4"] ∧
    (listPageQuery ⟨3, 500, "bob", "ACTIVE", "", some true, none, none⟩).2 =
      [.text "DELETED", .text "%bob%", .text "ACTIVE", .bool true, .int 100, .int 200] ∧
    (listPageQuery ⟨3, 500, "bob", "ACTIVE", "", some true, none, none⟩).1 =
      "\n\t\tSELECT * FROM users \n\t\tWHERE status != $1 AND (name ILIKE $2 OR email ILIKE $2 OR phone ILIKE $2) AND status = $3 AND is_banned = $4 \n\t\tORDER BY created_at DESC \n\t\tLIMIT $5 OFFSET $6" :=
  have h := listQuery_placeholders_align ⟨3, 500, "bob", "ACTIVE", "", some true, none, none⟩
  ⟨h.1.trans rfl, h.2.2.2.1.trans rfl, h.2.2.2.2.2.1.trans rfl⟩

/-! ### C24: the status `PostgresUserRepository.Ban` stores -/

/-- The encoded ban record has no member `banned_until`, whatever the record: the
members are named after the fields of the struct. -/
theorem jsonbText_banned_until (banInfo : BanInfo) :
    jsonbText banInfo.Marshal "banned_until" = none := by
  rfl

/-- The `CASE` of the statement always takes its `ELSE` branch. -/
theorem banStatus_Marshal (banInfo : BanInfo) :
    banStatus banInfo.Marshal = UserStatusBannedPermanently := by
  rfl

/-- Every row `PostgresUserRepository.Ban` rewrites gets the status of a permanent
ban. -/
theorem Ban_status (rows : List UserDBModel) (userID : String) (banInfo : BanInfo)
    (now : Time) :
    (PostgresUserRepository.Ban rows userID banInfo now).map (fun row => row.Status) =
      rows.map (fun row =>
        if row.ID = userID then UserStatusBannedPermanently else row.Status) := by
  simp only [PostgresUserRepository.Ban, List.map_map]
  apply List.map_congr_left
  intro row _
  by_cases h : row.ID = userID
  · simp [h, banStatus_Marshal]
  · simp [h]

/-- C24, at the failing input: `BanUser` with a duration of 3600 succeeds and
returns the user with status `BANNED_TEMPORARILY` and a ban record that ends at
4601; `PostgresUserRepository.Ban`, given that ban record, stores the status
`BANNED_PERMANENTLY`, because the encoded record has its end date under the key
`BannedUntil` and the statement asks for the key `banned_until`. -/
theorem Ban_stores_permanent_status_for_a_temporary_ban :
    (BanUser (demoEnv okAudit) "u1" "spam" "admin1" (some 3600)
      (demoWorld [demoUser "u1" "a@x.com" UserRoleUser])).1.2 = none ∧
    (BanUser (demoEnv okAudit) "u1" "spam" "admin1" (some 3600)
      (demoWorld [demoUser "u1" "a@x.com" UserRoleUser])).1.1.map (fun u => u.Status) =
      some UserStatusBannedTemporarily ∧
    (BanUser (demoEnv okAudit) "u1" "spam" "admin1" (some 3600)
      (demoWorld [demoUser "u1" "a@x.com" UserRoleUser])).1.1.map (fun u => u.BanInfo) =
      some (some ⟨true, 1000, some 4601, "spam", "admin1"⟩) ∧
    (PostgresUserRepository.Ban [demoRow "u1"] "u1" ⟨true, 1000, some 4601, "spam", "admin1"⟩
      1002).map (fun row => row.Status) = [UserStatusBannedPermanently] ∧
    jsonbText (BanInfo.Marshal ⟨true, 1000, some 4601, "spam", "admin1"⟩) "banned_until" =
      none ∧
    jsonbText (BanInfo.Marshal ⟨true, 1000, some 4601, "spam", "admin1"⟩) "BannedUntil" =
      some (.time 4601) := by
  decide

/-! ### C27: the status codes of `GetUserById` -/

section HandlerTheorems

variable {σ τ : Type}

/-- When the record store reports a missing user as `PostgresUserRepository.FindByID`
does, the handler answers `Internal`, with the text of the error as message. -/
theorem GetUserById_not_found (env : Env σ τ) (id : String) (w : World σ τ)
    (h : (env.userRepo.FindByID id w.users).1 = .error (NewUserNotFoundError id)) :
    (UserHandler.GetUserById env id w).1 =
      (none, some ⟨.Internal, (NewUserNotFoundError id).errorText⟩) := by
  have hf : (callFindByID env id w).1 = .error (NewUserNotFoundError id) := h
  have hne : NewUserNotFoundError id ≠ ErrUserNotFound := by
    simp [NewUserNotFoundError, NewDomainError, ErrUserNotFound]
  have hne2 : NewUserNotFoundError id ≠ ErrUserBanned := by
    simp [NewUserNotFoundError, NewDomainError, ErrUserBanned]
  simp only [UserHandler.GetUserById, GetUser, hf, hne, hne2, if_false]

/-- When the service reports the user banned, the handler answers
`PermissionDenied`. -/
theorem GetUserById_banned (env : Env σ τ) (id : String) (w : World σ τ)
    (h : (GetUser env id w).1.2 = some ErrUserBanned) :
    (UserHandler.GetUserById env id w).1 =
      (none, some ⟨.PermissionDenied, "user is banned"⟩) := by
  have hne : ErrUserBanned ≠ ErrUserNotFound := by decide
  simp only [UserHandler.GetUserById, h, hne, if_false, if_true]

/-- C27, at the failing input: the store holds no user `nobody` and reports it with
the error of `NewUserNotFoundError`, code `USER_NOT_FOUND`; the service passes
that error on, the handler finds it different from the package value
`ErrUserNotFound` and answers `Internal`, not `NotFound`; a banned user is
answered with `PermissionDenied`. -/
theorem GetUserById_reports_a_missing_user_as_Internal :
    ((demoEnv okAudit).userRepo.FindByID "nobody" []).1 =
      .error (NewUserNotFoundError "nobody") ∧
    (NewUserNotFoundError "nobody").code = some ErrCodeUserNotFound ∧
    (UserHandler.GetUserById (demoEnv okAudit) "nobody" (demoWorld [])).1 =
      (none, some ⟨.Internal,
        "Пользователь с ID 'nobody' не найден (код: USER_NOT_FOUND)"⟩) ∧
    (UserHandler.GetUserById (demoEnv okAudit) "u1" (demoWorld [demoBanned "u1"])).1 =
      (none, some ⟨.PermissionDenied, "user is banned"⟩) :=
  ⟨rfl, by decide, by decide, by decide⟩

end HandlerTheorems

section FrameTheorems

variable {σ τ : Type}

/-! ### C25: what `IsBanned` changes -/

/-- C25, counterexample: a ban that runs until time 50 is in force at time 40 and
over at time 60, so the second call, at a later time, returns another result than
the first, which left the user as it was. -/
theorem IsBanned_later_call_differs :
    ((demoExpired "u1").IsBanned 40).1 = true ∧
    ((demoExpired "u1").IsBanned 40).2 = demoExpired "u1" ∧
    (((demoExpired "u1").IsBanned 40).2.IsBanned 60).1 = false := by
  decide

/-- C25, amended: on a user whose ban has an end date before the reading of the
clock `IsBanned` sets the flag of the ban record to false and changes nothing
else; in every other case it returns the user as it was; the call made by the
service leaves both stores and the trace of store calls as they were; a second
call at the same time returns the same result and changes nothing more; and a
second call at any time returns the same result except when the ban is in force
with an end date not before the first call and before the second. -/
theorem IsBanned_frame (env : Env σ τ) (w : World σ τ) (u : User) (t1 t2 : Time) :
    (∀ b untl, u.BanInfo = some b → b.BannedUntil = some untl → untl < t1 →
      (u.IsBanned t1).2 = { u with BanInfo := some { b with IsBanned := false } }) ∧
    ((∀ b untl, u.BanInfo = some b → b.BannedUntil = some untl → ¬ untl < t1) →
      (u.IsBanned t1).2 = u) ∧
    ((callIsBanned env u w).2.users = w.users ∧ (callIsBanned env u w).2.audit = w.audit ∧
      (callIsBanned env u w).2.trace = w.trace) ∧
    (u.IsBanned t1).2.IsBanned t1 = ((u.IsBanned t1).1, (u.IsBanned t1).2) ∧
    ((((u.IsBanned t1).2.IsBanned t2).1 = (u.IsBanned t1).1) ↔
      ¬ ∃ b untl, u.BanInfo = some b ∧ b.IsBanned = true ∧ b.BannedUntil = some untl ∧
        t1 ≤ untl ∧ untl < t2) := by
  refine ⟨?_, ?_, ?_, ?_, ?_⟩
  · intro b untl hb hu hlt
    cases hf : b.IsBanned <;> simp [User.IsBanned, hb, hu, hlt, hf]
    cases u; cases b; simp_all
  · intro h
    cases hb : u.BanInfo with
    | none => simp [User.IsBanned, hb]
    | some b =>
      cases hu : b.BannedUntil with
      | none => cases hf : b.IsBanned <;> simp [User.IsBanned, hb, hu, hf]
      | some untl =>
        have := h b untl hb hu
        cases hf : b.IsBanned <;> simp [User.IsBanned, hb, hu, hf, this]
  · unfold callIsBanned timeNow
    repeat' split
    all_goals simp
  · cases hb : u.BanInfo with
    | none => simp [User.IsBanned, hb]
    | some b =>
      cases hf : b.IsBanned
      · simp [User.IsBanned, hb, hf]
      · cases hu : b.BannedUntil with
        | none => simp [User.IsBanned, hb, hu, hf]
        | some untl =>
          by_cases hlt : untl < t1 <;> simp [User.IsBanned, hb, hu, hf, hlt]
  · cases hb : u.BanInfo with
    | none => simp [User.IsBanned, hb]
    | some b =>
      cases hf : b.IsBanned
      · simp [User.IsBanned, hb, hf]
      · cases hu : b.BannedUntil with
        | none => simp [User.IsBanned, hb, hu, hf]
        | some untl =>
          by_cases hlt : untl < t1
          · have : ¬ t1 ≤ untl := not_le.mpr hlt
            simp [User.IsBanned, hb, hu, hf, hlt, this]
          · have h1 : t1 ≤ untl := not_lt.mp hlt
            by_cases hlt2 : untl < t2 <;> simp [User.IsBanned, hb, hu, hf, hlt, hlt2, h1]

end FrameTheorems

/-! ### C26: the page count is the ceiling of the quotient -/

/-- The page count never panics: with the division as Go performs it the local
`totalPages` has a value, the one `ListUsersResponseToProto` returns. -/
theorem totalPages_eq (userses : List User) (total page pageSize : Int) :
    totalPages total pageSize =
      some (ListUsersResponseToProto userses total page pageSize).TotalPages := by
  unfold totalPages ListUsersResponseToProto divInt64
  by_cases hp : pageSize > 0
  · have h0 : pageSize ≠ 0 := by omega
    simp only [hp, h0, if_true, if_false, Option.map_some', Option.some.injEq]
    generalize Int.tdiv (wrapInt64 (wrapInt64 (total + pageSize) - 1)) pageSize = q
    unfold wrapInt32 wrapInt64
    omega
  · simp [hp]

/-- C26: for a total that is not negative and a positive page size, with
`total + pageSize - 1` an `int64` and the quotient an `int32`,
`ListUsersResponseToProto` returns as page count the ceiling of the quotient of
the total by the page size: it is 0 for a total of 0, and otherwise the least
number whose product with the page size reaches the total; for a page size of 0
or less the page count is 0; and in no case does the division panic. -/
theorem TotalPages_ceiling (userses : List User) (total page pageSize : Int) :
    (0 ≤ total → 0 < pageSize → total + pageSize - 1 < 2 ^ 63 →
      (total + pageSize - 1) / pageSize < 2 ^ 31 →
      (ListUsersResponseToProto userses total page pageSize).TotalPages =
        (total + pageSize - 1) / pageSize ∧
      (total = 0 → (ListUsersResponseToProto userses total page pageSize).TotalPages = 0) ∧
      0 ≤ (ListUsersResponseToProto userses total page pageSize).TotalPages ∧
      total ≤ (ListUsersResponseToProto userses total page pageSize).TotalPages * pageSize ∧
      ∀ n : Int, total ≤ n * pageSize →
        (ListUsersResponseToProto userses total page pageSize).TotalPages ≤ n) ∧
    (pageSize ≤ 0 → (ListUsersResponseToProto userses total page pageSize).TotalPages = 0) ∧
    totalPages total pageSize =
      some (ListUsersResponseToProto userses total page pageSize).TotalPages := by
  refine ⟨?_, ?_, totalPages_eq userses total page pageSize⟩
  · intro h0 hp h64 h32
    have ha : 0 ≤ total + pageSize - 1 := by omega
    have hw : wrapInt64 (wrapInt64 (total + pageSize) - 1) = total + pageSize - 1 := by
      unfold wrapInt64
      omega
    have hq0 : 0 ≤ (total + pageSize - 1) / pageSize := Int.ediv_nonneg ha (le_of_lt hp)
    have hq : (ListUsersResponseToProto userses total page pageSize).TotalPages =
        (total + pageSize - 1) / pageSize := by
      simp only [ListUsersResponseToProto, hp, if_true, hw]
      rw [Int.tdiv_eq_ediv ha (le_of_lt hp)]
      unfold wrapInt32
      omega
    have hdm := Int.ediv_add_emod (total + pageSize - 1) pageSize
    have hm0 := Int.emod_nonneg (total + pageSize - 1) (ne_of_gt hp)
    have hm1 := Int.emod_lt_of_pos (total + pageSize - 1) hp
    rw [hq]
    refine ⟨rfl, ?_, hq0, ?_, ?_⟩
    · intro ht
      subst ht
      apply Int.ediv_eq_zero_of_lt <;> omega
    · nlinarith
    · intro n hn
      by_contra hlt
      have h1 : n + 1 ≤ (total + pageSize - 1) / pageSize := by omega
      have h2 : (n + 1) * pageSize ≤ (total + pageSize - 1) / pageSize * pageSize :=
        mul_le_mul_of_nonneg_right h1 (le_of_lt hp)
      nlinarith
  · intro hp
    have : ¬ pageSize > 0 := by omega
    simp [ListUsersResponseToProto, this]

/-- C26 at 45 users in pages of 20: three pages. -/
theorem TotalPages_ceiling_witness :
    (ListUsersResponseToProto [] 45 1 20).TotalPages = (45 + 20 - 1) / 20 ∧
    (ListUsersResponseToProto [] 45 1 20).TotalPages = 3 ∧
    (45 : Int) ≤ (ListUsersResponseToProto [] 45 1 20).TotalPages * 20 :=
  have h := (TotalPages_ceiling [] 45 1 20).1 (by decide) (by decide) (by decide) (by decide)
  ⟨h.1, by decide, h.2.2.2.1⟩

section CredentialTheorems

variable {σ τ : Type}

/-! ### C28: the stored hash as a credential -/

/-- C28: when the record store finds a user whose stored password is in the
recognized hash format (60 bytes with one of the four prefixes), who is not banned,
and for whom a token is issued, `Authenticate` with the stored string as the
password succeeds with that token and the user, whatever the hash primitive
answers: replacing it changes nothing of the outcome; and a supplied string in the
recognized format that differs from the stored one fails with
`ErrInvalidCredentials`. -/
theorem Authenticate_stored_hash_is_a_credential (env : Env σ τ) (email : String)
    (w : World σ τ) (u : User) (token : String)
    (hf : (env.userRepo.FindByEmail email w.users).1 = .ok u)
    (hhash : isHashedPassword u.Password = true)
    (hban : (u.IsBanned (env.clock w.tick)).1 = false)
    (htok : env.jwtManager.GenerateToken u.ID u.Email u.Role = .ok token) :
    (Authenticate env email u.Password w).1.2.2 = none ∧
    (Authenticate env email u.Password w).1.2.1 = token ∧
    (∃ v, (Authenticate env email u.Password w).1.1 = some v ∧ v.ID = u.ID ∧
      v.Email = u.Email ∧ v.Password = "") ∧
    (∀ cmp, Authenticate { env with CompareHashAndPassword := cmp } email u.Password w =
      Authenticate env email u.Password w) ∧
    (∀ p, isHashedPassword p = true → p ≠ u.Password →
      (Authenticate env email p w).1 = (none, "", some ErrInvalidCredentials)) := by
  have hb : (callIsBanned env u (callFindByEmail env email w).2).1 =
      u.IsBanned (env.clock w.tick) := by
    rw [callIsBanned_result]; rfl
  have hfe : (callFindByEmail env email w).1 = .ok u := hf
  have hid : (u.IsBanned (env.clock w.tick)).2.ID = u.ID ∧
      (u.IsBanned (env.clock w.tick)).2.Email = u.Email ∧
      (u.IsBanned (env.clock w.tick)).2.Role = u.Role := by
    simp only [User.IsBanned]
    repeat' split
    all_goals exact ⟨rfl, rfl, rfl⟩
  refine ⟨?_, ?_, ?_, ?_, ?_⟩
  · simp only [Authenticate, hfe, hhash, hb, hban, hid.1, hid.2.1, hid.2.2, htok]
    simp
  · simp only [Authenticate, hfe, hhash, hb, hban, hid.1, hid.2.1, hid.2.2, htok]
    simp
  · simp only [Authenticate, hfe, hhash, hb, hban, hid.1, hid.2.1, hid.2.2, htok]
    simp [hid.1, hid.2.1]
  · intro cmp
    simp only [Authenticate, callFindByEmail, callIsBanned, timeNow, callUpdate,
      NewUserActivity, generateUUID, callLogActivity, hhash]
    rfl
  · intro p hp hne
    simp only [Authenticate, hfe, hp]
    simp [Ne.symm hne]

/-- C28 on the demo store: the stored hash of the demo user, supplied as the
password, is accepted. -/
theorem Authenticate_stored_hash_is_a_credential_witness :
    (Authenticate (demoEnv okAudit) "a@x.com" demoHash (demoWorld [demoHashed "u1"])).1.2.2
      = none ∧
    (Authenticate (demoEnv okAudit) "a@x.com" demoHash (demoWorld [demoHashed "u1"])).1.2.1
      = "token:u1" :=
  have h := Authenticate_stored_hash_is_a_credential (demoEnv okAudit) "a@x.com"
    (demoWorld [demoHashed "u1"]) (demoHashed "u1") "token:u1" rfl (by decide)
    (by decide) rfl
  ⟨h.1, h.2.1⟩

/-! ### C29: when `CheckSubscriptionAccess` looks at the validity -/

/-- C29: for a user `GetUser` returns with a subscription, `CheckSubscriptionAccess`
with the empty feature returns what the comparison of the level with the required
one says, access when the level is not below, whatever the status and the end date
of the subscription; with a feature it grants access exactly when moreover the
subscription is valid at the reading of the clock and lists the feature, and
otherwise fails with `ErrSubscriptionRequired`. -/
theorem CheckSubscriptionAccess_validity_only_with_feature (env : Env σ τ)
    (userID : String) (requiredLevel : SubscriptionLevel) (feature : String)
    (w : World σ τ) (user : User) (s : SubscriptionInfo)
    (hget : (GetUser env userID w).1 = (some user, none))
    (hsub : user.Subscription = some s) :
    (feature = "" →
      (CheckSubscriptionAccess env userID requiredLevel feature w).1 =
        if stringLess s.Level requiredLevel then (false, some ErrSubscriptionRequired)
        else (true, none)) ∧
    (feature ≠ "" →
      ((CheckSubscriptionAccess env userID requiredLevel feature w).1 = (true, none) ↔
        stringLess s.Level requiredLevel = false ∧
        user.HasValidSubscription (env.clock (GetUser env userID w).2.tick) = true ∧
        feature ∈ s.Features) ∧
      ((CheckSubscriptionAccess env userID requiredLevel feature w).1 = (true, none) ∨
        (CheckSubscriptionAccess env userID requiredLevel feature w).1 =
          (false, some ErrSubscriptionRequired))) := by
  have h1 : (GetUser env userID w).1.1 = some user := by rw [hget]
  have h2 : (GetUser env userID w).1.2 = none := by rw [hget]
  constructor
  · intro hfe
    simp only [CheckSubscriptionAccess, h1, h2, hsub, hfe]
    split <;> simp
  · intro hfe
    simp only [CheckSubscriptionAccess, h1, h2, hsub, timeNow, User.CanAccessFeature]
    cases hl : stringLess s.Level requiredLevel
    · cases hv : user.HasValidSubscription (env.clock (GetUser env userID w).2.tick)
      · simp [hfe]
      · by_cases hm : feature ∈ s.Features
        · have hx : ¬ ∀ x ∈ s.Features, ¬ x = feature := fun h => h feature hm rfl
          simp [hfe, hm, hx]
        · have hx : ∀ x ∈ s.Features, ¬ x = feature := fun x hx he => hm (he ▸ hx)
          simp [hfe, hm]
          rw [if_pos hx]
          simp
    · simp

/-- C29 on the demo store: a subscription of level `PRO` that is cancelled and
ended at time 5 still gives access at the level `BASIC` when no feature is named. -/
theorem CheckSubscriptionAccess_validity_only_with_feature_witness :
    (CheckSubscriptionAccess (demoEnv okAudit) "u1" "BASIC" ""
      (demoWorld [{ demoUser "u1" "a@x.com" UserRoleUser with
        Subscription := some (demoSubscription SubscriptionStatusCanceled "PRO" (some 5)) }])).1
      = (true, none) :=
  (CheckSubscriptionAccess_validity_only_with_feature (demoEnv okAudit) "u1" "BASIC" ""
    (demoWorld [{ demoUser "u1" "a@x.com" UserRoleUser with
      Subscription := some (demoSubscription SubscriptionStatusCanceled "PRO" (some 5)) }])
    { demoUser "u1" "a@x.com" UserRoleUser with
      Password := ""
      Subscription := some (demoSubscription SubscriptionStatusCanceled "PRO" (some 5)) }
    (demoSubscription SubscriptionStatusCanceled "PRO" (some 5)) (by decide) rfl).1 rfl

end CredentialTheorems

end UserService
